import Mathlib

/-!
PandoraSDK: membership of the particle flow object, and the xml file reader.

A shallow embedding of `src/Objects/ParticleFlowObject.cc` and
`src/Persistency/XmlFileReader.cc`, with the properties of the specification stated and
proved over it.

Conventions of the embedding

* A pointer to an object is a natural number, the address it holds; `NULL` is `0`.
* A `std::set` of pointers is a strictly ascending list of addresses: the iteration order
  of the set is the order of the list.
* A pointer to a node of the xml document is the list of sibling nodes that starts at the
  node; `NULL` is the empty list.
* A `float` is only moved by this code, never computed on: a value is the bit pattern of the
  IEEE single it holds.
* The classes, enumerations and macros that the two files use are declared in headers that
  are not among the source files. Their members are taken from the use the two files make
  of them; the functions among them are parameters of the embedding.
-/

namespace pandora

/-! ## Status codes -/

/-- Modelled from the spec: the enumeration `StatusCode` of `StatusCodes.h`, which is not
among the source files. These are the codes that the two source files name. -/
inductive StatusCode where
  | STATUS_CODE_SUCCESS
  | STATUS_CODE_FAILURE
  | STATUS_CODE_NOT_FOUND
  | STATUS_CODE_ALREADY_PRESENT
  | STATUS_CODE_INVALID_PARAMETER
  deriving DecidableEq, Repr, Inhabited

export StatusCode (STATUS_CODE_SUCCESS STATUS_CODE_FAILURE STATUS_CODE_NOT_FOUND
  STATUS_CODE_ALREADY_PRESENT STATUS_CODE_INVALID_PARAMETER)

/-- A pointer value; `NULL` is address zero. -/
abbrev Address := Nat

/-- The null pointer. -/
abbrev NULL : Address := 0

/-- Bit pattern of a `float`. -/
abbrev FloatBits := Nat

/-! ## `std::set` of pointers -/

/-- A `std::set<T *>`: the addresses held, strictly ascending (the set's iteration order). -/
structure PtrSet where
  elems : List Address
  sorted : elems.Sorted (· < ·)

namespace PtrSet

instance : DecidableEq PtrSet := fun a b =>
  match a, b with
  | ⟨xs, _⟩, ⟨ys, _⟩ =>
    if h : xs = ys then isTrue (by subst h; rfl)
    else isFalse (fun h2 => h (by cases h2; rfl))

/-- The empty set. -/
def empty : PtrSet := ⟨[], List.sorted_nil⟩

instance : Inhabited PtrSet := ⟨empty⟩

instance : Membership Address PtrSet := ⟨fun s p => p ∈ s.elems⟩

instance (p : Address) (s : PtrSet) : Decidable (p ∈ s) :=
  inferInstanceAs (Decidable (p ∈ s.elems))

/-- Source: `size()`. -/
def size (s : PtrSet) : Nat := s.elems.length

/-- Source: `insert(p)`: the set after the call and the `.second` of the returned pair (whether
the insertion took place). -/
def insert (s : PtrSet) (p : Address) : PtrSet × Bool :=
  if h : p ∈ s.elems then (s, false)
  else
    (⟨s.elems.orderedInsert (· ≤ ·) p,
      (s.sorted.le_of_lt.orderedInsert p s.elems).lt_of_le
        ((List.perm_orderedInsert (· ≤ ·) p s.elems).nodup_iff.mpr
          (List.nodup_cons.mpr ⟨h, s.sorted.nodup⟩))⟩, true)

/-- Source: `find(p)`, compared with `end()`: whether an element was found. -/
def find (s : PtrSet) (p : Address) : Bool := decide (p ∈ s.elems)

/-- Source: `erase(iter)` for the iterator that `find(p)` returned. -/
def erase (s : PtrSet) (p : Address) : PtrSet :=
  ⟨s.elems.erase p, s.sorted.sublist (List.erase_sublist p s.elems)⟩

end PtrSet

/-! ## The particle flow object -/

/-- A `CartesianVector`: three floats. -/
structure CartesianVector where
  x : FloatBits
  y : FloatBits
  z : FloatBits
  deriving DecidableEq, Repr, Inhabited

/-- The members of `ParticleFlowObject`. -/
structure ParticleFlowObject where
  m_particleId : Int
  m_charge : Int
  m_mass : FloatBits
  m_energy : FloatBits
  m_momentum : CartesianVector
  m_trackList : PtrSet
  m_clusterList : PtrSet
  m_vertexList : PtrSet
  m_parentPfoList : PtrSet
  m_daughterPfoList : PtrSet
  deriving DecidableEq

namespace ParticleFlowObject

/-- Source: `AddToPfo(Cluster *pCluster)`. -/
def AddToPfo_Cluster (pfo : ParticleFlowObject) (pCluster : Address) :
    StatusCode × ParticleFlowObject :=
  let ins := pfo.m_clusterList.insert pCluster
  if !ins.2 then (STATUS_CODE_ALREADY_PRESENT, { pfo with m_clusterList := ins.1 })
  else (STATUS_CODE_SUCCESS, { pfo with m_clusterList := ins.1 })

/-- Source: `AddToPfo(Track *pTrack)`. -/
def AddToPfo_Track (pfo : ParticleFlowObject) (pTrack : Address) :
    StatusCode × ParticleFlowObject :=
  let ins := pfo.m_trackList.insert pTrack
  if !ins.2 then (STATUS_CODE_ALREADY_PRESENT, { pfo with m_trackList := ins.1 })
  else (STATUS_CODE_SUCCESS, { pfo with m_trackList := ins.1 })

/-- Source: `AddToPfo(Vertex *pVertex)`. -/
def AddToPfo_Vertex (pfo : ParticleFlowObject) (pVertex : Address) :
    StatusCode × ParticleFlowObject :=
  let ins := pfo.m_vertexList.insert pVertex
  if !ins.2 then (STATUS_CODE_ALREADY_PRESENT, { pfo with m_vertexList := ins.1 })
  else (STATUS_CODE_SUCCESS, { pfo with m_vertexList := ins.1 })

/-- Source: `RemoveFromPfo(Cluster *pCluster)`. -/
def RemoveFromPfo_Cluster (pfo : ParticleFlowObject) (pCluster : Address) :
    StatusCode × ParticleFlowObject :=
  if !pfo.m_clusterList.find pCluster then (STATUS_CODE_NOT_FOUND, pfo)
  else (STATUS_CODE_SUCCESS, { pfo with m_clusterList := pfo.m_clusterList.erase pCluster })

/-- Source: `RemoveFromPfo(Track *pTrack)`. -/
def RemoveFromPfo_Track (pfo : ParticleFlowObject) (pTrack : Address) :
    StatusCode × ParticleFlowObject :=
  if !pfo.m_trackList.find pTrack then (STATUS_CODE_NOT_FOUND, pfo)
  else (STATUS_CODE_SUCCESS, { pfo with m_trackList := pfo.m_trackList.erase pTrack })

/-- Source: `RemoveFromPfo(Vertex *pVertex)`. -/
def RemoveFromPfo_Vertex (pfo : ParticleFlowObject) (pVertex : Address) :
    StatusCode × ParticleFlowObject :=
  if !pfo.m_vertexList.find pVertex then (STATUS_CODE_NOT_FOUND, pfo)
  else (STATUS_CODE_SUCCESS, { pfo with m_vertexList := pfo.m_vertexList.erase pVertex })

/-- Source: `AddParent(ParticleFlowObject *const pPfo)`. -/
def AddParent (pfo : ParticleFlowObject) (pPfo : Address) : StatusCode × ParticleFlowObject :=
  if NULL = pPfo then (STATUS_CODE_INVALID_PARAMETER, pfo)
  else
    let ins := pfo.m_parentPfoList.insert pPfo
    if !ins.2 then (STATUS_CODE_ALREADY_PRESENT, { pfo with m_parentPfoList := ins.1 })
    else (STATUS_CODE_SUCCESS, { pfo with m_parentPfoList := ins.1 })

/-- Source: `AddDaughter(ParticleFlowObject *const pPfo)`. -/
def AddDaughter (pfo : ParticleFlowObject) (pPfo : Address) : StatusCode × ParticleFlowObject :=
  if NULL = pPfo then (STATUS_CODE_INVALID_PARAMETER, pfo)
  else
    let ins := pfo.m_daughterPfoList.insert pPfo
    if !ins.2 then (STATUS_CODE_ALREADY_PRESENT, { pfo with m_daughterPfoList := ins.1 })
    else (STATUS_CODE_SUCCESS, { pfo with m_daughterPfoList := ins.1 })

/-- Source: `RemoveParent(ParticleFlowObject *const pPfo)`. -/
def RemoveParent (pfo : ParticleFlowObject) (pPfo : Address) :
    StatusCode × ParticleFlowObject :=
  if !pfo.m_parentPfoList.find pPfo then (STATUS_CODE_NOT_FOUND, pfo)
  else (STATUS_CODE_SUCCESS, { pfo with m_parentPfoList := pfo.m_parentPfoList.erase pPfo })

/-- Source: `RemoveDaughter(ParticleFlowObject *const pPfo)`. -/
def RemoveDaughter (pfo : ParticleFlowObject) (pPfo : Address) :
    StatusCode × ParticleFlowObject :=
  if !pfo.m_daughterPfoList.find pPfo then (STATUS_CODE_NOT_FOUND, pfo)
  else (STATUS_CODE_SUCCESS, { pfo with m_daughterPfoList := pfo.m_daughterPfoList.erase pPfo })

/-- The five sets of a particle flow object. -/
inductive SetKind where
  | tracks
  | clusters
  | vertices
  | parents
  | daughters
  deriving DecidableEq, Repr

/-- The set of the given kind. -/
def getSet (pfo : ParticleFlowObject) : SetKind → PtrSet
  | .tracks => pfo.m_trackList
  | .clusters => pfo.m_clusterList
  | .vertices => pfo.m_vertexList
  | .parents => pfo.m_parentPfoList
  | .daughters => pfo.m_daughterPfoList

/-- The add operation of each set. -/
def add (pfo : ParticleFlowObject) : SetKind → Address → StatusCode × ParticleFlowObject
  | .tracks => pfo.AddToPfo_Track
  | .clusters => pfo.AddToPfo_Cluster
  | .vertices => pfo.AddToPfo_Vertex
  | .parents => pfo.AddParent
  | .daughters => pfo.AddDaughter

/-- The remove operation of each set. -/
def remove (pfo : ParticleFlowObject) : SetKind → Address → StatusCode × ParticleFlowObject
  | .tracks => pfo.RemoveFromPfo_Track
  | .clusters => pfo.RemoveFromPfo_Cluster
  | .vertices => pfo.RemoveFromPfo_Vertex
  | .parents => pfo.RemoveParent
  | .daughters => pfo.RemoveDaughter

/-- Whether the add operation of the set rejects the null pointer. -/
def SetKind.rejectsNull : SetKind → Bool
  | .parents => true
  | .daughters => true
  | _ => false

/-- The members of `PandoraContentApi::ParticleFlowObject::Parameters` that the
constructor reads. -/
structure Parameters where
  m_particleId : Int
  m_charge : Int
  m_mass : FloatBits
  m_energy : FloatBits
  m_momentum : CartesianVector
  m_trackList : PtrSet
  m_clusterList : PtrSet
  m_vertexList : PtrSet

/-- Source: `ParticleFlowObject::ParticleFlowObject`. The parent and daughter lists are
default-constructed, so empty. -/
def construct (parameters : Parameters) : ParticleFlowObject :=
  { m_particleId := parameters.m_particleId
    m_charge := parameters.m_charge
    m_mass := parameters.m_mass
    m_energy := parameters.m_energy
    m_momentum := parameters.m_momentum
    m_trackList := parameters.m_trackList
    m_clusterList := parameters.m_clusterList
    m_vertexList := parameters.m_vertexList
    m_parentPfoList := PtrSet.empty
    m_daughterPfoList := PtrSet.empty }

/-- A particle flow object constructed with one track at address 16, one cluster at
address 32 and no vertex. -/
def sample : ParticleFlowObject :=
  construct
    { m_particleId := 22
      m_charge := 0
      m_mass := 0
      m_energy := 0
      m_momentum := ⟨0, 0, 0⟩
      m_trackList := (PtrSet.empty.insert 16).1
      m_clusterList := (PtrSet.empty.insert 32).1
      m_vertexList := PtrSet.empty }

end ParticleFlowObject

/-! ## The xml document

The document tree as the reader walks it: the top-level nodes of the document (the
containers), the child nodes of a container (the records) and the child elements of a
record (the fields). A node that is not an element (a comment, a declaration, text) has a
value and no children.

A node pointer is the list of sibling nodes that starts at the node it points to: `NULL`
is the empty list, and following the next-sibling link drops the head. -/

/-- A child element of a record: the field's name and text. -/
structure FieldNode where
  name : String
  text : String
  deriving DecidableEq, Repr

/-- A child node of a container. -/
inductive RecordNode where
  | element (value : String) (fields : List FieldNode)
  | other (value : String)
  deriving DecidableEq, Repr

/-- A top-level node of the document. -/
inductive ContainerNode where
  | element (value : String) (children : List RecordNode)
  | other (value : String)
  deriving DecidableEq, Repr

/-- Pointer to a child node of a container (`TiXmlElement *` / `TiXmlNode *`). -/
abbrev RecordPtr := List RecordNode

/-- Pointer to a top-level node (`TiXmlNode *`). -/
abbrev ContainerPtr := List ContainerNode

namespace RecordNode

/-- Source: `ToElement()` is non-null. -/
def isElement : RecordNode → Bool
  | element _ _ => true
  | other _ => false

/-- Source: `ValueStr()`. -/
def ValueStr : RecordNode → String
  | element v _ => v
  | other v => v

/-- The child elements of the node. -/
def fields : RecordNode → List FieldNode
  | element _ fs => fs
  | other _ => []

end RecordNode

namespace ContainerNode

/-- Source: `ToElement()` is non-null. -/
def isElement : ContainerNode → Bool
  | element _ _ => true
  | other _ => false

/-- Source: `ValueStr()`. -/
def ValueStr : ContainerNode → String
  | element v _ => v
  | other v => v

/-- The child nodes of the node. -/
def children : ContainerNode → List RecordNode
  | element _ cs => cs
  | other _ => []

end ContainerNode

/-- Source: `TiXmlHandle(m_pXmlDocument).FirstChildElement().Element()`: the first top-level
element of the document. -/
def FirstChildElement (doc : List ContainerNode) : ContainerPtr :=
  doc.dropWhile fun n => !n.isElement

/-- Source: `node->NextSibling()`. -/
def ContainerPtr.NextSibling (p : ContainerPtr) : ContainerPtr := p.tail

/-- Source: `TiXmlHandle(pNode).FirstChild().Element()`: the first child node of `pNode`, if it
is an element; `NULL` when `pNode` is `NULL`, has no child, or its first child is not an
element. -/
def ContainerPtr.FirstChild_Element (p : ContainerPtr) : RecordPtr :=
  match p with
  | [] => []
  | node :: _ =>
    match node.children with
    | [] => []
    | child :: rest => if child.isElement then child :: rest else []

/-- Source: `pElement->NextSiblingElement()`: the next sibling that is an element. -/
def RecordPtr.NextSiblingElement (p : RecordPtr) : RecordPtr :=
  p.tail.dropWhile fun n => !n.isElement

/-- Source: `pElement->ValueStr()`; the empty string stands for the value read through `NULL`,
which the reader never does. -/
def RecordPtr.ValueStr (p : RecordPtr) : String :=
  match p with
  | [] => ""
  | node :: _ => node.ValueStr

/-! ## Parameter bundles -/

/-- A `TrackState`: six floats. -/
structure TrackState where
  x : FloatBits
  y : FloatBits
  z : FloatBits
  px : FloatBits
  py : FloatBits
  pz : FloatBits
  deriving DecidableEq, Repr, Inhabited

/-- Source: `PandoraApi::Geometry::LayerParameters`. -/
structure LayerParameters where
  m_closestDistanceToIp : FloatBits
  m_nRadiationLengths : FloatBits
  m_nInteractionLengths : FloatBits
  deriving DecidableEq, Repr, Inhabited

/-- Source: `PandoraApi::Geometry::SubDetector::Parameters`. -/
structure SubDetectorParameters where
  m_subDetectorName : String
  m_subDetectorType : Nat
  m_innerRCoordinate : FloatBits
  m_innerZCoordinate : FloatBits
  m_innerPhiCoordinate : FloatBits
  m_innerSymmetryOrder : Nat
  m_outerRCoordinate : FloatBits
  m_outerZCoordinate : FloatBits
  m_outerPhiCoordinate : FloatBits
  m_outerSymmetryOrder : Nat
  m_isMirroredInZ : Bool
  m_nLayers : Nat
  m_layerParametersList : List LayerParameters
  deriving DecidableEq, Repr, Inhabited

/-- Source: `PandoraApi::Geometry::BoxGap::Parameters`. -/
structure BoxGapParameters where
  m_vertex : CartesianVector
  m_side1 : CartesianVector
  m_side2 : CartesianVector
  m_side3 : CartesianVector
  deriving DecidableEq, Repr, Inhabited

/-- Source: `PandoraApi::Geometry::ConcentricGap::Parameters`. -/
structure ConcentricGapParameters where
  m_minZCoordinate : FloatBits
  m_maxZCoordinate : FloatBits
  m_innerRCoordinate : FloatBits
  m_innerPhiCoordinate : FloatBits
  m_innerSymmetryOrder : Nat
  m_outerRCoordinate : FloatBits
  m_outerPhiCoordinate : FloatBits
  m_outerSymmetryOrder : Nat
  deriving DecidableEq, Repr, Inhabited

/-- Source: `PandoraApi::CaloHit::Parameters`. -/
structure CaloHitParameters where
  m_positionVector : CartesianVector
  m_expectedDirection : CartesianVector
  m_cellNormalVector : CartesianVector
  m_cellGeometry : Nat
  m_cellSize0 : FloatBits
  m_cellSize1 : FloatBits
  m_cellThickness : FloatBits
  m_nCellRadiationLengths : FloatBits
  m_nCellInteractionLengths : FloatBits
  m_time : FloatBits
  m_inputEnergy : FloatBits
  m_mipEquivalentEnergy : FloatBits
  m_electromagneticEnergy : FloatBits
  m_hadronicEnergy : FloatBits
  m_isDigital : Bool
  m_hitType : Nat
  m_hitRegion : Nat
  m_layer : Nat
  m_isInOuterSamplingLayer : Bool
  m_pParentAddress : Address
  deriving DecidableEq, Repr, Inhabited

/-- Source: `PandoraApi::Track::Parameters`. -/
structure TrackParameters where
  m_d0 : FloatBits
  m_z0 : FloatBits
  m_particleId : Int
  m_charge : Int
  m_mass : FloatBits
  m_momentumAtDca : CartesianVector
  m_trackStateAtStart : TrackState
  m_trackStateAtEnd : TrackState
  m_trackStateAtCalorimeter : TrackState
  m_timeAtCalorimeter : FloatBits
  m_reachesCalorimeter : Bool
  m_isProjectedToEndCap : Bool
  m_canFormPfo : Bool
  m_canFormClusterlessPfo : Bool
  m_pParentAddress : Address
  deriving DecidableEq, Repr, Inhabited

/-- Source: `PandoraApi::MCParticle::Parameters`. -/
structure MCParticleParameters where
  m_energy : FloatBits
  m_momentum : CartesianVector
  m_vertex : CartesianVector
  m_endpoint : CartesianVector
  m_particleId : Int
  m_mcParticleType : Nat
  m_pParentAddress : Address
  deriving DecidableEq, Repr, Inhabited

/-- The six kinds of object record. -/
inductive ObjectKind where
  | SubDetector
  | BoxGap
  | ConcentricGap
  | CaloHit
  | Track
  | MCParticle
  deriving DecidableEq, Repr

/-- The parameter bundle handed to an object-construction call. -/
inductive Bundle where
  | subDetector (parameters : SubDetectorParameters)
  | boxGap (parameters : BoxGapParameters)
  | concentricGap (parameters : ConcentricGapParameters)
  | caloHit (parameters : CaloHitParameters)
  | track (parameters : TrackParameters)
  | mcParticle (parameters : MCParticleParameters)
  deriving DecidableEq, Repr

/-- The kind of object a bundle constructs. -/
def Bundle.kind : Bundle → ObjectKind
  | .subDetector _ => .SubDetector
  | .boxGap _ => .BoxGap
  | .concentricGap _ => .ConcentricGap
  | .caloHit _ => .CaloHit
  | .track _ => .Track
  | .mcParticle _ => .MCParticle

/-! ## The reader's collaborators

The field decoder `ReadVariable`, the extension factories, the object-construction calls
and the relationship calls are not part of the two source files. They are parameters of
the embedding. Every call made to one of them is recorded, with the status it returned. -/

/-- Modelled from the spec: the enumeration `ContainerId`, declared in a header that is
not among the source files: "one of GEOMETRY, EVENT, UNKNOWN". -/
inductive ContainerId where
  | EVENT
  | GEOMETRY
  | UNKNOWN_CONTAINER
  deriving DecidableEq, Repr, Inhabited

export ContainerId (EVENT GEOMETRY UNKNOWN_CONTAINER)

/-- Modelled from the spec: the enumeration `RelationshipId`, declared in a header that is
not among the source files, as the `switch` of `ReadRelationship` tells its values apart:
the five enumerators that have a `case`, and every other value. -/
inductive RelationshipId where
  | CALO_HIT_TO_MC
  | TRACK_TO_MC
  | MC_PARENT_DAUGHTER
  | TRACK_PARENT_DAUGHTER
  | TRACK_SIBLING
  | unrecognised (value : Nat)
  deriving DecidableEq, Repr

export RelationshipId (CALO_HIT_TO_MC TRACK_TO_MC MC_PARENT_DAUGHTER TRACK_PARENT_DAUGHTER
  TRACK_SIBLING)

/-- A call that crosses the boundary of the reader, with the status code it returned. -/
inductive Call where
  | factoryRead (kind : ObjectKind) (status : StatusCode)
  | readVariable (xmlKey : String) (status : StatusCode)
  | create (parameters : Bundle) (status : StatusCode)
  | setCaloHitToMCParticleRelationship (address1 address2 : Address) (weight : FloatBits)
      (status : StatusCode)
  | setTrackToMCParticleRelationship (address1 address2 : Address) (weight : FloatBits)
      (status : StatusCode)
  | setMCParentDaughterRelationship (address1 address2 : Address) (status : StatusCode)
  | setTrackParentDaughterRelationship (address1 address2 : Address) (status : StatusCode)
  | setTrackSiblingRelationship (address1 address2 : Address) (status : StatusCode)
  deriving DecidableEq, Repr

namespace Call

/-- The status code the call returned. -/
def status : Call → StatusCode
  | factoryRead _ s => s
  | readVariable _ s => s
  | create _ s => s
  | setCaloHitToMCParticleRelationship _ _ _ s => s
  | setTrackToMCParticleRelationship _ _ _ s => s
  | setMCParentDaughterRelationship _ _ s => s
  | setTrackParentDaughterRelationship _ _ s => s
  | setTrackSiblingRelationship _ _ s => s

/-- The call is an object-construction call. -/
def isCreate : Call → Bool
  | create _ _ => true
  | _ => false

/-- The call is one of the five relationship calls. -/
def isRelationship : Call → Bool
  | setCaloHitToMCParticleRelationship _ _ _ _ => true
  | setTrackToMCParticleRelationship _ _ _ _ => true
  | setMCParentDaughterRelationship _ _ _ => true
  | setTrackParentDaughterRelationship _ _ _ => true
  | setTrackSiblingRelationship _ _ _ => true
  | _ => false

/-- The call is a call of an extension factory. -/
def isFactoryRead : Call → Bool
  | factoryRead _ _ => true
  | _ => false

/-- The call is a field decode. -/
def isReadVariable : Call → Bool
  | readVariable _ _ => true
  | _ => false

end Call

/-- Source: `ReadVariable(xmlKey, t)` at type `T`: from the current element, the key and the value
the caller's slot holds, the status returned and the value the slot holds afterwards. -/
abbrev Decoder (T : Type) := RecordPtr → String → T → StatusCode × T

/-- Source: `Factory::Read(parameters, *this)`: from the current element and the bundle passed,
the status returned and the bundle afterwards. The factory is taken to leave the reader's
cursor as it found it. -/
abbrev FactoryRead (P : Type) := RecordPtr → P → StatusCode × P

/-- The collaborators of the reader. -/
structure Env where
  readString : Decoder String
  readUInt : Decoder Nat
  readInt : Decoder Int
  readFloat : Decoder FloatBits
  readBool : Decoder Bool
  readAddress : Decoder Address
  readFloatVector : Decoder (List FloatBits)
  readCartesianVector : Decoder CartesianVector
  readTrackState : Decoder TrackState
  subDetectorFactoryRead : FactoryRead SubDetectorParameters
  boxGapFactoryRead : FactoryRead BoxGapParameters
  concentricGapFactoryRead : FactoryRead ConcentricGapParameters
  caloHitFactoryRead : FactoryRead CaloHitParameters
  trackFactoryRead : FactoryRead TrackParameters
  mcParticleFactoryRead : FactoryRead MCParticleParameters
  /-- Source: `PandoraApi::...::Create(*m_pPandora, parameters, factory)`. -/
  create : Bundle → StatusCode
  /-- Source: `static_cast<RelationshipId>(relationshipIdInput)`. -/
  toRelationshipId : Nat → RelationshipId
  setCaloHitToMCParticleRelationship : Address → Address → FloatBits → StatusCode
  setTrackToMCParticleRelationship : Address → Address → FloatBits → StatusCode
  setMCParentDaughterRelationship : Address → Address → StatusCode
  setTrackParentDaughterRelationship : Address → Address → StatusCode
  setTrackSiblingRelationship : Address → Address → StatusCode

/-! ## Handler bodies

The body of a handler is a sequence of commands, each of which may leave the function
with a status code. -/

/-- How a piece of a function body ends: control goes on with a value, or the function
returns a status code. -/
inductive Flow (α : Type) where
  | next (a : α)
  | ret (s : StatusCode)

/-- A piece of a function body: how it ends, and the calls it made, in order. -/
def HandlerM (α : Type) : Type := Flow α × List Call

namespace HandlerM

/-- Sequencing of two pieces of a function body. -/
def bind {α β : Type} (m : HandlerM α) (f : α → HandlerM β) : HandlerM β :=
  match m with
  | (.next a, l) => ((f a).1, l ++ (f a).2)
  | (.ret s, l) => (.ret s, l)

instance : Monad HandlerM where
  pure a := (.next a, [])
  bind := bind

/-- Source: `return s;`. -/
def ret {α : Type} (s : StatusCode) : HandlerM α := (.ret s, [])

/-- Modelled from the spec: the macro `PANDORA_RETURN_RESULT_IF(STATUS_CODE_SUCCESS, !=,
Command)` of `StatusCodes.h`, which is not among the source files. `Command` is the call
`c`; it returned `res.1` and left `res.2` behind. A status other than success is returned
from the enclosing function unchanged ("propagating any failure from that boundary
unchanged"); otherwise control goes on. -/
def command {α : Type} (c : Call) (res : StatusCode × α) : HandlerM α :=
  (if res.1 = STATUS_CODE_SUCCESS then .next res.2 else .ret res.1, [c])

/-- The status a function body returns and the calls it made. -/
def run (m : HandlerM StatusCode) : StatusCode × List Call :=
  match m with
  | (.next s, l) => (s, l)
  | (.ret s, l) => (s, l)

end HandlerM

/-- Source: `PANDORA_RETURN_RESULT_IF(STATUS_CODE_SUCCESS, !=, pFactory->Read(parameters, *this))`. -/
def factoryRead {P : Type} (kind : ObjectKind) (res : StatusCode × P) : HandlerM P :=
  HandlerM.command (Call.factoryRead kind res.1) res

/-- The record of the call `this->ReadVariable(xmlKey, t)`. -/
def decodeCall {T : Type} (decoder : Decoder T) (pCurrentXmlElement : RecordPtr)
    (xmlKey : String) (t : T) : Call :=
  Call.readVariable xmlKey (decoder pCurrentXmlElement xmlKey t).1

/-- Source: `PANDORA_RETURN_RESULT_IF(STATUS_CODE_SUCCESS, !=, this->ReadVariable(xmlKey, t))`. -/
def readVariable {T : Type} (decoder : Decoder T) (pCurrentXmlElement : RecordPtr)
    (xmlKey : String) (t : T) : HandlerM T :=
  HandlerM.command (decodeCall decoder pCurrentXmlElement xmlKey t)
    (decoder pCurrentXmlElement xmlKey t)

/-- The record of the call `PandoraApi::...::Create(*m_pPandora, parameters, factory)`. -/
def createCall (env : Env) (parameters : Bundle) : Call :=
  Call.create parameters (env.create parameters)

/-- Source: `PANDORA_RETURN_RESULT_IF(STATUS_CODE_SUCCESS, !=, PandoraApi::...::Create(...))`. -/
def create (env : Env) (parameters : Bundle) : HandlerM Unit :=
  HandlerM.command (createCall env parameters) (env.create parameters, ())

/-- A relationship call, whose status the handler returns. -/
def returnCall (c : Call) : HandlerM StatusCode := ((.ret c.status : Flow StatusCode), [c])

/-! ## The reader -/

/-- The members of `XmlFileReader` (and `m_containerId` of its base class). -/
structure XmlFileReader where
  m_pXmlDocument : List ContainerNode
  m_containerId : ContainerId
  m_pContainerXmlNode : ContainerPtr
  m_pCurrentXmlElement : RecordPtr
  m_isAtFileStart : Bool
  deriving DecidableEq, Repr

/-- How a call of a member function ends: it returns a status code, or it throws a
`StatusCodeException`. -/
inductive Outcome where
  | returned (s : StatusCode)
  | thrown (s : StatusCode)
  deriving DecidableEq, Repr

namespace XmlFileReader

/-- The loop of `ReadSubDetector` that fills the layer list: one entry for each
`iLayer < nLayers`, pushed in ascending order. -/
def layerParametersList (closestDistanceToIp nRadiationLengths nInteractionLengths :
    List FloatBits) (nLayers : Nat) : List LayerParameters :=
  (List.range nLayers).map fun iLayer =>
    { m_closestDistanceToIp := closestDistanceToIp.getD iLayer 0
      m_nRadiationLengths := nRadiationLengths.getD iLayer 0
      m_nInteractionLengths := nInteractionLengths.getD iLayer 0 }

/-- Source: `XmlFileReader::ReadSubDetector`. -/
def ReadSubDetector (env : Env) (r : XmlFileReader) : StatusCode × List Call :=
  if GEOMETRY ≠ r.m_containerId then (STATUS_CODE_FAILURE, [])
  else HandlerM.run do
    let parameters : SubDetectorParameters := default
    let parameters ← factoryRead .SubDetector
      (env.subDetectorFactoryRead r.m_pCurrentXmlElement parameters)
    let subDetectorName ← readVariable env.readString r.m_pCurrentXmlElement "SubDetectorName" ""
    let subDetectorTypeInput ← readVariable env.readUInt r.m_pCurrentXmlElement "SubDetectorType" 0
    let subDetectorType := subDetectorTypeInput
    let innerRCoordinate ← readVariable env.readFloat r.m_pCurrentXmlElement "InnerRCoordinate" 0
    let innerZCoordinate ← readVariable env.readFloat r.m_pCurrentXmlElement "InnerZCoordinate" 0
    let innerPhiCoordinate ← readVariable env.readFloat r.m_pCurrentXmlElement "InnerPhiCoordinate" 0
    let innerSymmetryOrder ← readVariable env.readUInt r.m_pCurrentXmlElement "InnerSymmetryOrder" 0
    let outerRCoordinate ← readVariable env.readFloat r.m_pCurrentXmlElement "OuterRCoordinate" 0
    let outerZCoordinate ← readVariable env.readFloat r.m_pCurrentXmlElement "OuterZCoordinate" 0
    let outerPhiCoordinate ← readVariable env.readFloat r.m_pCurrentXmlElement "OuterPhiCoordinate" 0
    let outerSymmetryOrder ← readVariable env.readUInt r.m_pCurrentXmlElement "OuterSymmetryOrder" 0
    let isMirroredInZ ← readVariable env.readBool r.m_pCurrentXmlElement "IsMirroredInZ" false
    let nLayers ← readVariable env.readUInt r.m_pCurrentXmlElement "NLayers" 0
    let parameters : SubDetectorParameters :=
      { parameters with
        m_subDetectorName := subDetectorName
        m_subDetectorType := subDetectorType
        m_innerRCoordinate := innerRCoordinate
        m_innerZCoordinate := innerZCoordinate
        m_innerPhiCoordinate := innerPhiCoordinate
        m_innerSymmetryOrder := innerSymmetryOrder
        m_outerRCoordinate := outerRCoordinate
        m_outerZCoordinate := outerZCoordinate
        m_outerPhiCoordinate := outerPhiCoordinate
        m_outerSymmetryOrder := outerSymmetryOrder
        m_isMirroredInZ := isMirroredInZ
        m_nLayers := nLayers }
    let parameters ←
      if nLayers > 0 then do
        let closestDistanceToIp ←
          readVariable env.readFloatVector r.m_pCurrentXmlElement "ClosestDistanceToIp" []
        let nRadiationLengths ←
          readVariable env.readFloatVector r.m_pCurrentXmlElement "NRadiationLengths" []
        let nInteractionLengths ←
          readVariable env.readFloatVector r.m_pCurrentXmlElement "NInteractionLengths" []
        if closestDistanceToIp.length ≠ nLayers ∨ nRadiationLengths.length ≠ nLayers ∨
            nInteractionLengths.length ≠ nLayers then
          HandlerM.ret STATUS_CODE_FAILURE
        else
          pure { parameters with
            m_layerParametersList := parameters.m_layerParametersList ++
              layerParametersList closestDistanceToIp nRadiationLengths nInteractionLengths
                nLayers }
      else pure parameters
    create env (.subDetector parameters)
    return STATUS_CODE_SUCCESS

/-- Source: `XmlFileReader::ReadBoxGap`. -/
def ReadBoxGap (env : Env) (r : XmlFileReader) : StatusCode × List Call :=
  if GEOMETRY ≠ r.m_containerId then (STATUS_CODE_FAILURE, [])
  else HandlerM.run do
    let parameters : BoxGapParameters := default
    let parameters ← factoryRead .BoxGap (env.boxGapFactoryRead r.m_pCurrentXmlElement parameters)
    let vertex ← readVariable env.readCartesianVector r.m_pCurrentXmlElement "Vertex" ⟨0, 0, 0⟩
    let side1 ← readVariable env.readCartesianVector r.m_pCurrentXmlElement "Side1" ⟨0, 0, 0⟩
    let side2 ← readVariable env.readCartesianVector r.m_pCurrentXmlElement "Side2" ⟨0, 0, 0⟩
    let side3 ← readVariable env.readCartesianVector r.m_pCurrentXmlElement "Side3" ⟨0, 0, 0⟩
    let parameters : BoxGapParameters :=
      { parameters with
        m_vertex := vertex
        m_side1 := side1
        m_side2 := side2
        m_side3 := side3 }
    create env (.boxGap parameters)
    return STATUS_CODE_SUCCESS

/-- Source: `XmlFileReader::ReadConcentricGap`. -/
def ReadConcentricGap (env : Env) (r : XmlFileReader) : StatusCode × List Call :=
  if GEOMETRY ≠ r.m_containerId then (STATUS_CODE_FAILURE, [])
  else HandlerM.run do
    let parameters : ConcentricGapParameters := default
    let parameters ← factoryRead .ConcentricGap
      (env.concentricGapFactoryRead r.m_pCurrentXmlElement parameters)
    let minZCoordinate ← readVariable env.readFloat r.m_pCurrentXmlElement "MinZCoordinate" 0
    let maxZCoordinate ← readVariable env.readFloat r.m_pCurrentXmlElement "MaxZCoordinate" 0
    let innerRCoordinate ← readVariable env.readFloat r.m_pCurrentXmlElement "InnerRCoordinate" 0
    let innerPhiCoordinate ← readVariable env.readFloat r.m_pCurrentXmlElement "InnerPhiCoordinate" 0
    let innerSymmetryOrder ← readVariable env.readUInt r.m_pCurrentXmlElement "InnerSymmetryOrder" 0
    let outerRCoordinate ← readVariable env.readFloat r.m_pCurrentXmlElement "OuterRCoordinate" 0
    let outerPhiCoordinate ← readVariable env.readFloat r.m_pCurrentXmlElement "OuterPhiCoordinate" 0
    let outerSymmetryOrder ← readVariable env.readUInt r.m_pCurrentXmlElement "OuterSymmetryOrder" 0
    let parameters : ConcentricGapParameters :=
      { parameters with
        m_minZCoordinate := minZCoordinate
        m_maxZCoordinate := maxZCoordinate
        m_innerRCoordinate := innerRCoordinate
        m_innerPhiCoordinate := innerPhiCoordinate
        m_innerSymmetryOrder := innerSymmetryOrder
        m_outerRCoordinate := outerRCoordinate
        m_outerPhiCoordinate := outerPhiCoordinate
        m_outerSymmetryOrder := outerSymmetryOrder }
    create env (.concentricGap parameters)
    return STATUS_CODE_SUCCESS

/-- Source: `XmlFileReader::ReadCaloHit`. -/
def ReadCaloHit (env : Env) (r : XmlFileReader) : StatusCode × List Call :=
  if EVENT ≠ r.m_containerId then (STATUS_CODE_FAILURE, [])
  else HandlerM.run do
    let parameters : CaloHitParameters := default
    let parameters ← factoryRead .CaloHit (env.caloHitFactoryRead r.m_pCurrentXmlElement parameters)
    let cellGeometryInput ← readVariable env.readUInt r.m_pCurrentXmlElement "CellGeometry" 0
    let cellGeometry := cellGeometryInput
    let positionVector ←
      readVariable env.readCartesianVector r.m_pCurrentXmlElement "PositionVector" ⟨0, 0, 0⟩
    let expectedDirection ←
      readVariable env.readCartesianVector r.m_pCurrentXmlElement "ExpectedDirection" ⟨0, 0, 0⟩
    let cellNormalVector ←
      readVariable env.readCartesianVector r.m_pCurrentXmlElement "CellNormalVector" ⟨0, 0, 0⟩
    let cellThickness ← readVariable env.readFloat r.m_pCurrentXmlElement "CellThickness" 0
    let nCellRadiationLengths ←
      readVariable env.readFloat r.m_pCurrentXmlElement "NCellRadiationLengths" 0
    let nCellInteractionLengths ←
      readVariable env.readFloat r.m_pCurrentXmlElement "NCellInteractionLengths" 0
    let time ← readVariable env.readFloat r.m_pCurrentXmlElement "Time" 0
    let inputEnergy ← readVariable env.readFloat r.m_pCurrentXmlElement "InputEnergy" 0
    let mipEquivalentEnergy ←
      readVariable env.readFloat r.m_pCurrentXmlElement "MipEquivalentEnergy" 0
    let electromagneticEnergy ←
      readVariable env.readFloat r.m_pCurrentXmlElement "ElectromagneticEnergy" 0
    let hadronicEnergy ← readVariable env.readFloat r.m_pCurrentXmlElement "HadronicEnergy" 0
    let isDigital ← readVariable env.readBool r.m_pCurrentXmlElement "IsDigital" false
    let hitTypeInput ← readVariable env.readUInt r.m_pCurrentXmlElement "HitType" 0
    let hitType := hitTypeInput
    let hitRegionInput ← readVariable env.readUInt r.m_pCurrentXmlElement "HitRegion" 0
    let hitRegion := hitRegionInput
    let layer ← readVariable env.readUInt r.m_pCurrentXmlElement "Layer" 0
    let isInOuterSamplingLayer ←
      readVariable env.readBool r.m_pCurrentXmlElement "IsInOuterSamplingLayer" false
    let pParentAddress ←
      readVariable env.readAddress r.m_pCurrentXmlElement "ParentCaloHitAddress" NULL
    let cellSize0 ← readVariable env.readFloat r.m_pCurrentXmlElement "CellSize0" 0
    let cellSize1 ← readVariable env.readFloat r.m_pCurrentXmlElement "CellSize1" 0
    let parameters : CaloHitParameters :=
      { parameters with
        m_positionVector := positionVector
        m_expectedDirection := expectedDirection
        m_cellNormalVector := cellNormalVector
        m_cellGeometry := cellGeometry
        m_cellSize0 := cellSize0
        m_cellSize1 := cellSize1
        m_cellThickness := cellThickness
        m_nCellRadiationLengths := nCellRadiationLengths
        m_nCellInteractionLengths := nCellInteractionLengths
        m_time := time
        m_inputEnergy := inputEnergy
        m_mipEquivalentEnergy := mipEquivalentEnergy
        m_electromagneticEnergy := electromagneticEnergy
        m_hadronicEnergy := hadronicEnergy
        m_isDigital := isDigital
        m_hitType := hitType
        m_hitRegion := hitRegion
        m_layer := layer
        m_isInOuterSamplingLayer := isInOuterSamplingLayer
        m_pParentAddress := pParentAddress }
    create env (.caloHit parameters)
    return STATUS_CODE_SUCCESS

/-- Source: `XmlFileReader::ReadTrack`. -/
def ReadTrack (env : Env) (r : XmlFileReader) : StatusCode × List Call :=
  if EVENT ≠ r.m_containerId then (STATUS_CODE_FAILURE, [])
  else HandlerM.run do
    let parameters : TrackParameters := default
    let parameters ← factoryRead .Track (env.trackFactoryRead r.m_pCurrentXmlElement parameters)
    let d0 ← readVariable env.readFloat r.m_pCurrentXmlElement "D0" 0
    let z0 ← readVariable env.readFloat r.m_pCurrentXmlElement "Z0" 0
    let particleId ← readVariable env.readInt r.m_pCurrentXmlElement "ParticleId" 0
    let charge ← readVariable env.readInt r.m_pCurrentXmlElement "Charge" 0
    let mass ← readVariable env.readFloat r.m_pCurrentXmlElement "Mass" 0
    let momentumAtDca ←
      readVariable env.readCartesianVector r.m_pCurrentXmlElement "MomentumAtDca" ⟨0, 0, 0⟩
    let trackStateAtStart ←
      readVariable env.readTrackState r.m_pCurrentXmlElement "TrackStateAtStart" ⟨0, 0, 0, 0, 0, 0⟩
    let trackStateAtEnd ←
      readVariable env.readTrackState r.m_pCurrentXmlElement "TrackStateAtEnd" ⟨0, 0, 0, 0, 0, 0⟩
    let trackStateAtCalorimeter ←
      readVariable env.readTrackState r.m_pCurrentXmlElement "TrackStateAtCalorimeter"
        ⟨0, 0, 0, 0, 0, 0⟩
    let timeAtCalorimeter ← readVariable env.readFloat r.m_pCurrentXmlElement "TimeAtCalorimeter" 0
    let reachesCalorimeter ←
      readVariable env.readBool r.m_pCurrentXmlElement "ReachesCalorimeter" false
    let isProjectedToEndCap ←
      readVariable env.readBool r.m_pCurrentXmlElement "IsProjectedToEndCap" false
    let canFormPfo ← readVariable env.readBool r.m_pCurrentXmlElement "CanFormPfo" false
    let canFormClusterlessPfo ←
      readVariable env.readBool r.m_pCurrentXmlElement "CanFormClusterlessPfo" false
    let pParentAddress ←
      readVariable env.readAddress r.m_pCurrentXmlElement "ParentTrackAddress" NULL
    let parameters : TrackParameters :=
      { parameters with
        m_d0 := d0
        m_z0 := z0
        m_particleId := particleId
        m_charge := charge
        m_mass := mass
        m_momentumAtDca := momentumAtDca
        m_trackStateAtStart := trackStateAtStart
        m_trackStateAtEnd := trackStateAtEnd
        m_trackStateAtCalorimeter := trackStateAtCalorimeter
        m_timeAtCalorimeter := timeAtCalorimeter
        m_reachesCalorimeter := reachesCalorimeter
        m_isProjectedToEndCap := isProjectedToEndCap
        m_canFormPfo := canFormPfo
        m_canFormClusterlessPfo := canFormClusterlessPfo
        m_pParentAddress := pParentAddress }
    create env (.track parameters)
    return STATUS_CODE_SUCCESS

/-- Source: `XmlFileReader::ReadMCParticle`. The slot of `ParticleId` starts at
`-std::numeric_limits<int>::max()`. -/
def ReadMCParticle (env : Env) (r : XmlFileReader) : StatusCode × List Call :=
  if EVENT ≠ r.m_containerId then (STATUS_CODE_FAILURE, [])
  else HandlerM.run do
    let parameters : MCParticleParameters := default
    let parameters ← factoryRead .MCParticle
      (env.mcParticleFactoryRead r.m_pCurrentXmlElement parameters)
    let energy ← readVariable env.readFloat r.m_pCurrentXmlElement "Energy" 0
    let momentum ← readVariable env.readCartesianVector r.m_pCurrentXmlElement "Momentum" ⟨0, 0, 0⟩
    let vertex ← readVariable env.readCartesianVector r.m_pCurrentXmlElement "Vertex" ⟨0, 0, 0⟩
    let endpoint ← readVariable env.readCartesianVector r.m_pCurrentXmlElement "Endpoint" ⟨0, 0, 0⟩
    let particleId ← readVariable env.readInt r.m_pCurrentXmlElement "ParticleId" (-2147483647)
    let mcParticleTypeInput ← readVariable env.readUInt r.m_pCurrentXmlElement "MCParticleType" 0
    let mcParticleType := mcParticleTypeInput
    let pParentAddress ← readVariable env.readAddress r.m_pCurrentXmlElement "Uid" NULL
    let parameters : MCParticleParameters :=
      { parameters with
        m_energy := energy
        m_momentum := momentum
        m_vertex := vertex
        m_endpoint := endpoint
        m_particleId := particleId
        m_mcParticleType := mcParticleType
        m_pParentAddress := pParentAddress }
    create env (.mcParticle parameters)
    return STATUS_CODE_SUCCESS

/-- The bit pattern of `1.f`. -/
def oneFloat : FloatBits := 0x3F800000

/-- Source: `XmlFileReader::ReadRelationship`. -/
def ReadRelationship (env : Env) (r : XmlFileReader) : StatusCode × List Call :=
  if EVENT ≠ r.m_containerId then (STATUS_CODE_FAILURE, [])
  else HandlerM.run do
    let relationshipIdInput ← readVariable env.readUInt r.m_pCurrentXmlElement "RelationshipId" 0
    let relationshipId := env.toRelationshipId relationshipIdInput
    let address1 ← readVariable env.readAddress r.m_pCurrentXmlElement "Address1" NULL
    let address2 ← readVariable env.readAddress r.m_pCurrentXmlElement "Address2" NULL
    let weight ← readVariable env.readFloat r.m_pCurrentXmlElement "Weight" oneFloat
    match relationshipId with
    | CALO_HIT_TO_MC =>
      returnCall (.setCaloHitToMCParticleRelationship address1 address2 weight
        (env.setCaloHitToMCParticleRelationship address1 address2 weight))
    | TRACK_TO_MC =>
      returnCall (.setTrackToMCParticleRelationship address1 address2 weight
        (env.setTrackToMCParticleRelationship address1 address2 weight))
    | MC_PARENT_DAUGHTER =>
      returnCall (.setMCParentDaughterRelationship address1 address2
        (env.setMCParentDaughterRelationship address1 address2))
    | TRACK_PARENT_DAUGHTER =>
      returnCall (.setTrackParentDaughterRelationship address1 address2
        (env.setTrackParentDaughterRelationship address1 address2))
    | TRACK_SIBLING =>
      returnCall (.setTrackSiblingRelationship address1 address2
        (env.setTrackSiblingRelationship address1 address2))
    | .unrecognised _ => HandlerM.ret STATUS_CODE_FAILURE

/-- Source: `XmlFileReader::XmlFileReader`, for a document that loaded. The value of
`m_containerId`, which the constructor of the base class sets, is passed in. -/
def construct (document : List ContainerNode) (containerId : ContainerId) : XmlFileReader :=
  { m_pXmlDocument := document
    m_containerId := containerId
    m_pContainerXmlNode := []
    m_pCurrentXmlElement := []
    m_isAtFileStart := true }

/-- Source: `XmlFileReader::GetNextContainerId`. -/
def GetNextContainerId (r : XmlFileReader) : ContainerId :=
  let containerId : String :=
    match r.m_pContainerXmlNode with
    | [] => ""
    | node :: _ => node.ValueStr
  if "Event" = containerId then EVENT
  else if "Geometry" = containerId then GEOMETRY
  else UNKNOWN_CONTAINER

/-- Source: `XmlFileReader::ReadHeader`. -/
def ReadHeader (r : XmlFileReader) : StatusCode × XmlFileReader :=
  let r := { r with m_pCurrentXmlElement := [] }
  let r := { r with m_containerId := r.GetNextContainerId }
  if EVENT ≠ r.m_containerId ∧ GEOMETRY ≠ r.m_containerId then (STATUS_CODE_FAILURE, r)
  else (STATUS_CODE_SUCCESS, r)

/-- Source: `XmlFileReader::GoToNextContainer`. -/
def GoToNextContainer (r : XmlFileReader) : Outcome × XmlFileReader :=
  let r := { r with m_pCurrentXmlElement := [] }
  if r.m_isAtFileStart then
    let r :=
      if r.m_pContainerXmlNode = [] then
        { r with m_pContainerXmlNode := FirstChildElement r.m_pXmlDocument }
      else r
    (.returned STATUS_CODE_SUCCESS, { r with m_isAtFileStart := false })
  else
    if r.m_pContainerXmlNode = [] then (.thrown STATUS_CODE_NOT_FOUND, r)
    else
      (.returned STATUS_CODE_SUCCESS,
        { r with m_pContainerXmlNode := r.m_pContainerXmlNode.NextSibling })

/-- What a call of `ReadNextGeometryComponent` or `ReadNextEventComponent` leaves behind:
how it ended, the reader afterwards, and the calls made to the collaborators. -/
structure ReadResult where
  outcome : Outcome
  reader : XmlFileReader
  calls : List Call
  deriving DecidableEq, Repr

/-- The first lines of `ReadNextGeometryComponent` and `ReadNextEventComponent`: the record
cursor enters the container or moves to the next sibling element. -/
def advanceRecord (r : XmlFileReader) : XmlFileReader :=
  if r.m_pCurrentXmlElement = [] then
    { r with m_pCurrentXmlElement := r.m_pContainerXmlNode.FirstChild_Element }
  else
    { r with m_pCurrentXmlElement := r.m_pCurrentXmlElement.NextSiblingElement }

/-- The lines `this->GoToNextContainer(); return STATUS_CODE_NOT_FOUND;`: the status of
`GoToNextContainer` is dropped, an exception it throws is not caught. -/
def containerExhausted (r : XmlFileReader) : ReadResult :=
  match r.GoToNextContainer with
  | (.returned _, r1) => ⟨.returned STATUS_CODE_NOT_FOUND, r1, []⟩
  | (.thrown s, r1) => ⟨.thrown s, r1, []⟩

/-- The line `return this->ReadX();` for a handler `ReadX`. -/
def returnHandler (r : XmlFileReader) (res : StatusCode × List Call) : ReadResult :=
  ⟨.returned res.1, r, res.2⟩

/-- Source: `XmlFileReader::ReadNextGeometryComponent`. -/
def ReadNextGeometryComponent (env : Env) (r : XmlFileReader) : ReadResult :=
  let r := advanceRecord r
  if r.m_pCurrentXmlElement = [] then containerExhausted r
  else
    let componentName := r.m_pCurrentXmlElement.ValueStr
    if "SubDetector" = componentName then returnHandler r (ReadSubDetector env r)
    else if "BoxGap" = componentName then returnHandler r (ReadBoxGap env r)
    else if "ConcentricGap" = componentName then returnHandler r (ReadConcentricGap env r)
    else ⟨.returned STATUS_CODE_FAILURE, r, []⟩

/-- Source: `XmlFileReader::ReadNextEventComponent`. -/
def ReadNextEventComponent (env : Env) (r : XmlFileReader) : ReadResult :=
  let r := advanceRecord r
  if r.m_pCurrentXmlElement = [] then containerExhausted r
  else
    let componentName := r.m_pCurrentXmlElement.ValueStr
    if "CaloHit" = componentName then returnHandler r (ReadCaloHit env r)
    else if "Track" = componentName then returnHandler r (ReadTrack env r)
    else if "MCParticle" = componentName then returnHandler r (ReadMCParticle env r)
    else if "Relationship" = componentName then returnHandler r (ReadRelationship env r)
    else ⟨.returned STATUS_CODE_FAILURE, r, []⟩

/-- An upper bound on the number of times the loop of `GoToNextGeometry` and
`GoToNextEvent` runs: the first turn may enter the document, every later turn moves one
sibling on or throws. -/
def loopBound (r : XmlFileReader) : Nat :=
  r.m_pXmlDocument.length + r.m_pContainerXmlNode.length + 2

/-- Modelled from the spec: the loop of `FileReader::GoToNextGeometry` and
`FileReader::GoToNextEvent`, members of the base class, which is not among the source files:
"the kind-specific advance to next container of this kind operation". The container cursor
is advanced with `GoToNextContainer`, at least once, until `GetNextContainerId` is the kind
asked for; a status other than success, and an exception, from `GoToNextContainer` end the
operation. The first argument bounds the number of turns; `none` stands for a loop that
has not ended within the bound. -/
def goToNextOfKind (kind : ContainerId) : Nat → XmlFileReader → Option (Outcome × XmlFileReader)
  | 0, _ => none
  | fuel + 1, r =>
    if (GoToNextContainer r).1 ≠ .returned STATUS_CODE_SUCCESS then some (GoToNextContainer r)
    else if kind ≠ (GoToNextContainer r).2.GetNextContainerId then
      goToNextOfKind kind fuel (GoToNextContainer r).2
    else some (.returned STATUS_CODE_SUCCESS, (GoToNextContainer r).2)

/-- Modelled from the spec: `FileReader::GoToNextGeometry`, see `goToNextOfKind`. -/
def GoToNextGeometry (r : XmlFileReader) : Option (Outcome × XmlFileReader) :=
  goToNextOfKind GEOMETRY (loopBound r) r

/-- Modelled from the spec: `FileReader::GoToNextEvent`, see `goToNextOfKind`. -/
def GoToNextEvent (r : XmlFileReader) : Option (Outcome × XmlFileReader) :=
  goToNextOfKind EVENT (loopBound r) r

/-- Source: `static_cast<int>(n)` for an `unsigned int` of 32 bits: the value modulo `2^32`,
read as a two's complement number. -/
def toInt (n : Nat) : Int :=
  if n % 2 ^ 32 < 2 ^ 31 then (n % 2 ^ 32 : Nat) else ((n % 2 ^ 32 : Nat) : Int) - 2 ^ 32

/-- The loop `while (nRead < target) { PANDORA_RETURN_RESULT_IF(STATUS_CODE_SUCCESS, !=,
this->GoToNextX()); ++nRead; }` of `GoToGeometry` and `GoToEvent`, followed by
`return STATUS_CODE_SUCCESS;`. The first numeric argument bounds the number of turns. -/
def goToLoop (goToNext : XmlFileReader → Option (Outcome × XmlFileReader)) (target : Int) :
    Nat → Int → XmlFileReader → Option (Outcome × XmlFileReader)
  | 0, nRead, r => if nRead < target then none else some (.returned STATUS_CODE_SUCCESS, r)
  | fuel + 1, nRead, r =>
    if nRead < target then
      match goToNext r with
      | none => none
      | some res =>
        if res.1 ≠ .returned STATUS_CODE_SUCCESS then some res
        else goToLoop goToNext target fuel (nRead + 1) res.2
    else some (.returned STATUS_CODE_SUCCESS, r)

/-- Source: `XmlFileReader::GoToGeometry`. -/
def GoToGeometry (geometryNumber : Nat) (r : XmlFileReader) : Option (Outcome × XmlFileReader) :=
  let nGeometriesRead : Int := 0
  let r := { r with m_isAtFileStart := true, m_pContainerXmlNode := [],
                    m_pCurrentXmlElement := [] }
  let nGeometriesRead :=
    if GEOMETRY ≠ r.GetNextContainerId then nGeometriesRead - 1 else nGeometriesRead
  goToLoop GoToNextGeometry (toInt geometryNumber)
    (toInt geometryNumber - nGeometriesRead).toNat nGeometriesRead r

/-- Source: `XmlFileReader::GoToEvent`. -/
def GoToEvent (eventNumber : Nat) (r : XmlFileReader) : Option (Outcome × XmlFileReader) :=
  let nEventsRead : Int := 0
  let r := { r with m_isAtFileStart := true, m_pContainerXmlNode := [],
                    m_pCurrentXmlElement := [] }
  let nEventsRead := if EVENT ≠ r.GetNextContainerId then nEventsRead - 1 else nEventsRead
  goToLoop GoToNextEvent (toInt eventNumber) (toInt eventNumber - nEventsRead).toNat
    nEventsRead r

/-- The states of a reader that calls of its member functions lead to, starting from a
newly constructed reader. The state after a call that threw counts as well. -/
inductive Reachable : XmlFileReader → Prop where
  | construct (document : List ContainerNode) (containerId : ContainerId) :
    Reachable (construct document containerId)
  | ReadHeader {r : XmlFileReader} : Reachable r → Reachable (ReadHeader r).2
  | GoToNextContainer {r : XmlFileReader} : Reachable r → Reachable (GoToNextContainer r).2
  | GoToNextGeometry {r : XmlFileReader} {res : Outcome × XmlFileReader} :
    Reachable r → GoToNextGeometry r = some res → Reachable res.2
  | GoToNextEvent {r : XmlFileReader} {res : Outcome × XmlFileReader} :
    Reachable r → GoToNextEvent r = some res → Reachable res.2
  | GoToGeometry {r : XmlFileReader} {res : Outcome × XmlFileReader} (n : Nat) :
    Reachable r → GoToGeometry n r = some res → Reachable res.2
  | GoToEvent {r : XmlFileReader} {res : Outcome × XmlFileReader} (n : Nat) :
    Reachable r → GoToEvent n r = some res → Reachable res.2
  | ReadNextGeometryComponent (env : Env) {r : XmlFileReader} :
    Reachable r → Reachable (ReadNextGeometryComponent env r).reader
  | ReadNextEventComponent (env : Env) {r : XmlFileReader} :
    Reachable r → Reachable (ReadNextEventComponent env r).reader

/-- The handler of each kind of object record. -/
def handler : ObjectKind → Env → XmlFileReader → StatusCode × List Call
  | .SubDetector => ReadSubDetector
  | .BoxGap => ReadBoxGap
  | .ConcentricGap => ReadConcentricGap
  | .CaloHit => ReadCaloHit
  | .Track => ReadTrack
  | .MCParticle => ReadMCParticle

end XmlFileReader

/-- The container kind the handler of an object kind checks for. -/
def ObjectKind.containerId : ObjectKind → ContainerId
  | .SubDetector => GEOMETRY
  | .BoxGap => GEOMETRY
  | .ConcentricGap => GEOMETRY
  | .CaloHit => EVENT
  | .Track => EVENT
  | .MCParticle => EVENT

/-- The name under which the dispatcher routes to the handler of an object kind. -/
def ObjectKind.componentName : ObjectKind → String
  | .SubDetector => "SubDetector"
  | .BoxGap => "BoxGap"
  | .ConcentricGap => "ConcentricGap"
  | .CaloHit => "CaloHit"
  | .Track => "Track"
  | .MCParticle => "MCParticle"

/-! ## The steps of a handler

What each handler does, laid out as data: the calls it makes one after the other as long
as each returns success, and how it ends once all of them have. The theorems
`ReadSubDetector_eq` to `ReadRelationship_eq` below show that the handlers, as
translated above, run exactly these steps. -/

/-- Run `steps` in order up to the first that does not return success, whose status is
the result; when all succeed, go on with `final`. -/
def runSteps : List Call → StatusCode × List Call → StatusCode × List Call
  | [], final => final
  | c :: cs, final =>
    if c.status = STATUS_CODE_SUCCESS then ((runSteps cs final).1, c :: (runSteps cs final).2)
    else (c.status, [c])

/-- The call of the extension factory made for a record of the given kind. -/
def hookCall (env : Env) (p : RecordPtr) : ObjectKind → Call
  | .SubDetector => Call.factoryRead .SubDetector (env.subDetectorFactoryRead p default).1
  | .BoxGap => Call.factoryRead .BoxGap (env.boxGapFactoryRead p default).1
  | .ConcentricGap => Call.factoryRead .ConcentricGap (env.concentricGapFactoryRead p default).1
  | .CaloHit => Call.factoryRead .CaloHit (env.caloHitFactoryRead p default).1
  | .Track => Call.factoryRead .Track (env.trackFactoryRead p default).1
  | .MCParticle => Call.factoryRead .MCParticle (env.mcParticleFactoryRead p default).1

/-- The decodes of the twelve scalar fields of a SubDetector record. -/
def subDetectorScalarCalls (env : Env) (p : RecordPtr) : List Call :=
  [ decodeCall env.readString p "SubDetectorName" "",
    decodeCall env.readUInt p "SubDetectorType" 0,
    decodeCall env.readFloat p "InnerRCoordinate" 0,
    decodeCall env.readFloat p "InnerZCoordinate" 0,
    decodeCall env.readFloat p "InnerPhiCoordinate" 0,
    decodeCall env.readUInt p "InnerSymmetryOrder" 0,
    decodeCall env.readFloat p "OuterRCoordinate" 0,
    decodeCall env.readFloat p "OuterZCoordinate" 0,
    decodeCall env.readFloat p "OuterPhiCoordinate" 0,
    decodeCall env.readUInt p "OuterSymmetryOrder" 0,
    decodeCall env.readBool p "IsMirroredInZ" false,
    decodeCall env.readUInt p "NLayers" 0 ]

/-- The decodes of the three layer sequences of a SubDetector record. -/
def subDetectorSequenceCalls (env : Env) (p : RecordPtr) : List Call :=
  [ decodeCall env.readFloatVector p "ClosestDistanceToIp" [],
    decodeCall env.readFloatVector p "NRadiationLengths" [],
    decodeCall env.readFloatVector p "NInteractionLengths" [] ]

/-- The decodes of the built-in fields of a record of the given kind, in the order of the
handler. The layer sequences of a SubDetector are decoded when the decoded `NLayers` is
positive. -/
def fieldCalls (env : Env) (p : RecordPtr) : ObjectKind → List Call
  | .SubDetector =>
    subDetectorScalarCalls env p ++
      (if (env.readUInt p "NLayers" 0).2 > 0 then subDetectorSequenceCalls env p else [])
  | .BoxGap =>
    [ decodeCall env.readCartesianVector p "Vertex" ⟨0, 0, 0⟩,
      decodeCall env.readCartesianVector p "Side1" ⟨0, 0, 0⟩,
      decodeCall env.readCartesianVector p "Side2" ⟨0, 0, 0⟩,
      decodeCall env.readCartesianVector p "Side3" ⟨0, 0, 0⟩ ]
  | .ConcentricGap =>
    [ decodeCall env.readFloat p "MinZCoordinate" 0,
      decodeCall env.readFloat p "MaxZCoordinate" 0,
      decodeCall env.readFloat p "InnerRCoordinate" 0,
      decodeCall env.readFloat p "InnerPhiCoordinate" 0,
      decodeCall env.readUInt p "InnerSymmetryOrder" 0,
      decodeCall env.readFloat p "OuterRCoordinate" 0,
      decodeCall env.readFloat p "OuterPhiCoordinate" 0,
      decodeCall env.readUInt p "OuterSymmetryOrder" 0 ]
  | .CaloHit =>
    [ decodeCall env.readUInt p "CellGeometry" 0,
      decodeCall env.readCartesianVector p "PositionVector" ⟨0, 0, 0⟩,
      decodeCall env.readCartesianVector p "ExpectedDirection" ⟨0, 0, 0⟩,
      decodeCall env.readCartesianVector p "CellNormalVector" ⟨0, 0, 0⟩,
      decodeCall env.readFloat p "CellThickness" 0,
      decodeCall env.readFloat p "NCellRadiationLengths" 0,
      decodeCall env.readFloat p "NCellInteractionLengths" 0,
      decodeCall env.readFloat p "Time" 0,
      decodeCall env.readFloat p "InputEnergy" 0,
      decodeCall env.readFloat p "MipEquivalentEnergy" 0,
      decodeCall env.readFloat p "ElectromagneticEnergy" 0,
      decodeCall env.readFloat p "HadronicEnergy" 0,
      decodeCall env.readBool p "IsDigital" false,
      decodeCall env.readUInt p "HitType" 0,
      decodeCall env.readUInt p "HitRegion" 0,
      decodeCall env.readUInt p "Layer" 0,
      decodeCall env.readBool p "IsInOuterSamplingLayer" false,
      decodeCall env.readAddress p "ParentCaloHitAddress" NULL,
      decodeCall env.readFloat p "CellSize0" 0,
      decodeCall env.readFloat p "CellSize1" 0 ]
  | .Track =>
    [ decodeCall env.readFloat p "D0" 0,
      decodeCall env.readFloat p "Z0" 0,
      decodeCall env.readInt p "ParticleId" 0,
      decodeCall env.readInt p "Charge" 0,
      decodeCall env.readFloat p "Mass" 0,
      decodeCall env.readCartesianVector p "MomentumAtDca" ⟨0, 0, 0⟩,
      decodeCall env.readTrackState p "TrackStateAtStart" ⟨0, 0, 0, 0, 0, 0⟩,
      decodeCall env.readTrackState p "TrackStateAtEnd" ⟨0, 0, 0, 0, 0, 0⟩,
      decodeCall env.readTrackState p "TrackStateAtCalorimeter" ⟨0, 0, 0, 0, 0, 0⟩,
      decodeCall env.readFloat p "TimeAtCalorimeter" 0,
      decodeCall env.readBool p "ReachesCalorimeter" false,
      decodeCall env.readBool p "IsProjectedToEndCap" false,
      decodeCall env.readBool p "CanFormPfo" false,
      decodeCall env.readBool p "CanFormClusterlessPfo" false,
      decodeCall env.readAddress p "ParentTrackAddress" NULL ]
  | .MCParticle =>
    [ decodeCall env.readFloat p "Energy" 0,
      decodeCall env.readCartesianVector p "Momentum" ⟨0, 0, 0⟩,
      decodeCall env.readCartesianVector p "Vertex" ⟨0, 0, 0⟩,
      decodeCall env.readCartesianVector p "Endpoint" ⟨0, 0, 0⟩,
      decodeCall env.readInt p "ParticleId" (-2147483647),
      decodeCall env.readUInt p "MCParticleType" 0,
      decodeCall env.readAddress p "Uid" NULL ]

/-- The calls a handler makes before the bundle is complete: the extension factory, then
the field decodes. -/
def decodeSteps (env : Env) (p : RecordPtr) (kind : ObjectKind) : List Call :=
  hookCall env p kind :: fieldCalls env p kind

/-- The bundle of a SubDetector record before the layer list is filled. -/
def subDetectorScalars (env : Env) (p : RecordPtr) : SubDetectorParameters :=
  { (env.subDetectorFactoryRead p default).2 with
    m_subDetectorName := (env.readString p "SubDetectorName" "").2
    m_subDetectorType := (env.readUInt p "SubDetectorType" 0).2
    m_innerRCoordinate := (env.readFloat p "InnerRCoordinate" 0).2
    m_innerZCoordinate := (env.readFloat p "InnerZCoordinate" 0).2
    m_innerPhiCoordinate := (env.readFloat p "InnerPhiCoordinate" 0).2
    m_innerSymmetryOrder := (env.readUInt p "InnerSymmetryOrder" 0).2
    m_outerRCoordinate := (env.readFloat p "OuterRCoordinate" 0).2
    m_outerZCoordinate := (env.readFloat p "OuterZCoordinate" 0).2
    m_outerPhiCoordinate := (env.readFloat p "OuterPhiCoordinate" 0).2
    m_outerSymmetryOrder := (env.readUInt p "OuterSymmetryOrder" 0).2
    m_isMirroredInZ := (env.readBool p "IsMirroredInZ" false).2
    m_nLayers := (env.readUInt p "NLayers" 0).2 }

/-- The bundle of a SubDetector record with the layer list filled from the three decoded
sequences. -/
def subDetectorWithLayers (env : Env) (p : RecordPtr) : SubDetectorParameters :=
  { subDetectorScalars env p with
    m_layerParametersList := (subDetectorScalars env p).m_layerParametersList ++
      XmlFileReader.layerParametersList (env.readFloatVector p "ClosestDistanceToIp" []).2
        (env.readFloatVector p "NRadiationLengths" []).2
        (env.readFloatVector p "NInteractionLengths" []).2 (env.readUInt p "NLayers" 0).2 }

/-- The length check of `ReadSubDetector` fails: one of the three decoded sequences has
not `NLayers` entries. -/
def layerCountMismatch (env : Env) (p : RecordPtr) : Prop :=
  (env.readFloatVector p "ClosestDistanceToIp" []).2.length ≠ (env.readUInt p "NLayers" 0).2 ∨
  (env.readFloatVector p "NRadiationLengths" []).2.length ≠ (env.readUInt p "NLayers" 0).2 ∨
  (env.readFloatVector p "NInteractionLengths" []).2.length ≠ (env.readUInt p "NLayers" 0).2

instance (env : Env) (p : RecordPtr) : Decidable (layerCountMismatch env p) := by
  unfold layerCountMismatch; exact inferInstance

/-- The bundle a handler has assembled when the factory and every field decode succeeded. -/
def bundle (env : Env) (p : RecordPtr) : ObjectKind → Bundle
  | .SubDetector =>
    if (env.readUInt p "NLayers" 0).2 > 0 then .subDetector (subDetectorWithLayers env p)
    else .subDetector (subDetectorScalars env p)
  | .BoxGap =>
    .boxGap
      { (env.boxGapFactoryRead p default).2 with
        m_vertex := (env.readCartesianVector p "Vertex" ⟨0, 0, 0⟩).2
        m_side1 := (env.readCartesianVector p "Side1" ⟨0, 0, 0⟩).2
        m_side2 := (env.readCartesianVector p "Side2" ⟨0, 0, 0⟩).2
        m_side3 := (env.readCartesianVector p "Side3" ⟨0, 0, 0⟩).2 }
  | .ConcentricGap =>
    .concentricGap
      { (env.concentricGapFactoryRead p default).2 with
        m_minZCoordinate := (env.readFloat p "MinZCoordinate" 0).2
        m_maxZCoordinate := (env.readFloat p "MaxZCoordinate" 0).2
        m_innerRCoordinate := (env.readFloat p "InnerRCoordinate" 0).2
        m_innerPhiCoordinate := (env.readFloat p "InnerPhiCoordinate" 0).2
        m_innerSymmetryOrder := (env.readUInt p "InnerSymmetryOrder" 0).2
        m_outerRCoordinate := (env.readFloat p "OuterRCoordinate" 0).2
        m_outerPhiCoordinate := (env.readFloat p "OuterPhiCoordinate" 0).2
        m_outerSymmetryOrder := (env.readUInt p "OuterSymmetryOrder" 0).2 }
  | .CaloHit =>
    .caloHit
      { (env.caloHitFactoryRead p default).2 with
        m_positionVector := (env.readCartesianVector p "PositionVector" ⟨0, 0, 0⟩).2
        m_expectedDirection := (env.readCartesianVector p "ExpectedDirection" ⟨0, 0, 0⟩).2
        m_cellNormalVector := (env.readCartesianVector p "CellNormalVector" ⟨0, 0, 0⟩).2
        m_cellGeometry := (env.readUInt p "CellGeometry" 0).2
        m_cellSize0 := (env.readFloat p "CellSize0" 0).2
        m_cellSize1 := (env.readFloat p "CellSize1" 0).2
        m_cellThickness := (env.readFloat p "CellThickness" 0).2
        m_nCellRadiationLengths := (env.readFloat p "NCellRadiationLengths" 0).2
        m_nCellInteractionLengths := (env.readFloat p "NCellInteractionLengths" 0).2
        m_time := (env.readFloat p "Time" 0).2
        m_inputEnergy := (env.readFloat p "InputEnergy" 0).2
        m_mipEquivalentEnergy := (env.readFloat p "MipEquivalentEnergy" 0).2
        m_electromagneticEnergy := (env.readFloat p "ElectromagneticEnergy" 0).2
        m_hadronicEnergy := (env.readFloat p "HadronicEnergy" 0).2
        m_isDigital := (env.readBool p "IsDigital" false).2
        m_hitType := (env.readUInt p "HitType" 0).2
        m_hitRegion := (env.readUInt p "HitRegion" 0).2
        m_layer := (env.readUInt p "Layer" 0).2
        m_isInOuterSamplingLayer := (env.readBool p "IsInOuterSamplingLayer" false).2
        m_pParentAddress := (env.readAddress p "ParentCaloHitAddress" NULL).2 }
  | .Track =>
    .track
      { (env.trackFactoryRead p default).2 with
        m_d0 := (env.readFloat p "D0" 0).2
        m_z0 := (env.readFloat p "Z0" 0).2
        m_particleId := (env.readInt p "ParticleId" 0).2
        m_charge := (env.readInt p "Charge" 0).2
        m_mass := (env.readFloat p "Mass" 0).2
        m_momentumAtDca := (env.readCartesianVector p "MomentumAtDca" ⟨0, 0, 0⟩).2
        m_trackStateAtStart := (env.readTrackState p "TrackStateAtStart" ⟨0, 0, 0, 0, 0, 0⟩).2
        m_trackStateAtEnd := (env.readTrackState p "TrackStateAtEnd" ⟨0, 0, 0, 0, 0, 0⟩).2
        m_trackStateAtCalorimeter :=
          (env.readTrackState p "TrackStateAtCalorimeter" ⟨0, 0, 0, 0, 0, 0⟩).2
        m_timeAtCalorimeter := (env.readFloat p "TimeAtCalorimeter" 0).2
        m_reachesCalorimeter := (env.readBool p "ReachesCalorimeter" false).2
        m_isProjectedToEndCap := (env.readBool p "IsProjectedToEndCap" false).2
        m_canFormPfo := (env.readBool p "CanFormPfo" false).2
        m_canFormClusterlessPfo := (env.readBool p "CanFormClusterlessPfo" false).2
        m_pParentAddress := (env.readAddress p "ParentTrackAddress" NULL).2 }
  | .MCParticle =>
    .mcParticle
      { (env.mcParticleFactoryRead p default).2 with
        m_energy := (env.readFloat p "Energy" 0).2
        m_momentum := (env.readCartesianVector p "Momentum" ⟨0, 0, 0⟩).2
        m_vertex := (env.readCartesianVector p "Vertex" ⟨0, 0, 0⟩).2
        m_endpoint := (env.readCartesianVector p "Endpoint" ⟨0, 0, 0⟩).2
        m_particleId := (env.readInt p "ParticleId" (-2147483647)).2
        m_mcParticleType := (env.readUInt p "MCParticleType" 0).2
        m_pParentAddress := (env.readAddress p "Uid" NULL).2 }

/-- The length check of `ReadSubDetector` is reached and fails. -/
def lengthCheckFails (env : Env) (p : RecordPtr) : ObjectKind → Prop
  | .SubDetector => (env.readUInt p "NLayers" 0).2 > 0 ∧ layerCountMismatch env p
  | _ => False

instance (env : Env) (p : RecordPtr) (kind : ObjectKind) :
    Decidable (lengthCheckFails env p kind) := by
  cases kind <;> unfold lengthCheckFails <;> exact inferInstance

/-- How a handler ends once the factory and every field decode succeeded: with failure if
the length check of `ReadSubDetector` fails, else with the construction call, whose status
it returns. -/
def finish (env : Env) (p : RecordPtr) (kind : ObjectKind) : StatusCode × List Call :=
  if lengthCheckFails env p kind then (STATUS_CODE_FAILURE, [])
  else runSteps [createCall env (bundle env p kind)] (STATUS_CODE_SUCCESS, [])

/-- The four field decodes of `ReadRelationship`. -/
def relationshipSteps (env : Env) (p : RecordPtr) : List Call :=
  [ decodeCall env.readUInt p "RelationshipId" 0,
    decodeCall env.readAddress p "Address1" NULL,
    decodeCall env.readAddress p "Address2" NULL,
    decodeCall env.readFloat p "Weight" XmlFileReader.oneFloat ]

/-- The relationship call that the `switch` of `ReadRelationship` selects for the decoded
values, if any. -/
def relationshipCall (env : Env) (id : RelationshipId) (address1 address2 : Address)
    (weight : FloatBits) : Option Call :=
  match id with
  | CALO_HIT_TO_MC =>
    some (.setCaloHitToMCParticleRelationship address1 address2 weight
      (env.setCaloHitToMCParticleRelationship address1 address2 weight))
  | TRACK_TO_MC =>
    some (.setTrackToMCParticleRelationship address1 address2 weight
      (env.setTrackToMCParticleRelationship address1 address2 weight))
  | MC_PARENT_DAUGHTER =>
    some (.setMCParentDaughterRelationship address1 address2
      (env.setMCParentDaughterRelationship address1 address2))
  | TRACK_PARENT_DAUGHTER =>
    some (.setTrackParentDaughterRelationship address1 address2
      (env.setTrackParentDaughterRelationship address1 address2))
  | TRACK_SIBLING =>
    some (.setTrackSiblingRelationship address1 address2
      (env.setTrackSiblingRelationship address1 address2))
  | .unrecognised _ => none

/-- How `ReadRelationship` ends once its four fields are decoded. -/
def relationshipFinish (env : Env) (p : RecordPtr) : StatusCode × List Call :=
  match relationshipCall env (env.toRelationshipId (env.readUInt p "RelationshipId" 0).2)
      (env.readAddress p "Address1" NULL).2 (env.readAddress p "Address2" NULL).2
      (env.readFloat p "Weight" XmlFileReader.oneFloat).2 with
  | some c => (c.status, [c])
  | none => (STATUS_CODE_FAILURE, [])

/-- The seven kinds of record: the six kinds of object record and the relationship
record. -/
inductive RecordKind where
  | object (kind : ObjectKind)
  | relationship
  deriving DecidableEq, Repr

namespace RecordKind

/-- The name under which the dispatcher routes to the handler of the kind. -/
def componentName : RecordKind → String
  | object kind => kind.componentName
  | relationship => "Relationship"

/-- The container kind the handler of the kind checks for. -/
def containerId : RecordKind → ContainerId
  | object kind => kind.containerId
  | relationship => EVENT

/-- The handler of the kind. -/
def handler : RecordKind → Env → XmlFileReader → StatusCode × List Call
  | object kind => XmlFileReader.handler kind
  | relationship => XmlFileReader.ReadRelationship

/-- The calls the handler of the kind makes one after the other, as long as each returns
success, before it finishes. -/
def steps (env : Env) (p : RecordPtr) : RecordKind → List Call
  | object kind => decodeSteps env p kind
  | relationship => relationshipSteps env p

/-- How the handler of the kind ends once all its steps succeeded. -/
def finish (env : Env) (p : RecordPtr) : RecordKind → StatusCode × List Call
  | object kind => pandora.finish env p kind
  | relationship => relationshipFinish env p

/-- The operation whose dispatch table names the kind. -/
def readNext (kind : RecordKind) : Env → XmlFileReader → XmlFileReader.ReadResult :=
  if kind.containerId = GEOMETRY then XmlFileReader.ReadNextGeometryComponent
  else XmlFileReader.ReadNextEventComponent

end RecordKind

/-- The names in the dispatch table of `ReadNextGeometryComponent`. -/
def geometryComponentNames : List String := ["SubDetector", "BoxGap", "ConcentricGap"]

/-- The names in the dispatch table of `ReadNextEventComponent`. -/
def eventComponentNames : List String := ["CaloHit", "Track", "MCParticle", "Relationship"]

/-! ## Sample collaborators and sample streams

Concrete collaborators and documents, on which the theorems are instantiated. -/

/-- The text of the first child element of the current element that is named `xmlKey`, if
there is one. -/
def RecordPtr.fieldText (p : RecordPtr) (xmlKey : String) : Option String :=
  match p with
  | [] => none
  | node :: _ => (node.fields.find? fun f => f.name == xmlKey).map fun f => f.text

/-- The number a string of decimal digits writes. -/
def decimal (text : String) : Nat :=
  text.data.foldl (fun n c => 10 * n + (c.toNat - 48)) 0

/-- A sample field decoder: a field the current element does not have is reported with the
status `absent` and the slot is left alone; a field it has is decoded with `value`. -/
def sampleDecoder {T : Type} (absent : StatusCode) (value : String → T) : Decoder T :=
  fun p xmlKey t =>
    match p.fieldText xmlKey with
    | none => (absent, t)
    | some text => (STATUS_CODE_SUCCESS, value text)

/-- Sample collaborators. Numbers are written in decimal, a float is given by its bit
pattern, a sequence has one entry for each character other than a blank, a vector repeats
one number in every component. The factories do nothing, and every construction and
relationship call succeeds. The relationship ids are numbered from zero in the order of the
`switch`. -/
def sampleEnv (absent : StatusCode) : Env :=
  { readString := sampleDecoder absent id
    readUInt := sampleDecoder absent decimal
    readInt := sampleDecoder absent fun text => (decimal text : Int)
    readFloat := sampleDecoder absent decimal
    readBool := sampleDecoder absent fun text => decide (text = "1")
    readAddress := sampleDecoder absent decimal
    readFloatVector := sampleDecoder absent fun text =>
      (text.data.filter fun c => c != ' ').map fun c => c.toNat - 48
    readCartesianVector := sampleDecoder absent fun text =>
      ⟨decimal text, decimal text, decimal text⟩
    readTrackState := sampleDecoder absent fun text =>
      ⟨decimal text, decimal text, decimal text, decimal text, decimal text, decimal text⟩
    subDetectorFactoryRead := fun _ parameters => (STATUS_CODE_SUCCESS, parameters)
    boxGapFactoryRead := fun _ parameters => (STATUS_CODE_SUCCESS, parameters)
    concentricGapFactoryRead := fun _ parameters => (STATUS_CODE_SUCCESS, parameters)
    caloHitFactoryRead := fun _ parameters => (STATUS_CODE_SUCCESS, parameters)
    trackFactoryRead := fun _ parameters => (STATUS_CODE_SUCCESS, parameters)
    mcParticleFactoryRead := fun _ parameters => (STATUS_CODE_SUCCESS, parameters)
    create := fun _ => STATUS_CODE_SUCCESS
    toRelationshipId := fun n =>
      match n with
      | 0 => CALO_HIT_TO_MC
      | 1 => TRACK_TO_MC
      | 2 => MC_PARENT_DAUGHTER
      | 3 => TRACK_PARENT_DAUGHTER
      | 4 => TRACK_SIBLING
      | n => .unrecognised n
    setCaloHitToMCParticleRelationship := fun _ _ _ => STATUS_CODE_SUCCESS
    setTrackToMCParticleRelationship := fun _ _ _ => STATUS_CODE_SUCCESS
    setMCParentDaughterRelationship := fun _ _ => STATUS_CODE_SUCCESS
    setTrackParentDaughterRelationship := fun _ _ => STATUS_CODE_SUCCESS
    setTrackSiblingRelationship := fun _ _ => STATUS_CODE_SUCCESS }

/-- The twelve scalar fields of a sample SubDetector record that declares `nLayers`
layers. -/
def sampleSubDetectorScalars (nLayers : String) : List FieldNode :=
  [ ⟨"SubDetectorName", "ECalBarrel"⟩, ⟨"SubDetectorType", "1"⟩,
    ⟨"InnerRCoordinate", "1"⟩, ⟨"InnerZCoordinate", "0"⟩, ⟨"InnerPhiCoordinate", "0"⟩,
    ⟨"InnerSymmetryOrder", "8"⟩, ⟨"OuterRCoordinate", "2"⟩, ⟨"OuterZCoordinate", "3"⟩,
    ⟨"OuterPhiCoordinate", "0"⟩, ⟨"OuterSymmetryOrder", "8"⟩, ⟨"IsMirroredInZ", "1"⟩,
    ⟨"NLayers", nLayers⟩ ]

/-- A SubDetector record without layers. -/
def sampleSubDetector : RecordNode :=
  .element "SubDetector" (sampleSubDetectorScalars "0")

/-- A SubDetector record that declares three layers and has only two entries in
`NRadiationLengths`. -/
def shortSubDetector : RecordNode :=
  .element "SubDetector"
    (sampleSubDetectorScalars "3" ++
      [ ⟨"ClosestDistanceToIp", "1 2 3"⟩, ⟨"NRadiationLengths", "1 2"⟩,
        ⟨"NInteractionLengths", "1 2 3"⟩ ])

/-- An MCParticle record that has all its fields. -/
def sampleMCParticle : RecordNode :=
  .element "MCParticle"
    [ ⟨"Energy", "5"⟩, ⟨"Momentum", "1"⟩, ⟨"Vertex", "0"⟩, ⟨"Endpoint", "2"⟩,
      ⟨"ParticleId", "22"⟩, ⟨"MCParticleType", "0"⟩, ⟨"Uid", "12"⟩ ]

/-- An MCParticle record without the field `Energy`. -/
def energylessMCParticle : RecordNode :=
  .element "MCParticle"
    [ ⟨"Momentum", "1"⟩, ⟨"Vertex", "0"⟩, ⟨"Endpoint", "2"⟩,
      ⟨"ParticleId", "22"⟩, ⟨"MCParticleType", "0"⟩, ⟨"Uid", "12"⟩ ]

/-- A Relationship record with the given id, between the addresses 11 and 12, of weight
`1.f`. -/
def sampleRelationship (id : String) : RecordNode :=
  .element "Relationship"
    [ ⟨"RelationshipId", id⟩, ⟨"Address1", "11"⟩, ⟨"Address2", "12"⟩,
      ⟨"Weight", "1065353216"⟩ ]

/-- A Relationship record with an id that no `case` names and without `Address1`. -/
def brokenRelationship : RecordNode :=
  .element "Relationship"
    [ ⟨"RelationshipId", "9"⟩, ⟨"Address2", "12"⟩, ⟨"Weight", "1065353216"⟩ ]

/-- A reader whose record cursor is on `record`, the only record of a container named
`name`, with `containerId` as the recorded container kind. -/
def readerOn (name : String) (containerId : ContainerId) (record : RecordNode) :
    XmlFileReader :=
  { m_pXmlDocument := [.element name [record]]
    m_containerId := containerId
    m_pContainerXmlNode := [.element name [record]]
    m_pCurrentXmlElement := [record]
    m_isAtFileStart := false }

/-- A stream of an empty Geometry container followed by an Event container that holds a
SubDetector record. -/
def strayDocument : List ContainerNode :=
  [.element "Geometry" [], .element "Event" [sampleSubDetector]]

/-- The reader on a document after `GoToNextContainer` and `ReadHeader`: it is positioned
on the first container and has recorded its kind. -/
def readerAfterHeader (document : List ContainerNode) : XmlFileReader :=
  (XmlFileReader.ReadHeader
    (XmlFileReader.GoToNextContainer
      (XmlFileReader.construct document UNKNOWN_CONTAINER)).2).2

/-- A stream of one Event container that holds an MCParticle record without `Energy`. -/
def energylessDocument : List ContainerNode :=
  [.element "Event" [energylessMCParticle]]

/-- On the stream `strayDocument`: the header of the Geometry container is read, a first
`ReadNextGeometryComponent` finds the container empty and moves on, and a second one is
called without `ReadHeader` in between. -/
def strayRead : XmlFileReader.ReadResult :=
  XmlFileReader.ReadNextGeometryComponent (sampleEnv STATUS_CODE_NOT_FOUND)
    (XmlFileReader.ReadNextGeometryComponent (sampleEnv STATUS_CODE_NOT_FOUND)
      (readerAfterHeader strayDocument)).reader

/-! ## The containers of a stream

What the claims about seeking speak of, written down for a document: its containers, their
kinds, and the container of a given index among those of one kind. -/

/-- The kind that `GetNextContainerId` reads off a node: `EVENT` for the name `Event`,
`GEOMETRY` for the name `Geometry`. -/
def ContainerNode.containerId (node : ContainerNode) : ContainerId :=
  if "Event" = node.ValueStr then EVENT
  else if "Geometry" = node.ValueStr then GEOMETRY
  else UNKNOWN_CONTAINER

/-- The containers of a stream, in stream order, as the reader walks them: the top-level
nodes from the first element on. -/
def containers (document : List ContainerNode) : ContainerPtr :=
  FirstChildElement document

/-- The number of containers of a kind in a list of sibling nodes. -/
def countOfKind (kind : ContainerId) (p : ContainerPtr) : Nat :=
  (p.filter fun node => node.containerId = kind).length

/-- The position, in a list of sibling nodes, of the container of 0-based index `n` among
those of a kind; none if there are not that many. -/
def nthOfKind (kind : ContainerId) : Nat → ContainerPtr → ContainerPtr
  | _, [] => []
  | n, node :: rest =>
    if node.containerId = kind then
      match n with
      | 0 => node :: rest
      | k + 1 => nthOfKind kind k rest
    else nthOfKind kind n rest

/-- The reader positioned on a container: the container cursor is `p`, the record cursor
is unset and the at-start flag is clear. -/
def XmlFileReader.positioned (r : XmlFileReader) (p : ContainerPtr) : XmlFileReader :=
  { r with m_pContainerXmlNode := p, m_pCurrentXmlElement := [], m_isAtFileStart := false }

/-- The reader as the first lines of `GoToGeometry` and `GoToEvent` leave it: at the
start of the stream, without a current container and without a current record. -/
def XmlFileReader.rewound (r : XmlFileReader) : XmlFileReader :=
  { r with m_isAtFileStart := true, m_pContainerXmlNode := [], m_pCurrentXmlElement := [] }

/-- A stream with a comment before the first container: a Geometry container, an Event
container with one record, an empty Event container and a second Geometry container. -/
def mixedDocument : List ContainerNode :=
  [.other "written by the sample", .element "Geometry" [],
    .element "Event" [sampleMCParticle], .element "Event" [], .element "Geometry" []]

/-- A stream of two Event containers with a comment between them whose text is `Event`. -/
def commentedDocument : List ContainerNode :=
  [.element "Event" [sampleMCParticle], .other "Event", .element "Event" []]

/-- The status code a call ends with, returned or carried by the exception thrown. -/
def Outcome.status : Outcome → StatusCode
  | .returned s => s
  | .thrown s => s

/-- Every top-level node of the document is an element: the stream is a sequence of
containers and nothing else. -/
def allElements (document : List ContainerNode) : Prop :=
  ∀ node ∈ document, node.isElement = true

instance (document : List ContainerNode) : Decidable (allElements document) := by
  unfold allElements
  exact inferInstance

/-- A stream of containers only: a Geometry container, an Event container with one record,
an empty Event container and a second Geometry container. -/
def seekDocument : List ContainerNode :=
  [.element "Geometry" [], .element "Event" [sampleMCParticle], .element "Event" [],
    .element "Geometry" []]

/-- A stream of `2^31 + 1` empty Event containers. -/
def longDocument : List ContainerNode :=
  List.replicate (2 ^ 31 + 1) (.element "Event" [])

/-- A Relationship record with the id of `TRACK_TO_MC`, both addresses, and no `Weight`. -/
def weightlessRelationship : RecordNode :=
  .element "Relationship"
    [ ⟨"RelationshipId", "1"⟩, ⟨"Address1", "11"⟩, ⟨"Address2", "12"⟩ ]

/-- A stream of one Event container without records. -/
def emptyEventDocument : List ContainerNode :=
  [.element "Event" []]

/-- On the stream `emptyEventDocument`, after the header is read: a first
`ReadNextEventComponent` finds the container empty and moves past the last container. -/
def pastTheEnd : XmlFileReader.ReadResult :=
  XmlFileReader.ReadNextEventComponent (sampleEnv STATUS_CODE_NOT_FOUND)
    (readerAfterHeader emptyEventDocument)

/-! ## The address lists of the particle flow object

`Track`, `Cluster`, `CaloHit` and `OrderedCaloHitList` are declared in headers that are not
among the source files. The particle flow object holds pointers to tracks and clusters and
calls their getters; the getters are parameters, indexed by the address of the object. A
call through a pointer that points to no object of the type, the null pointer for one, has
no defined result. -/

/-- Modelled from the spec: the class `OrderedCaloHitList`, a map from pseudo layer to the
set of the calo hits of the layer, which is not among the source files: "its layer-ordered
hit collection", flattened "ordered by ascending calorimeter layer index and, within a
layer, by the layer-collection's internal ordering". The keys of the map are an ordered
set of layers, ascending, which is the iteration order of the map; the value at a key is
the set of the hits of the layer. -/
structure OrderedCaloHitList where
  layers : PtrSet
  hits : Nat → PtrSet

namespace OrderedCaloHitList

/-- Modelled from the spec: the list after one hit is put in the entry of a pseudo layer,
"merging any isolated hits into the same per-layer grouping". A layer without an entry gets
one, holding the hit alone; the set of a layer that has an entry gets the hit. -/
def put (l : OrderedCaloHitList) (pCaloHit : Address) (pseudoLayer : Nat) :
    OrderedCaloHitList :=
  if !l.layers.find pseudoLayer then
    { layers := (l.layers.insert pseudoLayer).1
      hits := Function.update l.hits pseudoLayer (PtrSet.empty.insert pCaloHit).1 }
  else
    { l with
      hits := Function.update l.hits pseudoLayer ((l.hits pseudoLayer).insert pCaloHit).1 }

/-- Modelled from the spec: the list after the hits of a calo hit list are put in it, one by
one in the iteration order of the list, each in its own pseudo layer. -/
def merge (getPseudoLayer : Address → Nat) :
    List Address → OrderedCaloHitList → OrderedCaloHitList
  | [], l => l
  | pCaloHit :: rest, l => merge getPseudoLayer rest (l.put pCaloHit (getPseudoLayer pCaloHit))

/-- The list without a hit. -/
def empty : OrderedCaloHitList := ⟨PtrSet.empty, fun _ => PtrSet.empty⟩

/-- The hit is in the entry of the layer. -/
def holds (l : OrderedCaloHitList) (pseudoLayer : Nat) (pCaloHit : Address) : Prop :=
  pseudoLayer ∈ l.layers ∧ pCaloHit ∈ l.hits pseudoLayer

instance (l : OrderedCaloHitList) (pseudoLayer : Nat) (pCaloHit : Address) :
    Decidable (l.holds pseudoLayer pCaloHit) := by
  unfold holds
  exact inferInstance

/-- The hits of the list in its iteration order: layer by layer, ascending, and within a
layer in the order of the set. -/
def caloHits (l : OrderedCaloHitList) : List Address :=
  l.layers.elems.flatMap fun layer => (l.hits layer).elems

end OrderedCaloHitList

/-- The objects that a particle flow object points to, by address: which addresses hold a
track, a cluster or a calo hit, and what the getters of these objects return. The null
pointer points to no object. -/
structure Objects where
  /-- Whether the address is that of a `Track`. -/
  isTrack : Address → Bool
  /-- Whether the address is that of a `Cluster`. -/
  isCluster : Address → Bool
  /-- Whether the address is that of a `CaloHit`. -/
  isCaloHit : Address → Bool
  /-- Source: `Track::GetParentTrackAddress`. -/
  GetParentTrackAddress : Address → Address
  /-- Source: `Cluster::GetOrderedCaloHitList`. -/
  GetOrderedCaloHitList : Address → OrderedCaloHitList
  /-- Source: `Cluster::GetIsolatedCaloHitList`. -/
  GetIsolatedCaloHitList : Address → PtrSet
  /-- Source: `CaloHit::GetParentCaloHitAddress`. -/
  GetParentCaloHitAddress : Address → Address
  /-- Source: `CaloHit::GetPseudoLayer`. -/
  GetPseudoLayer : Address → Nat
  /-- Source: the status that `orderedCaloHitList.Add(caloHitList)` returns. Neither the
  source files nor the specification say in which case it is not success: it is a
  parameter. -/
  addStatus : OrderedCaloHitList → PtrSet → StatusCode
  null_isTrack : isTrack NULL = false
  null_isCluster : isCluster NULL = false
  null_isCaloHit : isCaloHit NULL = false

/-- Modelled from the spec: `OrderedCaloHitList::Add(const CaloHitList &)`, which is not among
the source files: the status it returns, a parameter, and the list it leaves, the hits of
the calo hit list merged "into the same per-layer grouping". After a status other than
success the source does not look at the list. -/
def OrderedCaloHitList.Add (objects : Objects) (l : OrderedCaloHitList) (caloHitList : PtrSet) :
    StatusCode × OrderedCaloHitList :=
  (objects.addStatus l caloHitList, l.merge objects.GetPseudoLayer caloHitList.elems)

/-- How a call that returns a value ends: with the value, with a `StatusCodeException`, or
without a defined result, when it calls a member function through a pointer that points to
no object. -/
inductive CallResult (α : Type) where
  | returned (value : α)
  | thrown (s : StatusCode)
  | undefined
  deriving DecidableEq, Repr

/-- Source: the loop of `ParticleFlowObject::GetTrackAddressList`, from the track that the
iterator is at. `(*iter)->GetParentTrackAddress()` is a call through the pointer that the
set holds; `push_back` appends at the end. -/
def ParticleFlowObject.trackLoop (objects : Objects) :
    List Address → List Address → CallResult (List Address)
  | [], trackAddressList => .returned trackAddressList
  | iter :: iterRest, trackAddressList =>
    if !objects.isTrack iter then .undefined
    else trackLoop objects iterRest (trackAddressList ++ [objects.GetParentTrackAddress iter])

/-- Source: `ParticleFlowObject::GetTrackAddressList`. -/
def ParticleFlowObject.GetTrackAddressList (objects : Objects) (pfo : ParticleFlowObject) :
    CallResult (List Address) :=
  let trackAddressList : List Address := []
  ParticleFlowObject.trackLoop objects pfo.m_trackList.elems trackAddressList

/-- Source: the innermost loop of `ParticleFlowObject::GetClusterAddressList`, over the hits
of a layer, from the hit that the iterator is at. `(*hitIter)->GetParentCaloHitAddress()`
is a call through the pointer that the set holds. -/
def ParticleFlowObject.hitLoop (objects : Objects) :
    List Address → List Address → CallResult (List Address)
  | [], caloHitAddressList => .returned caloHitAddressList
  | hitIter :: hitIterRest, caloHitAddressList =>
    if !objects.isCaloHit hitIter then .undefined
    else
      hitLoop objects hitIterRest
        (caloHitAddressList ++ [objects.GetParentCaloHitAddress hitIter])

/-- Source: the loop of `ParticleFlowObject::GetClusterAddressList` over the layers of the
ordered calo hit list, from the layer that the iterator is at. -/
def ParticleFlowObject.layerLoop (objects : Objects) (orderedCaloHitList : OrderedCaloHitList) :
    List Nat → List Address → CallResult (List Address)
  | [], caloHitAddressList => .returned caloHitAddressList
  | layerIter :: layerIterRest, caloHitAddressList =>
    match ParticleFlowObject.hitLoop objects (orderedCaloHitList.hits layerIter).elems
        caloHitAddressList with
    | .returned caloHitAddressList =>
      layerLoop objects orderedCaloHitList layerIterRest caloHitAddressList
    | .thrown s => .thrown s
    | .undefined => .undefined

/-- Source: the body of the loop of `ParticleFlowObject::GetClusterAddressList` over the
cluster set, from the cluster that the iterator is at. `(*iter)->GetOrderedCaloHitList()` is
a call through the pointer that the set holds. The ordered calo hit list is a copy;
`PANDORA_THROW_RESULT_IF` throws the status of `Add` when it is not success. -/
def ParticleFlowObject.clusterLoop (objects : Objects) :
    List Address → List (List Address) → CallResult (List (List Address))
  | [], clusterAddressList => .returned clusterAddressList
  | iter :: iterRest, clusterAddressList =>
    if !objects.isCluster iter then .undefined
    else
      let caloHitAddressList : List Address := []
      let orderedCaloHitList := objects.GetOrderedCaloHitList iter
      let added := orderedCaloHitList.Add objects (objects.GetIsolatedCaloHitList iter)
      if STATUS_CODE_SUCCESS ≠ added.1 then .thrown added.1
      else
        let orderedCaloHitList := added.2
        match ParticleFlowObject.layerLoop objects orderedCaloHitList
            orderedCaloHitList.layers.elems caloHitAddressList with
        | .returned caloHitAddressList =>
          clusterLoop objects iterRest (clusterAddressList ++ [caloHitAddressList])
        | .thrown s => .thrown s
        | .undefined => .undefined

/-- Source: `ParticleFlowObject::GetClusterAddressList`. -/
def ParticleFlowObject.GetClusterAddressList (objects : Objects) (pfo : ParticleFlowObject) :
    CallResult (List (List Address)) :=
  let clusterAddressList : List (List Address) := []
  ParticleFlowObject.clusterLoop objects pfo.m_clusterList.elems clusterAddressList

/-- The ordered calo hit list of a cluster with its isolated hits merged into a copy of
it. -/
def Objects.merged (objects : Objects) (pCluster : Address) : OrderedCaloHitList :=
  (objects.GetOrderedCaloHitList pCluster).merge objects.GetPseudoLayer
    (objects.GetIsolatedCaloHitList pCluster).elems

/-- The status of the merge of the isolated hits of a cluster into a copy of its ordered
calo hit list. -/
def Objects.mergeStatus (objects : Objects) (pCluster : Address) : StatusCode :=
  objects.addStatus (objects.GetOrderedCaloHitList pCluster)
    (objects.GetIsolatedCaloHitList pCluster)

/-- The address is that of a cluster, and the hits of the cluster, ordered and isolated, are
at addresses of calo hits. -/
def Objects.sound (objects : Objects) (pCluster : Address) : Prop :=
  objects.isCluster pCluster = true ∧
  ∀ layer ∈ (objects.merged pCluster).layers.elems,
    ∀ pCaloHit ∈ ((objects.merged pCluster).hits layer).elems,
      objects.isCaloHit pCaloHit = true

instance (objects : Objects) (pCluster : Address) : Decidable (objects.sound pCluster) := by
  unfold Objects.sound
  exact inferInstance

/-- The parent addresses of the hits of an ordered calo hit list, one group for each layer,
the groups in ascending order of the layer. -/
def Objects.layerGroups (objects : Objects) (l : OrderedCaloHitList) : List (List Address) :=
  l.layers.elems.map fun layer => (l.hits layer).elems.map objects.GetParentCaloHitAddress

/-- The particle flow objects of a program, by address. -/
abbrev PfoHeap := Address → ParticleFlowObject

/-- The call `pThis->op(pArg)` of the add operation of a set: the member function runs on the
object at `pThis`, whose members are the only objects it writes. -/
def PfoHeap.add (heap : PfoHeap) (pThis : Address) (kind : ParticleFlowObject.SetKind)
    (pArg : Address) : StatusCode × PfoHeap :=
  (((heap pThis).add kind pArg).1, Function.update heap pThis ((heap pThis).add kind pArg).2)

/-- The call `pThis->op(pArg)` of the remove operation of a set. -/
def PfoHeap.remove (heap : PfoHeap) (pThis : Address) (kind : ParticleFlowObject.SetKind)
    (pArg : Address) : StatusCode × PfoHeap :=
  (((heap pThis).remove kind pArg).1,
    Function.update heap pThis ((heap pThis).remove kind pArg).2)

/-- The scalar attributes of a particle flow object. -/
def ParticleFlowObject.scalars (pfo : ParticleFlowObject) :
    Int × Int × FloatBits × FloatBits × CartesianVector :=
  (pfo.m_particleId, pfo.m_charge, pfo.m_mass, pfo.m_energy, pfo.m_momentum)

/-- The objects of a small program: tracks at the addresses 16, 48 and 80, the track at
address `p` coming from the track at `p + 4096`; a cluster at address 32, without hits; no
calo hit. Every merge succeeds. -/
def sampleObjects : Objects :=
  { isTrack := fun p => p == 16 || p == 48 || p == 80
    isCluster := fun p => p == 32
    isCaloHit := fun _ => false
    GetParentTrackAddress := fun p => p + 4096
    GetOrderedCaloHitList := fun _ => OrderedCaloHitList.empty
    GetIsolatedCaloHitList := fun _ => PtrSet.empty
    GetParentCaloHitAddress := fun p => p + 8192
    GetPseudoLayer := fun _ => 0
    addStatus := fun _ _ => STATUS_CODE_SUCCESS
    null_isTrack := rfl
    null_isCluster := rfl
    null_isCaloHit := rfl }

/-- A cluster at address 32 whose hits at addresses 200, 204 and 208 were put in the layers
2, 0 and 1, in this order, with an isolated hit at address 196 in layer 1. The parent of the
hit at address `p` is at `p + 8192`. Every merge succeeds. -/
def layeredObjects : Objects :=
  { isTrack := fun p => p == 16
    isCluster := fun p => p == 32
    isCaloHit := fun p => p == 196 || p == 200 || p == 204 || p == 208
    GetParentTrackAddress := fun p => p + 4096
    GetOrderedCaloHitList := fun _ =>
      ((OrderedCaloHitList.empty.put 200 2).put 204 0).put 208 1
    GetIsolatedCaloHitList := fun _ => (PtrSet.empty.insert 196).1
    GetParentCaloHitAddress := fun p => p + 8192
    GetPseudoLayer := fun p => if p = 200 then 2 else if p = 204 then 0 else 1
    addStatus := fun _ _ => STATUS_CODE_SUCCESS
    null_isTrack := rfl
    null_isCluster := rfl
    null_isCaloHit := rfl }

/-- The objects of `layeredObjects`, with a merge that reports failure. -/
def refusingObjects : Objects :=
  { layeredObjects with addStatus := fun _ _ => STATUS_CODE_FAILURE }

/-- A particle flow object with the tracks at addresses 48, 16 and 80, added in this order. -/
def threeTracks : ParticleFlowObject :=
  (((ParticleFlowObject.sample.RemoveFromPfo_Track 16).2.AddToPfo_Track 48).2.AddToPfo_Track
    16).2.AddToPfo_Track 80 |>.2

/-- Two particle flow objects, at addresses 64 and 128, the second with a vertex at address
8; every other address holds a copy of the first. -/
def sampleHeap : PfoHeap := fun p =>
  if p = 128 then (ParticleFlowObject.sample.AddToPfo_Vertex 8).2 else ParticleFlowObject.sample

/-! ## The field tables of the specification -/

/-- The key of a field decode; none for another call. -/
def Call.xmlKey : Call → Option String
  | .readVariable xmlKey _ => some xmlKey
  | _ => none

/-- The field table of each kind of object record as the specification gives it: the fields
in the order of the table, each under the key it has in the stream. The three layer
sequences of a SubDetector are in the table if and only if `NLayers` is positive. -/
def fieldTable (nLayers : Nat) : ObjectKind → List String
  | .SubDetector =>
    ["SubDetectorName", "SubDetectorType", "InnerRCoordinate", "InnerZCoordinate",
      "InnerPhiCoordinate", "InnerSymmetryOrder", "OuterRCoordinate", "OuterZCoordinate",
      "OuterPhiCoordinate", "OuterSymmetryOrder", "IsMirroredInZ", "NLayers"] ++
      (if nLayers > 0 then ["ClosestDistanceToIp", "NRadiationLengths", "NInteractionLengths"]
        else [])
  | .BoxGap => ["Vertex", "Side1", "Side2", "Side3"]
  | .ConcentricGap =>
    ["MinZCoordinate", "MaxZCoordinate", "InnerRCoordinate", "InnerPhiCoordinate",
      "InnerSymmetryOrder", "OuterRCoordinate", "OuterPhiCoordinate", "OuterSymmetryOrder"]
  | .CaloHit =>
    ["CellGeometry", "PositionVector", "ExpectedDirection", "CellNormalVector",
      "CellThickness", "NCellRadiationLengths", "NCellInteractionLengths", "Time",
      "InputEnergy", "MipEquivalentEnergy", "ElectromagneticEnergy", "HadronicEnergy",
      "IsDigital", "HitType", "HitRegion", "Layer", "IsInOuterSamplingLayer",
      "ParentCaloHitAddress", "CellSize0", "CellSize1"]
  | .Track =>
    ["D0", "Z0", "ParticleId", "Charge", "Mass", "MomentumAtDca", "TrackStateAtStart",
      "TrackStateAtEnd", "TrackStateAtCalorimeter", "TimeAtCalorimeter", "ReachesCalorimeter",
      "IsProjectedToEndCap", "CanFormPfo", "CanFormClusterlessPfo", "ParentTrackAddress"]
  | .MCParticle =>
    ["Energy", "Momentum", "Vertex", "Endpoint", "ParticleId", "MCParticleType", "Uid"]

/-- The sample collaborators with a construction call that reports the object as already
present. -/
def refusingEnv : Env :=
  { sampleEnv STATUS_CODE_NOT_FOUND with create := fun _ => STATUS_CODE_ALREADY_PRESENT }

/-- The sample collaborators with a SubDetector factory that puts one layer in the bundle. -/
def layeringEnv : Env :=
  { sampleEnv STATUS_CODE_NOT_FOUND with
    subDetectorFactoryRead := fun _ parameters =>
      (STATUS_CODE_SUCCESS, { parameters with m_layerParametersList := [⟨7, 8, 9⟩] }) }

/-- A SubDetector record that declares two layers and has two entries in each sequence. -/
def layeredSubDetector : RecordNode :=
  .element "SubDetector"
    (sampleSubDetectorScalars "2" ++
      [ ⟨"ClosestDistanceToIp", "1 2"⟩, ⟨"NRadiationLengths", "3 4"⟩,
        ⟨"NInteractionLengths", "5 6"⟩ ])

/-! ## Reading a container record by record -/

namespace XmlFileReader

/-- Source: the lines of `ReadNextGeometryComponent` from `const std::string componentName`
on: the dispatch on the name of the record under the cursor. -/
def dispatchGeometryComponent (env : Env) (r : XmlFileReader) : ReadResult :=
  let componentName := r.m_pCurrentXmlElement.ValueStr
  if "SubDetector" = componentName then returnHandler r (ReadSubDetector env r)
  else if "BoxGap" = componentName then returnHandler r (ReadBoxGap env r)
  else if "ConcentricGap" = componentName then returnHandler r (ReadConcentricGap env r)
  else ⟨.returned STATUS_CODE_FAILURE, r, []⟩

/-- Source: the lines of `ReadNextEventComponent` from `const std::string componentName` on:
the dispatch on the name of the record under the cursor. -/
def dispatchEventComponent (env : Env) (r : XmlFileReader) : ReadResult :=
  let componentName := r.m_pCurrentXmlElement.ValueStr
  if "CaloHit" = componentName then returnHandler r (ReadCaloHit env r)
  else if "Track" = componentName then returnHandler r (ReadTrack env r)
  else if "MCParticle" = componentName then returnHandler r (ReadMCParticle env r)
  else if "Relationship" = componentName then returnHandler r (ReadRelationship env r)
  else ⟨.returned STATUS_CODE_FAILURE, r, []⟩

/-- The read-next operation that matches a container kind: `ReadNextGeometryComponent` for a
Geometry container, `ReadNextEventComponent` otherwise. -/
def readNextOf (containerId : ContainerId) : Env → XmlFileReader → ReadResult :=
  if containerId = GEOMETRY then ReadNextGeometryComponent else ReadNextEventComponent

/-- The dispatch of the read-next operation that matches a container kind. -/
def dispatchOf (containerId : ContainerId) : Env → XmlFileReader → ReadResult :=
  if containerId = GEOMETRY then dispatchGeometryComponent else dispatchEventComponent

/-- Successive calls of an operation of the reader: the call is made `n` times, each time on
the reader that the call before left; the results, in the order of the calls. -/
def readMany (readNext : XmlFileReader → ReadResult) : Nat → XmlFileReader → List ReadResult
  | 0, _ => []
  | n + 1, r => readNext r :: readMany readNext n (readNext r).reader

end XmlFileReader

/-- The positions of the records among the child nodes of a container: a pointer to each
child element, in document order. -/
def recordPositions : RecordPtr → List RecordPtr
  | [] => []
  | node :: rest =>
    if node.isElement then (node :: rest) :: recordPositions rest else recordPositions rest

/-- The record is well formed for the collaborators and of a kind valid for the container:
its name is that of a kind whose handler expects the container kind, every step of the
handler returns success on it, and so does the construction or relationship call. -/
def wellFormed (env : Env) (containerId : ContainerId) (p : RecordPtr) : Prop :=
  ∃ kind : RecordKind, kind.containerId = containerId ∧ p.ValueStr = kind.componentName ∧
    (∀ c ∈ kind.steps env p, c.status = STATUS_CODE_SUCCESS) ∧
    (kind.finish env p).1 = STATUS_CODE_SUCCESS

/-- A stream of an Event container with two records and a comment between them, followed by
a Geometry container. -/
def twoRecordDocument : List ContainerNode :=
  [.element "Event" [sampleMCParticle, .other "a note", sampleRelationship "1"],
    .element "Geometry" []]

/-- A stream of an Event container whose first child node is a comment, followed by a
Geometry container. -/
def noteFirstDocument : List ContainerNode :=
  [.element "Event" [.other "a note", sampleMCParticle], .element "Geometry" []]

/-! ## Counting the calls of a seek -/

namespace XmlFileReader

/-- Source: the loop of `GoToGeometry` and `GoToEvent`, as `goToLoop`, with a count of the
calls of `goToNext` it has made. -/
def goToLoopCounted (goToNext : XmlFileReader → Option (Outcome × XmlFileReader))
    (target : Int) : Nat → Int → Nat → XmlFileReader → Option (Outcome × XmlFileReader × Nat)
  | 0, nRead, nCalls, r =>
    if nRead < target then none else some (.returned STATUS_CODE_SUCCESS, r, nCalls)
  | fuel + 1, nRead, nCalls, r =>
    if nRead < target then
      match goToNext r with
      | none => none
      | some res =>
        if res.1 ≠ .returned STATUS_CODE_SUCCESS then some (res.1, res.2, nCalls + 1)
        else goToLoopCounted goToNext target fuel (nRead + 1) (nCalls + 1) res.2
    else some (.returned STATUS_CODE_SUCCESS, r, nCalls)

/-- Source: `XmlFileReader::GoToGeometry`, with the number of calls of `GoToNextGeometry`
made. -/
def GoToGeometryCounted (geometryNumber : Nat) (r : XmlFileReader) :
    Option (Outcome × XmlFileReader × Nat) :=
  let nGeometriesRead : Int := 0
  let r := { r with m_isAtFileStart := true, m_pContainerXmlNode := [],
                    m_pCurrentXmlElement := [] }
  let nGeometriesRead :=
    if GEOMETRY ≠ r.GetNextContainerId then nGeometriesRead - 1 else nGeometriesRead
  goToLoopCounted GoToNextGeometry (toInt geometryNumber)
    (toInt geometryNumber - nGeometriesRead).toNat nGeometriesRead 0 r

/-- Source: `XmlFileReader::GoToEvent`, with the number of calls of `GoToNextEvent` made. -/
def GoToEventCounted (eventNumber : Nat) (r : XmlFileReader) :
    Option (Outcome × XmlFileReader × Nat) :=
  let nEventsRead : Int := 0
  let r := { r with m_isAtFileStart := true, m_pContainerXmlNode := [],
                    m_pCurrentXmlElement := [] }
  let nEventsRead := if EVENT ≠ r.GetNextContainerId then nEventsRead - 1 else nEventsRead
  goToLoopCounted GoToNextEvent (toInt eventNumber) (toInt eventNumber - nEventsRead).toNat
    nEventsRead 0 r

end XmlFileReader

/-! ## Sequences of calls on a particle flow object -/

namespace ParticleFlowObject

/-- A call of one of the add and remove operations of a particle flow object: the set it
targets and the argument. -/
inductive Operation where
  | add (kind : SetKind) (p : Address)
  | remove (kind : SetKind) (p : Address)
  deriving DecidableEq, Repr

/-- The particle flow object after a call. -/
def perform (pfo : ParticleFlowObject) : Operation → ParticleFlowObject
  | .add kind p => (pfo.add kind p).2
  | .remove kind p => (pfo.remove kind p).2

/-- The particle flow object after a sequence of calls, made in order. -/
def performAll (pfo : ParticleFlowObject) (operations : List Operation) : ParticleFlowObject :=
  operations.foldl perform pfo

end ParticleFlowObject

/-! ## Handler bodies run their steps -/

theorem runSteps_append (a b : List Call) (final : StatusCode × List Call) :
    runSteps (a ++ b) final = runSteps a (runSteps b final) := by
  induction a with
  | nil => rfl
  | cons c cs ih =>
    have h : runSteps (c :: (cs ++ b)) final =
        if c.status = STATUS_CODE_SUCCESS then
          ((runSteps (cs ++ b) final).1, c :: (runSteps (cs ++ b) final).2)
        else (c.status, [c]) := rfl
    rw [List.cons_append, h, ih]
    rfl

theorem runSteps_runSteps (a b : List Call) (final : StatusCode × List Call) :
    runSteps a (runSteps b final) = runSteps (a ++ b) final :=
  (runSteps_append a b final).symm

theorem HandlerM.run_command_bind {α : Type} (c : Call) (res : StatusCode × α)
    (f : α → HandlerM StatusCode) (h : c.status = res.1) :
    (HandlerM.command c res >>= f).run = runSteps [c] (f res.2).run := by
  simp only [HandlerM.command, Bind.bind, HandlerM.bind, runSteps, h]
  by_cases hs : res.1 = STATUS_CODE_SUCCESS
  · simp only [hs, if_true]
    rcases f res.2 with ⟨fl, l⟩
    cases fl <;> simp [HandlerM.run]
  · simp [hs, HandlerM.run]

theorem run_readVariable_bind {T : Type} (dec : Decoder T) (p : RecordPtr) (key : String)
    (t : T) (f : T → HandlerM StatusCode) :
    (readVariable dec p key t >>= f).run =
      runSteps [decodeCall dec p key t] (f (dec p key t).2).run :=
  HandlerM.run_command_bind _ _ f rfl

theorem run_factoryRead_bind {P : Type} (kind : ObjectKind) (res : StatusCode × P)
    (f : P → HandlerM StatusCode) :
    (factoryRead kind res >>= f).run = runSteps [Call.factoryRead kind res.1] (f res.2).run :=
  HandlerM.run_command_bind _ _ f rfl

theorem run_create_bind (env : Env) (b : Bundle) (f : Unit → HandlerM StatusCode) :
    (create env b >>= f).run = runSteps [createCall env b] (f ()).run :=
  HandlerM.run_command_bind _ _ f rfl

theorem HandlerM.run_pure (s : StatusCode) :
    (pure s : HandlerM StatusCode).run = (s, []) := rfl

theorem HandlerM.bind_assoc {α β γ : Type} (m : HandlerM α) (f : α → HandlerM β)
    (g : β → HandlerM γ) : (m >>= f) >>= g = m >>= fun a => f a >>= g := by
  rcases m with ⟨fl, l⟩
  cases fl with
  | ret s => rfl
  | next a =>
    simp only [Bind.bind, HandlerM.bind]
    rcases f a with ⟨fl2, l2⟩
    cases fl2 with
    | ret s => rfl
    | next b => simp [List.append_assoc]

theorem HandlerM.pure_bind {α β : Type} (a : α) (f : α → HandlerM β) :
    (pure a : HandlerM α) >>= f = f a := by
  show ((f a).1, [] ++ (f a).2) = f a
  rw [List.nil_append]
  rfl

theorem HandlerM.ret_bind {α β : Type} (s : StatusCode) (f : α → HandlerM β) :
    (HandlerM.ret s : HandlerM α) >>= f = HandlerM.ret s := rfl

theorem HandlerM.run_ret (s : StatusCode) : (HandlerM.ret s : HandlerM StatusCode).run = (s, []) :=
  rfl

namespace XmlFileReader

theorem ReadBoxGap_eq (env : Env) (r : XmlFileReader) :
    ReadBoxGap env r =
      if GEOMETRY ≠ r.m_containerId then (STATUS_CODE_FAILURE, [])
      else runSteps (decodeSteps env r.m_pCurrentXmlElement .BoxGap)
        (finish env r.m_pCurrentXmlElement .BoxGap) := by
  simp only [ReadBoxGap, run_readVariable_bind, run_factoryRead_bind, run_create_bind,
    HandlerM.run_pure, decodeSteps, hookCall, fieldCalls, finish, lengthCheckFails, bundle,
    if_false, runSteps_runSteps, List.cons_append, List.nil_append]

theorem ReadConcentricGap_eq (env : Env) (r : XmlFileReader) :
    ReadConcentricGap env r =
      if GEOMETRY ≠ r.m_containerId then (STATUS_CODE_FAILURE, [])
      else runSteps (decodeSteps env r.m_pCurrentXmlElement .ConcentricGap)
        (finish env r.m_pCurrentXmlElement .ConcentricGap) := by
  simp only [ReadConcentricGap, run_readVariable_bind, run_factoryRead_bind, run_create_bind,
    HandlerM.run_pure, decodeSteps, hookCall, fieldCalls, finish, lengthCheckFails, bundle,
    if_false, runSteps_runSteps, List.cons_append, List.nil_append]

theorem ReadCaloHit_eq (env : Env) (r : XmlFileReader) :
    ReadCaloHit env r =
      if EVENT ≠ r.m_containerId then (STATUS_CODE_FAILURE, [])
      else runSteps (decodeSteps env r.m_pCurrentXmlElement .CaloHit)
        (finish env r.m_pCurrentXmlElement .CaloHit) := by
  simp only [ReadCaloHit, run_readVariable_bind, run_factoryRead_bind, run_create_bind,
    HandlerM.run_pure, decodeSteps, hookCall, fieldCalls, finish, lengthCheckFails, bundle,
    if_false, runSteps_runSteps, List.cons_append, List.nil_append]

theorem ReadTrack_eq (env : Env) (r : XmlFileReader) :
    ReadTrack env r =
      if EVENT ≠ r.m_containerId then (STATUS_CODE_FAILURE, [])
      else runSteps (decodeSteps env r.m_pCurrentXmlElement .Track)
        (finish env r.m_pCurrentXmlElement .Track) := by
  simp only [ReadTrack, run_readVariable_bind, run_factoryRead_bind, run_create_bind,
    HandlerM.run_pure, decodeSteps, hookCall, fieldCalls, finish, lengthCheckFails, bundle,
    if_false, runSteps_runSteps, List.cons_append, List.nil_append]

theorem ReadMCParticle_eq (env : Env) (r : XmlFileReader) :
    ReadMCParticle env r =
      if EVENT ≠ r.m_containerId then (STATUS_CODE_FAILURE, [])
      else runSteps (decodeSteps env r.m_pCurrentXmlElement .MCParticle)
        (finish env r.m_pCurrentXmlElement .MCParticle) := by
  simp only [ReadMCParticle, run_readVariable_bind, run_factoryRead_bind, run_create_bind,
    HandlerM.run_pure, decodeSteps, hookCall, fieldCalls, finish, lengthCheckFails, bundle,
    if_false, runSteps_runSteps, List.cons_append, List.nil_append]

theorem ReadSubDetector_eq (env : Env) (r : XmlFileReader) :
    ReadSubDetector env r =
      if GEOMETRY ≠ r.m_containerId then (STATUS_CODE_FAILURE, [])
      else runSteps (decodeSteps env r.m_pCurrentXmlElement .SubDetector)
        (finish env r.m_pCurrentXmlElement .SubDetector) := by
  by_cases hn : (env.readUInt r.m_pCurrentXmlElement "NLayers" 0).2 > 0
  · by_cases hm : layerCountMismatch env r.m_pCurrentXmlElement
    · have hm2 := hm
      unfold layerCountMismatch at hm2
      simp only [ReadSubDetector, run_readVariable_bind, run_factoryRead_bind, run_create_bind,
        HandlerM.run_pure, decodeSteps, hookCall, fieldCalls, finish, lengthCheckFails, bundle,
        subDetectorScalarCalls, subDetectorSequenceCalls, hn, hm, hm2, if_true, and_self,
        HandlerM.bind_assoc, HandlerM.ret_bind, HandlerM.run_ret,
        runSteps_runSteps, List.cons_append, List.nil_append]
    · have hm2 := hm
      unfold layerCountMismatch at hm2
      simp only [ReadSubDetector, run_readVariable_bind, run_factoryRead_bind, run_create_bind,
        HandlerM.run_pure, decodeSteps, hookCall, fieldCalls, finish, lengthCheckFails, bundle,
        subDetectorScalarCalls, subDetectorSequenceCalls, subDetectorWithLayers,
        subDetectorScalars, hn, hm, hm2, if_true, if_false, and_false, true_and,
        HandlerM.bind_assoc, HandlerM.pure_bind,
        runSteps_runSteps, List.cons_append, List.nil_append]
  · simp only [ReadSubDetector, run_readVariable_bind, run_factoryRead_bind, run_create_bind,
      HandlerM.run_pure, decodeSteps, hookCall, fieldCalls, finish, lengthCheckFails, bundle,
      subDetectorScalarCalls, subDetectorScalars, hn, if_false, false_and,
      HandlerM.pure_bind, runSteps_runSteps, List.cons_append, List.nil_append,
      List.append_nil]

theorem ReadRelationship_eq (env : Env) (r : XmlFileReader) :
    ReadRelationship env r =
      if EVENT ≠ r.m_containerId then (STATUS_CODE_FAILURE, [])
      else runSteps (relationshipSteps env r.m_pCurrentXmlElement)
        (relationshipFinish env r.m_pCurrentXmlElement) := by
  simp only [ReadRelationship, run_readVariable_bind, relationshipSteps, relationshipFinish,
    runSteps_runSteps, List.cons_append, List.nil_append]
  split
  · rfl
  · congr 1
    cases env.toRelationshipId (env.readUInt r.m_pCurrentXmlElement "RelationshipId" 0).2 <;> rfl

end XmlFileReader

/-! ## Sets of pointers -/

namespace PtrSet

theorem insert_of_mem (s : PtrSet) (p : Address) (h : p ∈ s) : s.insert p = (s, false) := by
  have h2 : p ∈ s.elems := h
  simp only [insert, h2, dite_true]

theorem insert_snd_of_not_mem (s : PtrSet) (p : Address) (h : p ∉ s) :
    (s.insert p).2 = true := by
  have h2 : p ∉ s.elems := h
  simp only [insert, h2, dite_false]

theorem insert_elems_of_not_mem (s : PtrSet) (p : Address) (h : p ∉ s) :
    (s.insert p).1.elems = s.elems.orderedInsert (· ≤ ·) p := by
  have h2 : p ∉ s.elems := h
  simp only [insert, h2, dite_false]

theorem mem_insert (s : PtrSet) (p q : Address) : q ∈ (s.insert p).1 ↔ q = p ∨ q ∈ s := by
  by_cases h : p ∈ s
  · rw [insert_of_mem s p h]
    constructor
    · exact fun hq => Or.inr hq
    · rintro (rfl | hq)
      · exact h
      · exact hq
  · show q ∈ (s.insert p).1.elems ↔ q = p ∨ q ∈ s.elems
    rw [insert_elems_of_not_mem s p h, List.mem_orderedInsert]

theorem insert_snd (s : PtrSet) (p : Address) : (s.insert p).2 = !decide (p ∈ s) := by
  by_cases h : p ∈ s
  · rw [insert_of_mem s p h]; simp [h]
  · rw [insert_snd_of_not_mem s p h]; simp [h]

theorem find_eq (s : PtrSet) (p : Address) : s.find p = decide (p ∈ s) := rfl

theorem mem_erase (s : PtrSet) (p q : Address) : q ∈ s.erase p ↔ q ≠ p ∧ q ∈ s := by
  show q ∈ s.elems.erase p ↔ q ≠ p ∧ q ∈ s.elems
  exact s.sorted.nodup.mem_erase_iff

theorem size_erase (s : PtrSet) (p : Address) (h : p ∈ s) : (s.erase p).size + 1 = s.size := by
  have h2 : p ∈ s.elems := h
  show (s.elems.erase p).length + 1 = s.elems.length
  rw [List.length_erase_of_mem h2]
  have : 0 < s.elems.length := List.length_pos_of_mem h2
  omega

end PtrSet

/-! ## Membership of the particle flow object -/

namespace ParticleFlowObject

theorem AddParent_eq (pfo : ParticleFlowObject) (r : Address) :
    pfo.AddParent r =
      if r = NULL then (STATUS_CODE_INVALID_PARAMETER, pfo)
      else if r ∈ pfo.m_parentPfoList then (STATUS_CODE_ALREADY_PRESENT, pfo)
      else (STATUS_CODE_SUCCESS,
        { pfo with m_parentPfoList := (pfo.m_parentPfoList.insert r).1 }) := by
  unfold AddParent
  by_cases h0 : r = NULL
  · rw [if_pos h0.symm, if_pos h0]
  · rw [if_neg (fun h => h0 h.symm), if_neg h0]
    by_cases h : r ∈ pfo.m_parentPfoList
    · simp [h, PtrSet.insert_of_mem]
    · simp [h, PtrSet.insert_snd_of_not_mem]

theorem AddDaughter_eq (pfo : ParticleFlowObject) (r : Address) :
    pfo.AddDaughter r =
      if r = NULL then (STATUS_CODE_INVALID_PARAMETER, pfo)
      else if r ∈ pfo.m_daughterPfoList then (STATUS_CODE_ALREADY_PRESENT, pfo)
      else (STATUS_CODE_SUCCESS,
        { pfo with m_daughterPfoList := (pfo.m_daughterPfoList.insert r).1 }) := by
  unfold AddDaughter
  by_cases h0 : r = NULL
  · rw [if_pos h0.symm, if_pos h0]
  · rw [if_neg (fun h => h0 h.symm), if_neg h0]
    by_cases h : r ∈ pfo.m_daughterPfoList
    · simp [h, PtrSet.insert_of_mem]
    · simp [h, PtrSet.insert_snd_of_not_mem]

theorem AddToPfo_Track_eq (pfo : ParticleFlowObject) (r : Address) :
    pfo.AddToPfo_Track r =
      if r ∈ pfo.m_trackList then (STATUS_CODE_ALREADY_PRESENT, pfo)
      else (STATUS_CODE_SUCCESS, { pfo with m_trackList := (pfo.m_trackList.insert r).1 }) := by
  unfold AddToPfo_Track
  by_cases h : r ∈ pfo.m_trackList
  · simp [h, PtrSet.insert_of_mem]
  · simp [h, PtrSet.insert_snd_of_not_mem]

theorem AddToPfo_Cluster_eq (pfo : ParticleFlowObject) (r : Address) :
    pfo.AddToPfo_Cluster r =
      if r ∈ pfo.m_clusterList then (STATUS_CODE_ALREADY_PRESENT, pfo)
      else (STATUS_CODE_SUCCESS,
        { pfo with m_clusterList := (pfo.m_clusterList.insert r).1 }) := by
  unfold AddToPfo_Cluster
  by_cases h : r ∈ pfo.m_clusterList
  · simp [h, PtrSet.insert_of_mem]
  · simp [h, PtrSet.insert_snd_of_not_mem]

theorem AddToPfo_Vertex_eq (pfo : ParticleFlowObject) (r : Address) :
    pfo.AddToPfo_Vertex r =
      if r ∈ pfo.m_vertexList then (STATUS_CODE_ALREADY_PRESENT, pfo)
      else (STATUS_CODE_SUCCESS,
        { pfo with m_vertexList := (pfo.m_vertexList.insert r).1 }) := by
  unfold AddToPfo_Vertex
  by_cases h : r ∈ pfo.m_vertexList
  · simp [h, PtrSet.insert_of_mem]
  · simp [h, PtrSet.insert_snd_of_not_mem]

theorem add_fst (pfo : ParticleFlowObject) (k : SetKind) (r : Address) :
    (pfo.add k r).1 =
      if k.rejectsNull = true ∧ r = NULL then STATUS_CODE_INVALID_PARAMETER
      else if r ∈ pfo.getSet k then STATUS_CODE_ALREADY_PRESENT
      else STATUS_CODE_SUCCESS := by
  cases k <;>
    simp only [add, getSet, SetKind.rejectsNull, AddToPfo_Track_eq, AddToPfo_Cluster_eq,
      AddToPfo_Vertex_eq, AddParent_eq, AddDaughter_eq, true_and, false_and, if_false,
      Bool.false_eq_true] <;>
    repeat (first | rfl | split)

theorem add_getSet (pfo : ParticleFlowObject) (k : SetKind) (r : Address) :
    (pfo.add k r).2.getSet k =
      if k.rejectsNull = true ∧ r = NULL then pfo.getSet k else ((pfo.getSet k).insert r).1 := by
  cases k <;>
    simp only [add, getSet, SetKind.rejectsNull, AddToPfo_Track_eq, AddToPfo_Cluster_eq,
      AddToPfo_Vertex_eq, AddParent_eq, AddDaughter_eq, true_and, false_and, if_false,
      Bool.false_eq_true] <;>
    repeat (first | rfl | split | (rw [PtrSet.insert_of_mem _ _ (by assumption)]))

theorem add_of_mem (pfo : ParticleFlowObject) (k : SetKind) (r : Address)
    (h0 : k.rejectsNull = true → r ≠ NULL) (h : r ∈ pfo.getSet k) :
    pfo.add k r = (STATUS_CODE_ALREADY_PRESENT, pfo) := by
  cases k
  · simp only [getSet] at h; simp only [add, AddToPfo_Track_eq, if_pos h]
  · simp only [getSet] at h; simp only [add, AddToPfo_Cluster_eq, if_pos h]
  · simp only [getSet] at h; simp only [add, AddToPfo_Vertex_eq, if_pos h]
  · simp only [getSet] at h; simp only [add, AddParent_eq, if_pos h, if_neg (h0 rfl)]
  · simp only [getSet] at h; simp only [add, AddDaughter_eq, if_pos h, if_neg (h0 rfl)]

theorem remove_of_not_mem (pfo : ParticleFlowObject) (k : SetKind) (r : Address)
    (h : r ∉ pfo.getSet k) : pfo.remove k r = (STATUS_CODE_NOT_FOUND, pfo) := by
  cases k <;>
    simp_all [remove, getSet, RemoveFromPfo_Track, RemoveFromPfo_Cluster,
      RemoveFromPfo_Vertex, RemoveParent, RemoveDaughter, PtrSet.find_eq]

theorem remove_of_mem (pfo : ParticleFlowObject) (k : SetKind) (r : Address)
    (h : r ∈ pfo.getSet k) :
    (pfo.remove k r).1 = STATUS_CODE_SUCCESS ∧
      (pfo.remove k r).2.getSet k = (pfo.getSet k).erase r := by
  cases k <;>
    simp_all [remove, getSet, RemoveFromPfo_Track, RemoveFromPfo_Cluster,
      RemoveFromPfo_Vertex, RemoveParent, RemoveDaughter, PtrSet.find_eq]

/-- C1. For each of the five sets and every reference `r` that is not yet a member
(`r` non-null for the parents and daughters): the first add returns success and makes `r`
a member; the same add repeated at once returns "already present" and leaves the object,
so the set and its size, as they were. -/
theorem add_then_add_again (pfo : ParticleFlowObject) (k : SetKind) (r : Address)
    (hnull : k.rejectsNull = true → r ≠ NULL) (hr : r ∉ pfo.getSet k) :
    (pfo.add k r).1 = STATUS_CODE_SUCCESS ∧
    r ∈ (pfo.add k r).2.getSet k ∧
    ((pfo.add k r).2.add k r).1 = STATUS_CODE_ALREADY_PRESENT ∧
    ((pfo.add k r).2.add k r).2.getSet k = (pfo.add k r).2.getSet k ∧
    (((pfo.add k r).2.add k r).2.getSet k).size = ((pfo.add k r).2.getSet k).size := by
  have hn : ¬ (k.rejectsNull = true ∧ r = NULL) := fun h => hnull h.1 h.2
  have hmem : r ∈ (pfo.add k r).2.getSet k := by
    rw [add_getSet, if_neg hn, PtrSet.mem_insert]
    exact Or.inl rfl
  have h2 := add_of_mem (pfo.add k r).2 k r hnull hmem
  refine ⟨?_, hmem, ?_, ?_, ?_⟩
  · rw [add_fst, if_neg hn, if_neg hr]
  · rw [h2]
  · rw [h2]
  · rw [h2]

/-- Witness of C1: a first parent at address 48 added to the sample object. -/
theorem add_then_add_again_witness :
    (sample.add .parents 48).1 = STATUS_CODE_SUCCESS ∧
    48 ∈ (sample.add .parents 48).2.getSet .parents ∧
    ((sample.add .parents 48).2.add .parents 48).1 = STATUS_CODE_ALREADY_PRESENT ∧
    ((sample.add .parents 48).2.add .parents 48).2.getSet .parents =
      (sample.add .parents 48).2.getSet .parents ∧
    (((sample.add .parents 48).2.add .parents 48).2.getSet .parents).size =
      ((sample.add .parents 48).2.getSet .parents).size :=
  add_then_add_again sample .parents 48 (by decide) (by decide)

/-- C2. For each of the five sets and every reference `r`: removing a non-member returns
"not found" and leaves the object as it was; removing a member returns success, after which
`r` is no member, every other member is still one, and the size has gone down by exactly
one. -/
theorem remove_member_or_not (pfo : ParticleFlowObject) (k : SetKind) (r : Address) :
    (r ∉ pfo.getSet k → pfo.remove k r = (STATUS_CODE_NOT_FOUND, pfo)) ∧
    (r ∈ pfo.getSet k →
      (pfo.remove k r).1 = STATUS_CODE_SUCCESS ∧
      r ∉ (pfo.remove k r).2.getSet k ∧
      (∀ x, x ∈ pfo.getSet k → x ≠ r → x ∈ (pfo.remove k r).2.getSet k) ∧
      (∀ x, x ∈ (pfo.remove k r).2.getSet k → x ∈ pfo.getSet k) ∧
      ((pfo.remove k r).2.getSet k).size + 1 = (pfo.getSet k).size) := by
  refine ⟨remove_of_not_mem pfo k r, fun h => ?_⟩
  obtain ⟨h1, h2⟩ := remove_of_mem pfo k r h
  refine ⟨h1, ?_, ?_, ?_, ?_⟩
  · rw [h2, PtrSet.mem_erase]
    exact fun hx => hx.1 rfl
  · intro x hx hne
    rw [h2, PtrSet.mem_erase]
    exact ⟨hne, hx⟩
  · intro x hx
    rw [h2, PtrSet.mem_erase] at hx
    exact hx.2
  · rw [h2]
    exact PtrSet.size_erase _ r h

/-- Witness of C2: on the sample object, track 16 is held and track 17 is not. -/
theorem remove_member_or_not_witness :
    sample.remove .tracks 17 = (STATUS_CODE_NOT_FOUND, sample) ∧
    (sample.remove .tracks 16).1 = STATUS_CODE_SUCCESS ∧
    16 ∉ (sample.remove .tracks 16).2.getSet .tracks ∧
    ((sample.remove .tracks 16).2.getSet .tracks).size + 1 = (sample.getSet .tracks).size :=
  ⟨(remove_member_or_not sample .tracks 17).1 (by decide),
    ((remove_member_or_not sample .tracks 16).2 (by decide)).1,
    ((remove_member_or_not sample .tracks 16).2 (by decide)).2.1,
    ((remove_member_or_not sample .tracks 16).2 (by decide)).2.2.2.2⟩

/-- C3. `AddParent` and `AddDaughter` return "invalid parameter" for the null reference and
leave the object as it was; for a non-null reference they return "already present" exactly
when it is in the targeted set and success otherwise. Nothing else is looked at: a reference
held as daughter is accepted as parent, and the other way round. -/
theorem add_parent_daughter_status (pfo : ParticleFlowObject) (r : Address) :
    pfo.AddParent NULL = (STATUS_CODE_INVALID_PARAMETER, pfo) ∧
    pfo.AddDaughter NULL = (STATUS_CODE_INVALID_PARAMETER, pfo) ∧
    (pfo.AddParent r).1 =
      (if r = NULL then STATUS_CODE_INVALID_PARAMETER
       else if r ∈ pfo.m_parentPfoList then STATUS_CODE_ALREADY_PRESENT
       else STATUS_CODE_SUCCESS) ∧
    (pfo.AddDaughter r).1 =
      (if r = NULL then STATUS_CODE_INVALID_PARAMETER
       else if r ∈ pfo.m_daughterPfoList then STATUS_CODE_ALREADY_PRESENT
       else STATUS_CODE_SUCCESS) := by
  refine ⟨by rw [AddParent_eq, if_pos rfl], by rw [AddDaughter_eq, if_pos rfl], ?_, ?_⟩
  · rw [AddParent_eq]
    repeat (first | rfl | split)
  · rw [AddDaughter_eq]
    repeat (first | rfl | split)

end ParticleFlowObject

/-! ## Running steps -/

theorem runSteps_of_success (steps : List Call) (final : StatusCode × List Call)
    (h : ∀ c ∈ steps, c.status = STATUS_CODE_SUCCESS) :
    runSteps steps final = (final.1, steps ++ final.2) := by
  induction steps with
  | nil => rfl
  | cons c cs ih =>
    have hc := h c (List.mem_cons_self _ _)
    have ih2 := ih (fun x hx => h x (List.mem_cons_of_mem _ hx))
    simp only [runSteps, hc, if_true, ih2, List.cons_append]

theorem runSteps_first_failure (steps : List Call) (final : StatusCode × List Call)
    (h : ∃ c ∈ steps, c.status ≠ STATUS_CODE_SUCCESS) :
    ∃ pre c post, steps = pre ++ c :: post ∧ (∀ x ∈ pre, x.status = STATUS_CODE_SUCCESS) ∧
      c.status ≠ STATUS_CODE_SUCCESS ∧ runSteps steps final = (c.status, pre ++ [c]) := by
  induction steps with
  | nil =>
    obtain ⟨c, hc, _⟩ := h
    cases hc
  | cons a as ih =>
    by_cases ha : a.status = STATUS_CODE_SUCCESS
    · have h2 : ∃ c ∈ as, c.status ≠ STATUS_CODE_SUCCESS := by
        obtain ⟨c, hc, hs⟩ := h
        rcases List.mem_cons.mp hc with rfl | hc
        · exact absurd ha hs
        · exact ⟨c, hc, hs⟩
      obtain ⟨pre, c, post, h1, h3, h4, h5⟩ := ih h2
      refine ⟨a :: pre, c, post, by rw [h1]; rfl, ?_, h4, ?_⟩
      · intro x hx
        rcases List.mem_cons.mp hx with rfl | hx
        · exact ha
        · exact h3 x hx
      · simp only [runSteps, ha, if_true, h5, List.cons_append]
    · exact ⟨[], a, as, rfl, by simp, ha, by simp only [runSteps, ha, if_false, List.nil_append]⟩

theorem runSteps_cases (steps : List Call) (final : StatusCode × List Call) :
    ((∀ c ∈ steps, c.status = STATUS_CODE_SUCCESS) ∧
      runSteps steps final = (final.1, steps ++ final.2)) ∨
    ∃ pre c post, steps = pre ++ c :: post ∧ (∀ x ∈ pre, x.status = STATUS_CODE_SUCCESS) ∧
      c.status ≠ STATUS_CODE_SUCCESS ∧ runSteps steps final = (c.status, pre ++ [c]) := by
  by_cases h : ∀ c ∈ steps, c.status = STATUS_CODE_SUCCESS
  · exact Or.inl ⟨h, runSteps_of_success steps final h⟩
  · right
    apply runSteps_first_failure
    by_contra hne
    apply h
    intro c hc
    by_contra hs
    exact hne ⟨c, hc, hs⟩

theorem runSteps_failure (steps : List Call) (final : StatusCode × List Call) (c : Call)
    (hc : c ∈ steps) (hs : c.status ≠ STATUS_CODE_SUCCESS) :
    (runSteps steps final).1 ≠ STATUS_CODE_SUCCESS ∧
    (∃ x ∈ steps, x.status = (runSteps steps final).1) ∧
    (∀ x ∈ (runSteps steps final).2, x ∈ steps) := by
  obtain ⟨pre, c2, post, h1, _, h3, h4⟩ := runSteps_first_failure steps final ⟨c, hc, hs⟩
  rw [h4]
  refine ⟨h3, ⟨c2, by rw [h1]; simp, rfl⟩, ?_⟩
  intro x hx
  rw [h1]
  rcases List.mem_append.mp hx with hx | hx
  · exact List.mem_append_left _ hx
  · rw [List.mem_singleton.mp hx]
    simp

theorem runSteps_mem_status (steps : List Call) (final : StatusCode × List Call)
    (hfinal : ∀ c ∈ final.2, c.status ≠ STATUS_CODE_SUCCESS → final.1 = c.status) :
    ∀ c ∈ (runSteps steps final).2, c.status ≠ STATUS_CODE_SUCCESS →
      (runSteps steps final).1 = c.status := by
  rcases runSteps_cases steps final with ⟨h1, h2⟩ | ⟨pre, c2, post, _, h2, _, h4⟩
  · rw [h2]
    intro c hc hs
    rcases List.mem_append.mp hc with hc | hc
    · exact absurd (h1 c hc) hs
    · exact hfinal c hc hs
  · rw [h4]
    intro c hc hs
    rcases List.mem_append.mp hc with hc | hc
    · exact absurd (h2 c hc) hs
    · rw [List.mem_singleton.mp hc]

theorem runSteps_status_origin (steps : List Call) (final : StatusCode × List Call)
    (s : StatusCode) (hfinal : final.1 = s → ∃ c ∈ final.2, c.status = s)
    (hs : (runSteps steps final).1 = s) :
    ∃ c ∈ (runSteps steps final).2, c.status = s := by
  rcases runSteps_cases steps final with ⟨_, h2⟩ | ⟨pre, c2, post, _, _, _, h4⟩
  · rw [h2] at hs ⊢
    obtain ⟨c, hc, hcs⟩ := hfinal hs
    exact ⟨c, List.mem_append_right _ hc, hcs⟩
  · rw [h4] at hs ⊢
    exact ⟨c2, by simp, hs⟩

/-! ## The handlers as steps -/

theorem XmlFileReader.objectHandler_eq (kind : ObjectKind) (env : Env) (r : XmlFileReader) :
    XmlFileReader.handler kind env r =
      if kind.containerId ≠ r.m_containerId then (STATUS_CODE_FAILURE, [])
      else runSteps (decodeSteps env r.m_pCurrentXmlElement kind)
        (finish env r.m_pCurrentXmlElement kind) := by
  cases kind
  · exact XmlFileReader.ReadSubDetector_eq env r
  · exact XmlFileReader.ReadBoxGap_eq env r
  · exact XmlFileReader.ReadConcentricGap_eq env r
  · exact XmlFileReader.ReadCaloHit_eq env r
  · exact XmlFileReader.ReadTrack_eq env r
  · exact XmlFileReader.ReadMCParticle_eq env r

theorem RecordKind.handler_eq (kind : RecordKind) (env : Env) (r : XmlFileReader) :
    kind.handler env r =
      if kind.containerId ≠ r.m_containerId then (STATUS_CODE_FAILURE, [])
      else runSteps (kind.steps env r.m_pCurrentXmlElement)
        (kind.finish env r.m_pCurrentXmlElement) := by
  cases kind with
  | object k => exact XmlFileReader.objectHandler_eq k env r
  | relationship => exact XmlFileReader.ReadRelationship_eq env r

theorem decodeSteps_are_decodes (env : Env) (p : RecordPtr) (kind : ObjectKind) :
    ∀ c ∈ decodeSteps env p kind, c.isCreate = false ∧ c.isRelationship = false := by
  cases kind
  case SubDetector =>
    by_cases hn : (env.readUInt p "NLayers" 0).2 > 0 <;>
      simp [decodeSteps, hookCall, fieldCalls, subDetectorScalarCalls,
        subDetectorSequenceCalls, decodeCall, Call.isCreate, Call.isRelationship, hn]
  all_goals
    simp [decodeSteps, hookCall, fieldCalls, decodeCall, Call.isCreate, Call.isRelationship]

theorem relationshipSteps_are_decodes (env : Env) (p : RecordPtr) :
    ∀ c ∈ relationshipSteps env p, c.isCreate = false ∧ c.isRelationship = false := by
  simp [relationshipSteps, decodeCall, Call.isCreate, Call.isRelationship]

theorem RecordKind.steps_are_decodes (env : Env) (p : RecordPtr) (kind : RecordKind) :
    ∀ c ∈ kind.steps env p, c.isCreate = false ∧ c.isRelationship = false := by
  cases kind with
  | object k => exact decodeSteps_are_decodes env p k
  | relationship => exact relationshipSteps_are_decodes env p

theorem finish_eq (env : Env) (p : RecordPtr) (kind : ObjectKind) :
    finish env p kind =
      if lengthCheckFails env p kind then (STATUS_CODE_FAILURE, [])
      else (env.create (bundle env p kind), [createCall env (bundle env p kind)]) := by
  unfold finish
  split
  · rfl
  · by_cases h : env.create (bundle env p kind) = STATUS_CODE_SUCCESS <;>
      simp [runSteps, createCall, Call.status, h]

theorem relationshipCall_isRelationship (env : Env) (id : RelationshipId)
    (address1 address2 : Address) (weight : FloatBits) (c : Call)
    (h : relationshipCall env id address1 address2 weight = some c) :
    c.isRelationship = true := by
  cases id <;> simp [relationshipCall] at h <;> subst h <;> rfl

theorem RecordKind.finish_cases (env : Env) (p : RecordPtr) (kind : RecordKind) :
    kind.finish env p = (STATUS_CODE_FAILURE, []) ∨
      ∃ c, kind.finish env p = (c.status, [c]) := by
  cases kind with
  | object k =>
    simp only [RecordKind.finish, finish_eq]
    split
    · exact Or.inl rfl
    · exact Or.inr ⟨createCall env (bundle env p k), rfl⟩
  | relationship =>
    simp only [RecordKind.finish, relationshipFinish]
    split
    · rename_i c _
      exact Or.inr ⟨c, rfl⟩
    · exact Or.inl rfl

theorem RecordKind.handler_mem_status (kind : RecordKind) (env : Env) (r : XmlFileReader) :
    ∀ c ∈ (kind.handler env r).2, c.status ≠ STATUS_CODE_SUCCESS →
      (kind.handler env r).1 = c.status := by
  rw [RecordKind.handler_eq]
  split
  · intro c hc
    cases hc
  · apply runSteps_mem_status
    rcases RecordKind.finish_cases env r.m_pCurrentXmlElement kind with h | ⟨c, h⟩
    · rw [h]
      intro c hc
      cases hc
    · rw [h]
      intro x hx _
      rw [List.mem_singleton.mp hx]

theorem RecordKind.handler_status_origin (kind : RecordKind) (env : Env) (r : XmlFileReader)
    (s : StatusCode) (hs : (kind.handler env r).1 = s) (hf : s ≠ STATUS_CODE_FAILURE) :
    ∃ c ∈ (kind.handler env r).2, c.status = s := by
  rw [RecordKind.handler_eq] at hs ⊢
  split at hs
  · exact absurd hs.symm hf
  · rename_i hcont
    rw [if_neg hcont]
    apply runSteps_status_origin _ _ s _ hs
    intro h1
    rcases RecordKind.finish_cases env r.m_pCurrentXmlElement kind with h | ⟨c, h⟩
    · rw [h] at h1
      exact absurd h1.symm hf
    · rw [h] at h1 ⊢
      exact ⟨c, by simp, h1⟩

/-! ## Record handlers -/

/-- C4. For each of the six kinds of object record: if the extension factory or the decode
of one of the built-in fields of the kind returns a status other than success on the
current record, the handler returns a status other than success and makes no
object-construction call. -/
theorem handler_no_partial_bundle (env : Env) (r : XmlFileReader) (kind : ObjectKind)
    (c : Call) (hc : c ∈ decodeSteps env r.m_pCurrentXmlElement kind)
    (hs : c.status ≠ STATUS_CODE_SUCCESS) :
    (XmlFileReader.handler kind env r).1 ≠ STATUS_CODE_SUCCESS ∧
    ∀ x ∈ (XmlFileReader.handler kind env r).2, x.isCreate = false := by
  rw [XmlFileReader.objectHandler_eq]
  split
  · exact ⟨by decide, fun x hx => by cases hx⟩
  · obtain ⟨h1, _, h3⟩ := runSteps_failure _ (finish env r.m_pCurrentXmlElement kind) c hc hs
    exact ⟨h1, fun x hx => (decodeSteps_are_decodes env _ kind x (h3 x hx)).1⟩

/-- Witness of C4: an MCParticle record without `Energy`, with a decoder that reports a
missing field as "not found". -/
theorem handler_no_partial_bundle_witness :
    (XmlFileReader.handler .MCParticle (sampleEnv STATUS_CODE_NOT_FOUND)
      (readerOn "Event" EVENT energylessMCParticle)).1 ≠ STATUS_CODE_SUCCESS ∧
    ∀ x ∈ (XmlFileReader.handler .MCParticle (sampleEnv STATUS_CODE_NOT_FOUND)
      (readerOn "Event" EVENT energylessMCParticle)).2, x.isCreate = false :=
  handler_no_partial_bundle (sampleEnv STATUS_CODE_NOT_FOUND)
    (readerOn "Event" EVENT energylessMCParticle) .MCParticle
    (Call.readVariable "Energy" STATUS_CODE_NOT_FOUND) (by decide) (by decide)

/-- C8. For a SubDetector record whose decoded `NLayers` is `n > 0`: if one of the three
decoded sequences has a length other than `n`, `ReadSubDetector` makes no construction call
and does not return success; when the factory and every field decode of the record succeed,
so that the length check is reached, it returns failure. -/
theorem subDetector_layer_count (env : Env) (r : XmlFileReader) (n : Nat)
    (hn : (env.readUInt r.m_pCurrentXmlElement "NLayers" 0).2 = n) (hpos : n > 0)
    (hlen : (env.readFloatVector r.m_pCurrentXmlElement "ClosestDistanceToIp" []).2.length ≠ n ∨
      (env.readFloatVector r.m_pCurrentXmlElement "NRadiationLengths" []).2.length ≠ n ∨
      (env.readFloatVector r.m_pCurrentXmlElement "NInteractionLengths" []).2.length ≠ n) :
    ((∀ c ∈ decodeSteps env r.m_pCurrentXmlElement .SubDetector,
        c.status = STATUS_CODE_SUCCESS) →
      (XmlFileReader.ReadSubDetector env r).1 = STATUS_CODE_FAILURE) ∧
    (XmlFileReader.ReadSubDetector env r).1 ≠ STATUS_CODE_SUCCESS ∧
    ∀ x ∈ (XmlFileReader.ReadSubDetector env r).2, x.isCreate = false := by
  have hfail : lengthCheckFails env r.m_pCurrentXmlElement .SubDetector := by
    subst hn
    exact ⟨hpos, hlen⟩
  rw [XmlFileReader.ReadSubDetector_eq]
  split
  · exact ⟨fun _ => rfl, fun h => StatusCode.noConfusion h, fun x hx => by cases hx⟩
  · rw [finish_eq, if_pos hfail]
    rcases runSteps_cases (decodeSteps env r.m_pCurrentXmlElement .SubDetector)
      (STATUS_CODE_FAILURE, []) with ⟨_, h2⟩ | ⟨pre, c, post, h3, _, h5, h6⟩
    · rw [h2]
      refine ⟨fun _ => rfl, fun h => StatusCode.noConfusion h, fun x hx => ?_⟩
      rw [List.append_nil] at hx
      exact (decodeSteps_are_decodes env _ .SubDetector x hx).1
    · rw [h6]
      have hsub : ∀ x ∈ pre ++ [c], x ∈ decodeSteps env r.m_pCurrentXmlElement .SubDetector := by
        intro x hx
        rw [h3]
        rcases List.mem_append.mp hx with hx | hx
        · exact List.mem_append_left _ hx
        · rw [List.mem_singleton.mp hx]
          simp
      refine ⟨fun hall => absurd (hall c (hsub c (by simp))) h5, h5, fun x hx => ?_⟩
      exact (decodeSteps_are_decodes env _ .SubDetector x (hsub x hx)).1

/-- Witness of C8: `NLayers` is 3 and `NRadiationLengths` has two entries. -/
theorem subDetector_layer_count_witness :
    (XmlFileReader.ReadSubDetector (sampleEnv STATUS_CODE_NOT_FOUND)
      (readerOn "Geometry" GEOMETRY shortSubDetector)).1 = STATUS_CODE_FAILURE ∧
    ∀ x ∈ (XmlFileReader.ReadSubDetector (sampleEnv STATUS_CODE_NOT_FOUND)
      (readerOn "Geometry" GEOMETRY shortSubDetector)).2, x.isCreate = false :=
  ⟨(subDetector_layer_count (sampleEnv STATUS_CODE_NOT_FOUND)
      (readerOn "Geometry" GEOMETRY shortSubDetector) 3 (by decide) (by decide)
      (by decide)).1 (by decide),
    (subDetector_layer_count (sampleEnv STATUS_CODE_NOT_FOUND)
      (readerOn "Geometry" GEOMETRY shortSubDetector) 3 (by decide) (by decide)
      (by decide)).2.2⟩

/-! ## Relationship records -/

theorem relationshipSteps_success (env : Env) (p : RecordPtr)
    (hid : (env.readUInt p "RelationshipId" 0).1 = STATUS_CODE_SUCCESS)
    (h1 : (env.readAddress p "Address1" NULL).1 = STATUS_CODE_SUCCESS)
    (h2 : (env.readAddress p "Address2" NULL).1 = STATUS_CODE_SUCCESS)
    (hw : (env.readFloat p "Weight" XmlFileReader.oneFloat).1 = STATUS_CODE_SUCCESS) :
    ∀ c ∈ relationshipSteps env p, c.status = STATUS_CODE_SUCCESS := by
  simp [relationshipSteps, decodeCall, Call.status, hid, h1, h2, hw]

/-- C9. With `EVENT` as the recorded container kind, once `RelationshipId`, `Address1`,
`Address2` and `Weight` have decoded successfully, `ReadRelationship` makes, after the four
decodes, exactly one call, the relationship call that the id selects, with the two
addresses in the order of the record (and the weight, for the two calls that take one), and
returns the status of that call unchanged. -/
theorem relationship_dispatch (env : Env) (r : XmlFileReader) (id : Nat)
    (address1 address2 : Address) (weight : FloatBits)
    (hcont : r.m_containerId = EVENT)
    (hid : env.readUInt r.m_pCurrentXmlElement "RelationshipId" 0 = (STATUS_CODE_SUCCESS, id))
    (h1 : env.readAddress r.m_pCurrentXmlElement "Address1" NULL =
      (STATUS_CODE_SUCCESS, address1))
    (h2 : env.readAddress r.m_pCurrentXmlElement "Address2" NULL =
      (STATUS_CODE_SUCCESS, address2))
    (hw : env.readFloat r.m_pCurrentXmlElement "Weight" XmlFileReader.oneFloat =
      (STATUS_CODE_SUCCESS, weight)) :
    (env.toRelationshipId id = CALO_HIT_TO_MC →
      XmlFileReader.ReadRelationship env r =
        (env.setCaloHitToMCParticleRelationship address1 address2 weight,
          relationshipSteps env r.m_pCurrentXmlElement ++
            [.setCaloHitToMCParticleRelationship address1 address2 weight
              (env.setCaloHitToMCParticleRelationship address1 address2 weight)])) ∧
    (env.toRelationshipId id = TRACK_TO_MC →
      XmlFileReader.ReadRelationship env r =
        (env.setTrackToMCParticleRelationship address1 address2 weight,
          relationshipSteps env r.m_pCurrentXmlElement ++
            [.setTrackToMCParticleRelationship address1 address2 weight
              (env.setTrackToMCParticleRelationship address1 address2 weight)])) ∧
    (env.toRelationshipId id = MC_PARENT_DAUGHTER →
      XmlFileReader.ReadRelationship env r =
        (env.setMCParentDaughterRelationship address1 address2,
          relationshipSteps env r.m_pCurrentXmlElement ++
            [.setMCParentDaughterRelationship address1 address2
              (env.setMCParentDaughterRelationship address1 address2)])) ∧
    (env.toRelationshipId id = TRACK_PARENT_DAUGHTER →
      XmlFileReader.ReadRelationship env r =
        (env.setTrackParentDaughterRelationship address1 address2,
          relationshipSteps env r.m_pCurrentXmlElement ++
            [.setTrackParentDaughterRelationship address1 address2
              (env.setTrackParentDaughterRelationship address1 address2)])) ∧
    (env.toRelationshipId id = TRACK_SIBLING →
      XmlFileReader.ReadRelationship env r =
        (env.setTrackSiblingRelationship address1 address2,
          relationshipSteps env r.m_pCurrentXmlElement ++
            [.setTrackSiblingRelationship address1 address2
              (env.setTrackSiblingRelationship address1 address2)])) ∧
    relationshipSteps env r.m_pCurrentXmlElement =
      [.readVariable "RelationshipId" STATUS_CODE_SUCCESS,
        .readVariable "Address1" STATUS_CODE_SUCCESS,
        .readVariable "Address2" STATUS_CODE_SUCCESS,
        .readVariable "Weight" STATUS_CODE_SUCCESS] := by
  have hsteps := relationshipSteps_success env r.m_pCurrentXmlElement (by rw [hid]) (by rw [h1])
    (by rw [h2]) (by rw [hw])
  have heq : XmlFileReader.ReadRelationship env r =
      ((relationshipFinish env r.m_pCurrentXmlElement).1,
        relationshipSteps env r.m_pCurrentXmlElement ++
          (relationshipFinish env r.m_pCurrentXmlElement).2) := by
    rw [XmlFileReader.ReadRelationship_eq, if_neg (fun h => h hcont.symm),
      runSteps_of_success _ _ hsteps]
  refine ⟨?_, ?_, ?_, ?_, ?_, ?_⟩
  · intro h
    rw [heq]
    simp only [relationshipFinish, hid, h1, h2, hw, h, relationshipCall, Call.status]
  · intro h
    rw [heq]
    simp only [relationshipFinish, hid, h1, h2, hw, h, relationshipCall, Call.status]
  · intro h
    rw [heq]
    simp only [relationshipFinish, hid, h1, h2, hw, h, relationshipCall, Call.status]
  · intro h
    rw [heq]
    simp only [relationshipFinish, hid, h1, h2, hw, h, relationshipCall, Call.status]
  · intro h
    rw [heq]
    simp only [relationshipFinish, hid, h1, h2, hw, h, relationshipCall, Call.status]
  · simp only [relationshipSteps, decodeCall, hid, h1, h2, hw]

/-- Witness of C9: a `TRACK_TO_MC` record between the addresses 11 and 12. -/
theorem relationship_dispatch_witness :
    XmlFileReader.ReadRelationship (sampleEnv STATUS_CODE_NOT_FOUND)
        (readerOn "Event" EVENT (sampleRelationship "1")) =
      (STATUS_CODE_SUCCESS,
        [.readVariable "RelationshipId" STATUS_CODE_SUCCESS,
          .readVariable "Address1" STATUS_CODE_SUCCESS,
          .readVariable "Address2" STATUS_CODE_SUCCESS,
          .readVariable "Weight" STATUS_CODE_SUCCESS,
          .setTrackToMCParticleRelationship 11 12 XmlFileReader.oneFloat
            STATUS_CODE_SUCCESS]) :=
  ((relationship_dispatch (sampleEnv STATUS_CODE_NOT_FOUND)
    (readerOn "Event" EVENT (sampleRelationship "1")) 1 11 12 XmlFileReader.oneFloat
    (by decide) (by decide) (by decide) (by decide) (by decide)).2.1 (by decide)).trans
    (by decide)

theorem relationship_unrecognised_result (env : Env) (r : XmlFileReader) (id n : Nat)
    (hid : env.readUInt r.m_pCurrentXmlElement "RelationshipId" 0 = (STATUS_CODE_SUCCESS, id))
    (hun : env.toRelationshipId id = .unrecognised n) :
    XmlFileReader.ReadRelationship env r =
      if EVENT ≠ r.m_containerId then (STATUS_CODE_FAILURE, [])
      else if (env.readAddress r.m_pCurrentXmlElement "Address1" NULL).1 ≠
          STATUS_CODE_SUCCESS then
        ((env.readAddress r.m_pCurrentXmlElement "Address1" NULL).1,
          [decodeCall env.readUInt r.m_pCurrentXmlElement "RelationshipId" 0,
            decodeCall env.readAddress r.m_pCurrentXmlElement "Address1" NULL])
      else if (env.readAddress r.m_pCurrentXmlElement "Address2" NULL).1 ≠
          STATUS_CODE_SUCCESS then
        ((env.readAddress r.m_pCurrentXmlElement "Address2" NULL).1,
          [decodeCall env.readUInt r.m_pCurrentXmlElement "RelationshipId" 0,
            decodeCall env.readAddress r.m_pCurrentXmlElement "Address1" NULL,
            decodeCall env.readAddress r.m_pCurrentXmlElement "Address2" NULL])
      else if (env.readFloat r.m_pCurrentXmlElement "Weight" XmlFileReader.oneFloat).1 ≠
          STATUS_CODE_SUCCESS then
        ((env.readFloat r.m_pCurrentXmlElement "Weight" XmlFileReader.oneFloat).1,
          relationshipSteps env r.m_pCurrentXmlElement)
      else (STATUS_CODE_FAILURE, relationshipSteps env r.m_pCurrentXmlElement) := by
  have hfin : relationshipFinish env r.m_pCurrentXmlElement = (STATUS_CODE_FAILURE, []) := by
    simp only [relationshipFinish, hid, hun, relationshipCall]
  rw [XmlFileReader.ReadRelationship_eq, hfin]
  by_cases hc : EVENT ≠ r.m_containerId
  · rw [if_pos hc, if_pos hc]
  · rw [if_neg hc, if_neg hc]
    by_cases h1 : (env.readAddress r.m_pCurrentXmlElement "Address1" NULL).1 =
        STATUS_CODE_SUCCESS
    · by_cases h2 : (env.readAddress r.m_pCurrentXmlElement "Address2" NULL).1 =
          STATUS_CODE_SUCCESS
      · by_cases hw : (env.readFloat r.m_pCurrentXmlElement "Weight" XmlFileReader.oneFloat).1 =
            STATUS_CODE_SUCCESS
        · simp [relationshipSteps, runSteps, decodeCall, Call.status, hid, h1, h2, hw]
        · simp [relationshipSteps, runSteps, decodeCall, Call.status, hid, h1, h2, hw]
      · simp [relationshipSteps, runSteps, decodeCall, Call.status, hid, h1, h2]
    · simp [relationshipSteps, runSteps, decodeCall, Call.status, hid, h1]

/-- C10, as the code has it. If the decoded `RelationshipId` is none of the five ids that
have a `case`, `ReadRelationship` makes none of the five relationship calls and returns a
status other than success: failure when `Address1`, `Address2` and `Weight` decode
successfully, and else the status of the first decode that fails, unchanged, after the
decodes up to that one and no other call. When the recorded container kind is not `EVENT`
it returns failure before any decode. -/
theorem relationship_unrecognised_id (env : Env) (r : XmlFileReader) (id n : Nat)
    (hid : env.readUInt r.m_pCurrentXmlElement "RelationshipId" 0 = (STATUS_CODE_SUCCESS, id))
    (hun : env.toRelationshipId id = .unrecognised n) :
    (XmlFileReader.ReadRelationship env r).1 ≠ STATUS_CODE_SUCCESS ∧
    (∀ x ∈ (XmlFileReader.ReadRelationship env r).2, x.isRelationship = false) ∧
    ((env.readAddress r.m_pCurrentXmlElement "Address1" NULL).1 = STATUS_CODE_SUCCESS →
      (env.readAddress r.m_pCurrentXmlElement "Address2" NULL).1 = STATUS_CODE_SUCCESS →
      (env.readFloat r.m_pCurrentXmlElement "Weight" XmlFileReader.oneFloat).1 =
        STATUS_CODE_SUCCESS →
      (XmlFileReader.ReadRelationship env r).1 = STATUS_CODE_FAILURE) ∧
    XmlFileReader.ReadRelationship env r =
      (if EVENT ≠ r.m_containerId then (STATUS_CODE_FAILURE, [])
      else if (env.readAddress r.m_pCurrentXmlElement "Address1" NULL).1 ≠
          STATUS_CODE_SUCCESS then
        ((env.readAddress r.m_pCurrentXmlElement "Address1" NULL).1,
          [decodeCall env.readUInt r.m_pCurrentXmlElement "RelationshipId" 0,
            decodeCall env.readAddress r.m_pCurrentXmlElement "Address1" NULL])
      else if (env.readAddress r.m_pCurrentXmlElement "Address2" NULL).1 ≠
          STATUS_CODE_SUCCESS then
        ((env.readAddress r.m_pCurrentXmlElement "Address2" NULL).1,
          [decodeCall env.readUInt r.m_pCurrentXmlElement "RelationshipId" 0,
            decodeCall env.readAddress r.m_pCurrentXmlElement "Address1" NULL,
            decodeCall env.readAddress r.m_pCurrentXmlElement "Address2" NULL])
      else if (env.readFloat r.m_pCurrentXmlElement "Weight" XmlFileReader.oneFloat).1 ≠
          STATUS_CODE_SUCCESS then
        ((env.readFloat r.m_pCurrentXmlElement "Weight" XmlFileReader.oneFloat).1,
          relationshipSteps env r.m_pCurrentXmlElement)
      else (STATUS_CODE_FAILURE, relationshipSteps env r.m_pCurrentXmlElement)) := by
  have hres := relationship_unrecognised_result env r id n hid hun
  have hdec : ∀ x ∈ relationshipSteps env r.m_pCurrentXmlElement, x.isRelationship = false :=
    fun x hx => (relationshipSteps_are_decodes env _ x hx).2
  refine ⟨?_, ?_, ?_, hres⟩
  · rw [hres]
    repeat (first | assumption | exact fun h => StatusCode.noConfusion h | split)
  · rw [hres]
    intro x hx
    split at hx
    · cases hx
    · split at hx
      · simp only [List.mem_cons, List.mem_singleton, List.not_mem_nil, or_false] at hx
        rcases hx with h | h <;> (rw [h]; rfl)
      · split at hx
        · simp only [List.mem_cons, List.mem_singleton, List.not_mem_nil, or_false] at hx
          rcases hx with h | h | h <;> (rw [h]; rfl)
        · split at hx
          · exact hdec x hx
          · exact hdec x hx
  · intro h1 h2 hw
    rw [hres]
    repeat (first | rfl | split | (rename_i hne; exact absurd (by assumption) hne))

/-- Witness of C10 as amended: a record with the id 9 and all its fields is refused with
failure; without `Address1` it is refused with the status of the decoder, "not found", after
the decode of `RelationshipId` and of `Address1`. -/
theorem relationship_unrecognised_id_witness :
    (XmlFileReader.ReadRelationship (sampleEnv STATUS_CODE_NOT_FOUND)
      (readerOn "Event" EVENT (sampleRelationship "9"))).1 = STATUS_CODE_FAILURE ∧
    XmlFileReader.ReadRelationship (sampleEnv STATUS_CODE_NOT_FOUND)
        (readerOn "Event" EVENT brokenRelationship) =
      (STATUS_CODE_NOT_FOUND,
        [.readVariable "RelationshipId" STATUS_CODE_SUCCESS,
          .readVariable "Address1" STATUS_CODE_NOT_FOUND]) :=
  ⟨(relationship_unrecognised_id (sampleEnv STATUS_CODE_NOT_FOUND)
      (readerOn "Event" EVENT (sampleRelationship "9")) 9 9 (by decide) (by decide)).2.2.1
      (by decide) (by decide) (by decide),
    (relationship_unrecognised_id (sampleEnv STATUS_CODE_NOT_FOUND)
      (readerOn "Event" EVENT brokenRelationship) 9 9 (by decide) (by decide)).2.2.2.trans
      (by decide)⟩

/-- Counterexample to C10 as stated: the decoded id 9 is none of the five, `Address1` is
missing, the decoder reports the missing field as "not found", and `ReadRelationship`
returns "not found", not failure. -/
theorem relationship_unrecognised_id_not_failure :
    (sampleEnv STATUS_CODE_NOT_FOUND).readUInt
        (readerOn "Event" EVENT brokenRelationship).m_pCurrentXmlElement "RelationshipId" 0 =
      (STATUS_CODE_SUCCESS, 9) ∧
    (sampleEnv STATUS_CODE_NOT_FOUND).toRelationshipId 9 = .unrecognised 9 ∧
    XmlFileReader.ReadRelationship (sampleEnv STATUS_CODE_NOT_FOUND)
        (readerOn "Event" EVENT brokenRelationship) =
      (STATUS_CODE_NOT_FOUND,
        [.readVariable "RelationshipId" STATUS_CODE_SUCCESS,
          .readVariable "Address1" STATUS_CODE_NOT_FOUND]) ∧
    (XmlFileReader.ReadRelationship (sampleEnv STATUS_CODE_NOT_FOUND)
        (readerOn "Event" EVENT brokenRelationship)).1 ≠ STATUS_CODE_FAILURE := by
  decide

/-! ## The dispatchers -/

namespace XmlFileReader

theorem advanceRecord_containerId (r : XmlFileReader) :
    (advanceRecord r).m_containerId = r.m_containerId := by
  unfold advanceRecord
  split <;> rfl

theorem ReadNextGeometryComponent_cases (env : Env) (r : XmlFileReader)
    (hrec : (advanceRecord r).m_pCurrentXmlElement ≠ []) :
    (∃ kind : RecordKind, kind.containerId = GEOMETRY ∧
      (advanceRecord r).m_pCurrentXmlElement.ValueStr = kind.componentName ∧
      ReadNextGeometryComponent env r =
        returnHandler (advanceRecord r) (kind.handler env (advanceRecord r))) ∨
    ((advanceRecord r).m_pCurrentXmlElement.ValueStr ∉ geometryComponentNames ∧
      ReadNextGeometryComponent env r = ⟨.returned STATUS_CODE_FAILURE, advanceRecord r, []⟩) := by
  simp only [ReadNextGeometryComponent, hrec, if_false]
  by_cases h1 : "SubDetector" = (advanceRecord r).m_pCurrentXmlElement.ValueStr
  · exact Or.inl ⟨.object .SubDetector, rfl, h1.symm, by rw [if_pos h1]; rfl⟩
  · by_cases h2 : "BoxGap" = (advanceRecord r).m_pCurrentXmlElement.ValueStr
    · exact Or.inl ⟨.object .BoxGap, rfl, h2.symm, by rw [if_neg h1, if_pos h2]; rfl⟩
    · by_cases h3 : "ConcentricGap" = (advanceRecord r).m_pCurrentXmlElement.ValueStr
      · exact Or.inl ⟨.object .ConcentricGap, rfl, h3.symm,
          by rw [if_neg h1, if_neg h2, if_pos h3]; rfl⟩
      · refine Or.inr ⟨?_, by rw [if_neg h1, if_neg h2, if_neg h3]⟩
        simp only [geometryComponentNames, List.mem_cons, List.mem_singleton, List.not_mem_nil,
          or_false, not_or]
        exact ⟨fun h => h1 h.symm, fun h => h2 h.symm, fun h => h3 h.symm⟩

theorem ReadNextEventComponent_cases (env : Env) (r : XmlFileReader)
    (hrec : (advanceRecord r).m_pCurrentXmlElement ≠ []) :
    (∃ kind : RecordKind, kind.containerId = EVENT ∧
      (advanceRecord r).m_pCurrentXmlElement.ValueStr = kind.componentName ∧
      ReadNextEventComponent env r =
        returnHandler (advanceRecord r) (kind.handler env (advanceRecord r))) ∨
    ((advanceRecord r).m_pCurrentXmlElement.ValueStr ∉ eventComponentNames ∧
      ReadNextEventComponent env r = ⟨.returned STATUS_CODE_FAILURE, advanceRecord r, []⟩) := by
  simp only [ReadNextEventComponent, hrec, if_false]
  by_cases h1 : "CaloHit" = (advanceRecord r).m_pCurrentXmlElement.ValueStr
  · exact Or.inl ⟨.object .CaloHit, rfl, h1.symm, by rw [if_pos h1]; rfl⟩
  · by_cases h2 : "Track" = (advanceRecord r).m_pCurrentXmlElement.ValueStr
    · exact Or.inl ⟨.object .Track, rfl, h2.symm, by rw [if_neg h1, if_pos h2]; rfl⟩
    · by_cases h3 : "MCParticle" = (advanceRecord r).m_pCurrentXmlElement.ValueStr
      · exact Or.inl ⟨.object .MCParticle, rfl, h3.symm,
          by rw [if_neg h1, if_neg h2, if_pos h3]; rfl⟩
      · by_cases h4 : "Relationship" = (advanceRecord r).m_pCurrentXmlElement.ValueStr
        · exact Or.inl ⟨.relationship, rfl, h4.symm,
            by rw [if_neg h1, if_neg h2, if_neg h3, if_pos h4]; rfl⟩
        · refine Or.inr ⟨?_, by rw [if_neg h1, if_neg h2, if_neg h3, if_neg h4]⟩
          simp only [eventComponentNames, List.mem_cons, List.mem_singleton,
            List.not_mem_nil, or_false, not_or]
          exact ⟨fun h => h1 h.symm, fun h => h2 h.symm, fun h => h3 h.symm,
            fun h => h4 h.symm⟩

end XmlFileReader

theorem RecordKind.readNext_eq (kind : RecordKind) (env : Env) (r : XmlFileReader)
    (hrec : (XmlFileReader.advanceRecord r).m_pCurrentXmlElement ≠ [])
    (hname : (XmlFileReader.advanceRecord r).m_pCurrentXmlElement.ValueStr =
      kind.componentName) :
    kind.readNext env r =
      XmlFileReader.returnHandler (XmlFileReader.advanceRecord r)
        (kind.handler env (XmlFileReader.advanceRecord r)) := by
  cases kind with
  | object k =>
    cases k <;>
      simp [RecordKind.readNext, RecordKind.containerId, ObjectKind.containerId,
        RecordKind.componentName, ObjectKind.componentName,
        XmlFileReader.ReadNextGeometryComponent, XmlFileReader.ReadNextEventComponent,
        RecordKind.handler, XmlFileReader.handler, hrec, hname] at hname ⊢
  | relationship =>
    simp [RecordKind.readNext, RecordKind.containerId, RecordKind.componentName,
      XmlFileReader.ReadNextEventComponent, RecordKind.handler, hrec, hname] at hname ⊢

namespace XmlFileReader

/-- C6. When the record cursor lands on a record whose name is none of `SubDetector`,
`BoxGap`, `ConcentricGap`, `ReadNextGeometryComponent` returns failure; when it lands on a
record whose name is none of `CaloHit`, `Track`, `MCParticle`, `Relationship`,
`ReadNextEventComponent` returns failure; in both cases no call is made to a factory, a
field decoder, a construction call or a relationship call. No name is in both tables. -/
theorem unknown_component_rejected (env : Env) (r : XmlFileReader) :
    ((advanceRecord r).m_pCurrentXmlElement ≠ [] →
      (advanceRecord r).m_pCurrentXmlElement.ValueStr ∉ geometryComponentNames →
      ReadNextGeometryComponent env r =
        ⟨.returned STATUS_CODE_FAILURE, advanceRecord r, []⟩) ∧
    ((advanceRecord r).m_pCurrentXmlElement ≠ [] →
      (advanceRecord r).m_pCurrentXmlElement.ValueStr ∉ eventComponentNames →
      ReadNextEventComponent env r =
        ⟨.returned STATUS_CODE_FAILURE, advanceRecord r, []⟩) ∧
    (∀ name ∈ eventComponentNames, name ∉ geometryComponentNames) ∧
    (∀ name ∈ geometryComponentNames, name ∉ eventComponentNames) := by
  refine ⟨?_, ?_, by decide, by decide⟩
  · intro hrec hname
    rcases ReadNextGeometryComponent_cases env r hrec with ⟨kind, hk, hn, _⟩ | ⟨_, h⟩
    · exfalso
      apply hname
      rw [hn]
      cases kind with
      | object k => cases k <;> first | (simp [RecordKind.containerId, ObjectKind.containerId] at hk; done) | decide
      | relationship => simp [RecordKind.containerId] at hk
    · exact h
  · intro hrec hname
    rcases ReadNextEventComponent_cases env r hrec with ⟨kind, hk, hn, _⟩ | ⟨_, h⟩
    · exfalso
      apply hname
      rw [hn]
      cases kind with
      | object k => cases k <;> first | (simp [RecordKind.containerId, ObjectKind.containerId] at hk; done) | decide
      | relationship => decide
    · exact h

/-- Witness of C6: an MCParticle record under the geometry reader and a SubDetector record
under the event reader. -/
theorem unknown_component_rejected_witness :
    ReadNextGeometryComponent (sampleEnv STATUS_CODE_NOT_FOUND)
        (readerAfterHeader [.element "Geometry" [sampleMCParticle]]) =
      ⟨.returned STATUS_CODE_FAILURE,
        advanceRecord (readerAfterHeader [.element "Geometry" [sampleMCParticle]]), []⟩ ∧
    ReadNextEventComponent (sampleEnv STATUS_CODE_NOT_FOUND)
        (readerAfterHeader [.element "Event" [sampleSubDetector]]) =
      ⟨.returned STATUS_CODE_FAILURE,
        advanceRecord (readerAfterHeader [.element "Event" [sampleSubDetector]]), []⟩ :=
  ⟨(unknown_component_rejected (sampleEnv STATUS_CODE_NOT_FOUND)
      (readerAfterHeader [.element "Geometry" [sampleMCParticle]])).1 (by decide) (by decide),
    (unknown_component_rejected (sampleEnv STATUS_CODE_NOT_FOUND)
      (readerAfterHeader [.element "Event" [sampleSubDetector]])).2.1 (by decide) (by decide)⟩

/-- C7, as the code has it. A record handler succeeds only when the recorded container kind
`m_containerId` is the kind the handler expects: in every reader state, a record of a kind
whose expected container kind differs from the recorded one is rejected with failure and no
call is made to any collaborator, also through the dispatcher. The recorded kind is the one
`ReadHeader` derived from the name of the container node that was current then. -/
theorem handler_checks_recorded_kind (env : Env) (r : XmlFileReader) (kind : RecordKind)
    (h : r.m_containerId ≠ kind.containerId) :
    kind.handler env r = (STATUS_CODE_FAILURE, []) ∧
    ((advanceRecord r).m_pCurrentXmlElement ≠ [] →
      (advanceRecord r).m_pCurrentXmlElement.ValueStr = kind.componentName →
      kind.readNext env r = ⟨.returned STATUS_CODE_FAILURE, advanceRecord r, []⟩) ∧
    (∀ r0 : XmlFileReader, (ReadHeader r0).2.m_containerId = GetNextContainerId r0) := by
  have key : ∀ r1 : XmlFileReader, r1.m_containerId ≠ kind.containerId →
      kind.handler env r1 = (STATUS_CODE_FAILURE, []) := by
    intro r1 h1
    rw [RecordKind.handler_eq, if_pos (fun h2 => h1 h2.symm)]
  refine ⟨key r h, ?_, ?_⟩
  · intro hrec hname
    rw [RecordKind.readNext_eq kind env r hrec hname,
      key (advanceRecord r) (by rw [advanceRecord_containerId]; exact h)]
    rfl
  · intro r0
    simp only [ReadHeader]
    split <;> rfl

/-- Witness of C7 as amended: a SubDetector record handled while the recorded kind is
`EVENT`. -/
theorem handler_checks_recorded_kind_witness :
    ReadSubDetector (sampleEnv STATUS_CODE_NOT_FOUND)
      (readerOn "Geometry" EVENT sampleSubDetector) = (STATUS_CODE_FAILURE, []) :=
  (handler_checks_recorded_kind (sampleEnv STATUS_CODE_NOT_FOUND)
    (readerOn "Geometry" EVENT sampleSubDetector) (.object .SubDetector) (by decide)).1

/-- Counterexample to C7 as stated: a reader state reached by `GoToNextContainer`,
`ReadHeader` and two calls of `ReadNextGeometryComponent`, in which a SubDetector record
enclosed in a container named `Event` is handled with success and a SubDetector is
constructed, the recorded kind being still `GEOMETRY`. -/
theorem stray_subDetector_constructed :
    (ReadNextGeometryComponent (sampleEnv STATUS_CODE_NOT_FOUND)
      (readerAfterHeader strayDocument)).outcome = .returned STATUS_CODE_NOT_FOUND ∧
    strayRead.outcome = .returned STATUS_CODE_SUCCESS ∧
    strayRead.reader.m_pContainerXmlNode = [.element "Event" [sampleSubDetector]] ∧
    strayRead.reader.m_pCurrentXmlElement = [sampleSubDetector] ∧
    strayRead.reader.m_containerId = GEOMETRY ∧
    (∃ c ∈ strayRead.calls, c.isCreate = true) := by
  decide

end XmlFileReader

/-! ## The optional weight -/

/-- C11, as the code has it. The `Weight` field of a Relationship record is mandatory like
the other three: when its decode reports a status other than success, `ReadRelationship`
makes no relationship call and does not return success, and with `EVENT` recorded and the
other three fields decoded it returns the status of the `Weight` decode unchanged. The
value `1.f` is what the slot holds when the decoder is called. -/
theorem relationship_weight_mandatory (env : Env) (r : XmlFileReader)
    (hw : (env.readFloat r.m_pCurrentXmlElement "Weight" XmlFileReader.oneFloat).1 ≠
      STATUS_CODE_SUCCESS) :
    (XmlFileReader.ReadRelationship env r).1 ≠ STATUS_CODE_SUCCESS ∧
    (∀ x ∈ (XmlFileReader.ReadRelationship env r).2, x.isRelationship = false) ∧
    (r.m_containerId = EVENT →
      (env.readUInt r.m_pCurrentXmlElement "RelationshipId" 0).1 = STATUS_CODE_SUCCESS →
      (env.readAddress r.m_pCurrentXmlElement "Address1" NULL).1 = STATUS_CODE_SUCCESS →
      (env.readAddress r.m_pCurrentXmlElement "Address2" NULL).1 = STATUS_CODE_SUCCESS →
      XmlFileReader.ReadRelationship env r =
        ((env.readFloat r.m_pCurrentXmlElement "Weight" XmlFileReader.oneFloat).1,
          relationshipSteps env r.m_pCurrentXmlElement)) := by
  have hmem : decodeCall env.readFloat r.m_pCurrentXmlElement "Weight" XmlFileReader.oneFloat ∈
      relationshipSteps env r.m_pCurrentXmlElement := by
    simp [relationshipSteps]
  rw [XmlFileReader.ReadRelationship_eq]
  split
  · rename_i hne
    refine ⟨fun h => StatusCode.noConfusion h, ?_, fun hc => absurd hc.symm hne⟩
    intro x hx
    cases hx
  · obtain ⟨h1, _, h3⟩ := runSteps_failure _
      (relationshipFinish env r.m_pCurrentXmlElement) _ hmem hw
    refine ⟨h1, fun x hx => (relationshipSteps_are_decodes env _ x (h3 x hx)).2, ?_⟩
    intro _ hid ha1 ha2
    simp only [relationshipSteps, decodeCall, runSteps, Call.status, hid, ha1, ha2, hw,
      if_true, if_false]

/-- Witness of C11 as amended: a record without `Weight`, with a decoder that reports a
missing field as "not found". -/
theorem relationship_weight_mandatory_witness :
    (XmlFileReader.ReadRelationship (sampleEnv STATUS_CODE_NOT_FOUND)
      (readerOn "Event" EVENT weightlessRelationship)).1 ≠ STATUS_CODE_SUCCESS ∧
    ∀ x ∈ (XmlFileReader.ReadRelationship (sampleEnv STATUS_CODE_NOT_FOUND)
      (readerOn "Event" EVENT weightlessRelationship)).2, x.isRelationship = false :=
  ⟨(relationship_weight_mandatory (sampleEnv STATUS_CODE_NOT_FOUND)
      (readerOn "Event" EVENT weightlessRelationship) (by decide)).1,
    (relationship_weight_mandatory (sampleEnv STATUS_CODE_NOT_FOUND)
      (readerOn "Event" EVENT weightlessRelationship) (by decide)).2.1⟩

/-- Counterexample to C11 as stated: a Relationship record in an Event container with a
recognised id and both addresses, and no `Weight` field. `ReadRelationship` ends at the
decode of `Weight` with the status of the decoder, and no relationship call is made, so no
weight is forwarded. -/
theorem missing_weight_ends_handler :
    RecordPtr.fieldText [weightlessRelationship] "Weight" = none ∧
    (sampleEnv STATUS_CODE_NOT_FOUND).toRelationshipId 1 = TRACK_TO_MC ∧
    XmlFileReader.ReadRelationship (sampleEnv STATUS_CODE_NOT_FOUND)
        (readerOn "Event" EVENT weightlessRelationship) =
      (STATUS_CODE_NOT_FOUND,
        [.readVariable "RelationshipId" STATUS_CODE_SUCCESS,
          .readVariable "Address1" STATUS_CODE_SUCCESS,
          .readVariable "Address2" STATUS_CODE_SUCCESS,
          .readVariable "Weight" STATUS_CODE_NOT_FOUND]) := by
  decide

/-! ## The container cursor -/

namespace XmlFileReader

theorem GetNextContainerId_nil (r : XmlFileReader) (h : r.m_pContainerXmlNode = []) :
    r.GetNextContainerId = UNKNOWN_CONTAINER := by
  simp only [GetNextContainerId, h]
  decide

theorem GetNextContainerId_cons (r : XmlFileReader) (node : ContainerNode)
    (rest : ContainerPtr) (h : r.m_pContainerXmlNode = node :: rest) :
    r.GetNextContainerId =
      if "Event" = node.ValueStr then EVENT
      else if "Geometry" = node.ValueStr then GEOMETRY
      else UNKNOWN_CONTAINER := by
  simp only [GetNextContainerId, h]

theorem ReadHeader_eq (r : XmlFileReader) :
    ReadHeader r =
      (if r.GetNextContainerId = UNKNOWN_CONTAINER then STATUS_CODE_FAILURE
        else STATUS_CODE_SUCCESS,
        { r with m_pCurrentXmlElement := [], m_containerId := r.GetNextContainerId }) := by
  have hid : ({ r with m_pCurrentXmlElement := [] } : XmlFileReader).GetNextContainerId =
      r.GetNextContainerId := rfl
  simp only [ReadHeader, hid]
  cases h : r.GetNextContainerId <;> simp

/-- C12. `ReadHeader` returns success if and only if there is a current container node
whose name is exactly `Event` or exactly `Geometry`, and then records `EVENT` or `GEOMETRY`
respectively; otherwise (another name, or no current node) it records the unknown kind and
returns failure. In every case the record cursor is reset to none, and the container
position, the at-start flag and the document stay as they were. -/
theorem ReadHeader_outcome (r : XmlFileReader) :
    ((ReadHeader r).1 = STATUS_CODE_SUCCESS ↔
      ∃ node rest, r.m_pContainerXmlNode = node :: rest ∧
        (node.ValueStr = "Event" ∨ node.ValueStr = "Geometry")) ∧
    (∀ node rest, r.m_pContainerXmlNode = node :: rest → node.ValueStr = "Event" →
      (ReadHeader r).2.m_containerId = EVENT) ∧
    (∀ node rest, r.m_pContainerXmlNode = node :: rest → node.ValueStr = "Geometry" →
      (ReadHeader r).2.m_containerId = GEOMETRY) ∧
    ((ReadHeader r).1 ≠ STATUS_CODE_SUCCESS →
      (ReadHeader r).1 = STATUS_CODE_FAILURE ∧
        (ReadHeader r).2.m_containerId = UNKNOWN_CONTAINER) ∧
    (ReadHeader r).2.m_pCurrentXmlElement = [] ∧
    (ReadHeader r).2.m_pContainerXmlNode = r.m_pContainerXmlNode ∧
    (ReadHeader r).2.m_isAtFileStart = r.m_isAtFileStart ∧
    (ReadHeader r).2.m_pXmlDocument = r.m_pXmlDocument := by
  rw [ReadHeader_eq]
  refine ⟨?_, ?_, ?_, ?_, rfl, rfl, rfl, rfl⟩
  · cases hp : r.m_pContainerXmlNode with
    | nil => simp [GetNextContainerId_nil r hp]
    | cons node rest =>
      rw [GetNextContainerId_cons r node rest hp]
      by_cases h1 : "Event" = node.ValueStr
      · rw [if_pos h1]
        exact ⟨fun _ => ⟨node, rest, rfl, Or.inl h1.symm⟩, fun _ => rfl⟩
      · by_cases h2 : "Geometry" = node.ValueStr
        · rw [if_neg h1, if_pos h2]
          exact ⟨fun _ => ⟨node, rest, rfl, Or.inr h2.symm⟩, fun _ => rfl⟩
        · rw [if_neg h1, if_neg h2]
          constructor
          · intro h
            exact absurd h (fun h3 => StatusCode.noConfusion h3)
          · rintro ⟨node2, rest2, heq, hor⟩
            cases heq
            rcases hor with h | h
            · exact absurd h.symm h1
            · exact absurd h.symm h2
  · intro node rest hp hname
    show r.GetNextContainerId = EVENT
    rw [GetNextContainerId_cons r node rest hp, if_pos hname.symm]
  · intro node rest hp hname
    show r.GetNextContainerId = GEOMETRY
    rw [GetNextContainerId_cons r node rest hp, hname]
    decide
  · intro h
    by_cases hu : r.GetNextContainerId = UNKNOWN_CONTAINER
    · exact ⟨by simp [hu], hu⟩
    · simp [hu] at h

/-- Witness of C12: the header of an Event container, of a container with another name, and
of no container. -/
theorem ReadHeader_outcome_witness :
    ReadHeader (GoToNextContainer (construct emptyEventDocument UNKNOWN_CONTAINER)).2 =
      (STATUS_CODE_SUCCESS,
        { m_pXmlDocument := emptyEventDocument, m_containerId := EVENT,
          m_pContainerXmlNode := emptyEventDocument, m_pCurrentXmlElement := [],
          m_isAtFileStart := false }) ∧
    (ReadHeader (GoToNextContainer (construct [.element "Run" []] GEOMETRY)).2).2.m_containerId =
      UNKNOWN_CONTAINER ∧
    (ReadHeader (construct emptyEventDocument EVENT)).1 = STATUS_CODE_FAILURE :=
  ⟨by decide,
    ((ReadHeader_outcome (GoToNextContainer (construct [.element "Run" []] GEOMETRY)).2).2.2.2.1
      (by decide)).2,
    ((ReadHeader_outcome (construct emptyEventDocument EVENT)).2.2.2.1 (by decide)).1⟩

theorem GoToNextContainer_flag (r : XmlFileReader) :
    (GoToNextContainer r).2.m_isAtFileStart = false := by
  simp only [GoToNextContainer]
  split
  · rfl
  · rename_i h
    split
    · simpa using h
    · simpa using h

theorem GoToNextContainer_document (r : XmlFileReader) :
    (GoToNextContainer r).2.m_pXmlDocument = r.m_pXmlDocument := by
  simp only [GoToNextContainer]
  split
  · split <;> rfl
  · split <;> rfl

theorem GoToNextContainer_cursor (r : XmlFileReader) :
    (GoToNextContainer r).2.m_pCurrentXmlElement = [] := by
  simp only [GoToNextContainer]
  split
  · split <;> rfl
  · split <;> rfl

theorem goToNextOfKind_flag (kind : ContainerId) (fuel : Nat) (r : XmlFileReader)
    (res : Outcome × XmlFileReader) (h : goToNextOfKind kind fuel r = some res) :
    res.2.m_isAtFileStart = false := by
  induction fuel generalizing r with
  | zero => simp [goToNextOfKind] at h
  | succ n ih =>
    simp only [goToNextOfKind] at h
    split at h
    · cases h
      exact GoToNextContainer_flag r
    · split at h
      · exact ih _ h
      · cases h
        exact GoToNextContainer_flag r

theorem goToLoop_invariant (P : XmlFileReader → Prop)
    (goToNext : XmlFileReader → Option (Outcome × XmlFileReader))
    (hnext : ∀ r res, goToNext r = some res → P res.2) (target : Int) (fuel : Nat) (nRead : Int)
    (r : XmlFileReader) (res : Outcome × XmlFileReader) (hr : P r)
    (h : goToLoop goToNext target fuel nRead r = some res) : P res.2 := by
  induction fuel generalizing nRead r with
  | zero =>
    simp only [goToLoop] at h
    split at h
    · cases h
    · cases h
      exact hr
  | succ n ih =>
    simp only [goToLoop] at h
    split at h
    · cases hnx : goToNext r with
      | none =>
        rw [hnx] at h
        cases h
      | some res1 =>
        rw [hnx] at h
        simp only at h
        have h1 := hnext r res1 hnx
        split at h
        · cases h
          exact h1
        · exact ih _ _ h1 h
    · cases h
      exact hr

theorem advanceRecord_flag (r : XmlFileReader) :
    (advanceRecord r).m_isAtFileStart = r.m_isAtFileStart ∧
      (advanceRecord r).m_pContainerXmlNode = r.m_pContainerXmlNode ∧
      (advanceRecord r).m_pXmlDocument = r.m_pXmlDocument := by
  unfold advanceRecord
  split <;> exact ⟨rfl, rfl, rfl⟩

theorem containerExhausted_flag (r : XmlFileReader) :
    (containerExhausted r).reader.m_isAtFileStart = false := by
  have h := GoToNextContainer_flag r
  unfold containerExhausted
  split
  · rename_i h1
    rw [h1] at h
    exact h
  · rename_i h1
    rw [h1] at h
    exact h

theorem ReadNext_reader_cases (env : Env) (r : XmlFileReader) :
    ((ReadNextGeometryComponent env r).reader = advanceRecord r ∨
      (ReadNextGeometryComponent env r).reader = (containerExhausted (advanceRecord r)).reader) ∧
    ((ReadNextEventComponent env r).reader = advanceRecord r ∨
      (ReadNextEventComponent env r).reader = (containerExhausted (advanceRecord r)).reader) := by
  constructor
  · simp only [ReadNextGeometryComponent]
    split
    · exact Or.inr rfl
    · left
      repeat (first | rfl | split)
  · simp only [ReadNextEventComponent]
    split
    · exact Or.inr rfl
    · left
      repeat (first | rfl | split)

/-- In every state that the member functions lead to, the reader is at the start of the
stream only while it has no current container. -/
theorem Reachable.start_has_no_container {r : XmlFileReader} (h : Reachable r) :
    r.m_isAtFileStart = true → r.m_pContainerXmlNode = [] := by
  induction h with
  | construct document containerId => exact fun _ => rfl
  | ReadHeader _ ih =>
    rw [ReadHeader_eq]
    exact ih
  | GoToNextContainer _ _ =>
    intro h1
    rw [GoToNextContainer_flag] at h1
    cases h1
  | GoToNextGeometry _ hres _ =>
    intro h1
    rw [goToNextOfKind_flag _ _ _ _ hres] at h1
    cases h1
  | GoToNextEvent _ hres _ =>
    intro h1
    rw [goToNextOfKind_flag _ _ _ _ hres] at h1
    cases h1
  | GoToGeometry n _ hres _ =>
    exact goToLoop_invariant (fun x => x.m_isAtFileStart = true → x.m_pContainerXmlNode = [])
      XmlFileReader.GoToNextGeometry
      (fun r1 res1 h1 h2 => by rw [goToNextOfKind_flag _ _ _ _ h1] at h2; cases h2)
      _ _ _ _ _ (fun _ => rfl) hres
  | GoToEvent n _ hres _ =>
    exact goToLoop_invariant (fun x => x.m_isAtFileStart = true → x.m_pContainerXmlNode = [])
      XmlFileReader.GoToNextEvent
      (fun r1 res1 h1 h2 => by rw [goToNextOfKind_flag _ _ _ _ h1] at h2; cases h2)
      _ _ _ _ _ (fun _ => rfl) hres
  | @ReadNextGeometryComponent env r0 _ ih =>
    rcases (ReadNext_reader_cases env r0).1 with h1 | h1
    · rw [h1, (advanceRecord_flag r0).1, (advanceRecord_flag r0).2.1]
      exact ih
    · intro h2
      rw [h1, containerExhausted_flag] at h2
      cases h2
  | @ReadNextEventComponent env r0 _ ih =>
    rcases (ReadNext_reader_cases env r0).2 with h1 | h1
    · rw [h1, (advanceRecord_flag r0).1, (advanceRecord_flag r0).2.1]
      exact ih
    · intro h2
      rw [h1, containerExhausted_flag] at h2
      cases h2

/-- C13. `GoToNextContainer` in a state that the member functions lead to: with the
at-start flag set it positions on the first top-level element of the document, clears the
flag and returns success; with the flag clear and a current container it moves to the next
sibling of that container (none after the last) and returns success; with the flag clear
and no current container it throws "not found" and leaves the container position and the
flag as they were. In all three cases the record cursor is reset to none. -/
theorem GoToNextContainer_outcome (r : XmlFileReader) (hr : Reachable r) :
    (r.m_isAtFileStart = true →
      GoToNextContainer r =
        (.returned STATUS_CODE_SUCCESS,
          { r with m_pContainerXmlNode := FirstChildElement r.m_pXmlDocument,
                   m_isAtFileStart := false, m_pCurrentXmlElement := [] })) ∧
    (r.m_isAtFileStart = false → r.m_pContainerXmlNode ≠ [] →
      GoToNextContainer r =
        (.returned STATUS_CODE_SUCCESS,
          { r with m_pContainerXmlNode := r.m_pContainerXmlNode.tail,
                   m_pCurrentXmlElement := [] })) ∧
    (r.m_isAtFileStart = false → r.m_pContainerXmlNode = [] →
      GoToNextContainer r =
        (.thrown STATUS_CODE_NOT_FOUND, { r with m_pCurrentXmlElement := [] })) ∧
    (GoToNextContainer r).2.m_pCurrentXmlElement = [] := by
  refine ⟨?_, ?_, ?_, GoToNextContainer_cursor r⟩
  · intro h
    have hp := hr.start_has_no_container h
    simp [GoToNextContainer, h, hp]
  · intro h hp
    simp [GoToNextContainer, h, hp, ContainerPtr.NextSibling]
  · intro h hp
    simp [GoToNextContainer, h, hp]

/-- Witness of C13: the three cases on a stream of one container. -/
theorem GoToNextContainer_outcome_witness :
    (GoToNextContainer (construct emptyEventDocument UNKNOWN_CONTAINER)).2.m_pContainerXmlNode =
      emptyEventDocument ∧
    (GoToNextContainer (readerAfterHeader emptyEventDocument)).2.m_pContainerXmlNode = [] ∧
    (GoToNextContainer pastTheEnd.reader).1 = .thrown STATUS_CODE_NOT_FOUND :=
  ⟨congrArg (fun x => x.2.m_pContainerXmlNode)
      ((GoToNextContainer_outcome (construct emptyEventDocument UNKNOWN_CONTAINER)
        (Reachable.construct _ _)).1 (by decide)),
    congrArg (fun x => x.2.m_pContainerXmlNode)
      ((GoToNextContainer_outcome (readerAfterHeader emptyEventDocument)
        (Reachable.ReadHeader (Reachable.GoToNextContainer (Reachable.construct _ _)))).2.1
        (by decide) (by decide)),
    congrArg (fun x => x.1)
      ((GoToNextContainer_outcome pastTheEnd.reader
        (Reachable.ReadNextEventComponent _
          (Reachable.ReadHeader (Reachable.GoToNextContainer (Reachable.construct _ _))))).2.2.1
        (by decide) (by decide))⟩

/-- C14, as the code has it. When no further record exists in the current container, no
collaborator is called, and `ReadNextEventComponent` and `ReadNextGeometryComponent` end as
`GoToNextContainer` lets them: if the reader is at the stream start or has a current
container, they advance the container cursor and return "not found"; if the stream is
exhausted (no current container, not at the start), the exception "not found" of
`GoToNextContainer` leaves them uncaught and the container cursor stays none. -/
theorem container_exhausted_outcome (env : Env) (r : XmlFileReader)
    (h : (advanceRecord r).m_pCurrentXmlElement = []) :
    ReadNextEventComponent env r = ReadNextGeometryComponent env r ∧
    (ReadNextEventComponent env r).calls = [] ∧
    (ReadNextEventComponent env r).reader = (GoToNextContainer r).2 ∧
    ((r.m_isAtFileStart = true ∨ r.m_pContainerXmlNode ≠ []) →
      (ReadNextEventComponent env r).outcome = .returned STATUS_CODE_NOT_FOUND ∧
        (GoToNextContainer r).1 = .returned STATUS_CODE_SUCCESS) ∧
    (r.m_isAtFileStart = false → r.m_pContainerXmlNode = [] →
      (ReadNextEventComponent env r).outcome = .thrown STATUS_CODE_NOT_FOUND ∧
        (ReadNextEventComponent env r).reader.m_pContainerXmlNode = []) := by
  have hgo : GoToNextContainer (advanceRecord r) = GoToNextContainer r := by
    unfold advanceRecord
    split <;> rfl
  have he : ReadNextEventComponent env r = containerExhausted (advanceRecord r) := by
    simp only [ReadNextEventComponent, h, if_true]
  have hg : ReadNextGeometryComponent env r = containerExhausted (advanceRecord r) := by
    simp only [ReadNextGeometryComponent, h, if_true]
  rw [he, hg]
  simp only [containerExhausted, hgo]
  refine ⟨trivial, ?_, ?_, ?_, ?_⟩
  · split <;> rfl
  · split <;> simp_all
  · intro hs
    by_cases hf : r.m_isAtFileStart = true
    · simp [GoToNextContainer, hf]
    · have hp : r.m_pContainerXmlNode ≠ [] := by
        rcases hs with hs | hs
        · exact absurd hs hf
        · exact hs
      simp [GoToNextContainer, hf, hp]
  · intro hf hp
    simp [GoToNextContainer, hf, hp]

/-- Witness of C14 as amended: an empty Event container is left with "not found". -/
theorem container_exhausted_outcome_witness :
    pastTheEnd.outcome = .returned STATUS_CODE_NOT_FOUND ∧ pastTheEnd.calls = [] :=
  ⟨((container_exhausted_outcome (sampleEnv STATUS_CODE_NOT_FOUND)
      (readerAfterHeader emptyEventDocument) (by decide)).2.2.2.1 (Or.inr (by decide))).1,
    (container_exhausted_outcome (sampleEnv STATUS_CODE_NOT_FOUND)
      (readerAfterHeader emptyEventDocument) (by decide)).2.1⟩

/-- Counterexample to C14 as stated: on a stream of one empty Event container, a first
`ReadNextEventComponent` returns "not found" and leaves the reader without a current
container; in that state no further record exists, and both `ReadNextEventComponent` and
`ReadNextGeometryComponent` end with a thrown exception. -/
theorem exhausted_stream_throws :
    pastTheEnd.outcome = .returned STATUS_CODE_NOT_FOUND ∧
    pastTheEnd.reader.m_pContainerXmlNode = [] ∧
    (advanceRecord pastTheEnd.reader).m_pCurrentXmlElement = [] ∧
    (ReadNextEventComponent (sampleEnv STATUS_CODE_NOT_FOUND) pastTheEnd.reader).outcome =
      .thrown STATUS_CODE_NOT_FOUND ∧
    (ReadNextGeometryComponent (sampleEnv STATUS_CODE_NOT_FOUND) pastTheEnd.reader).outcome =
      .thrown STATUS_CODE_NOT_FOUND := by
  decide

end XmlFileReader

/-! ## Seeking -/

theorem nthOfKind_nil (kind : ContainerId) (n : Nat) : nthOfKind kind n [] = [] := by
  unfold nthOfKind
  rfl

theorem nthOfKind_cons_pos (kind : ContainerId) (node : ContainerNode) (rest : ContainerPtr)
    (h : node.containerId = kind) :
    nthOfKind kind 0 (node :: rest) = node :: rest ∧
      ∀ k, nthOfKind kind (k + 1) (node :: rest) = nthOfKind kind k rest := by
  constructor
  · simp only [nthOfKind, h, if_true]
  · intro k
    simp only [nthOfKind, h, if_true]

theorem nthOfKind_cons_neg (kind : ContainerId) (n : Nat) (node : ContainerNode)
    (rest : ContainerPtr) (h : node.containerId ≠ kind) :
    nthOfKind kind n (node :: rest) = nthOfKind kind n rest := by
  cases n <;> simp only [nthOfKind, h, if_false]

theorem nthOfKind_tail (kind : ContainerId) (i : Nat) (l : ContainerPtr) :
    nthOfKind kind 0 (nthOfKind kind i l).tail = nthOfKind kind (i + 1) l := by
  induction l generalizing i with
  | nil => simp only [nthOfKind_nil, List.tail_nil]
  | cons node rest ih =>
    by_cases h : node.containerId = kind
    · cases i with
      | zero => rw [(nthOfKind_cons_pos kind node rest h).1, (nthOfKind_cons_pos kind node rest h).2]
                rfl
      | succ j => rw [(nthOfKind_cons_pos kind node rest h).2, (nthOfKind_cons_pos kind node rest h).2, ih]
    · rw [nthOfKind_cons_neg kind _ node rest h, nthOfKind_cons_neg kind _ node rest h, ih]

theorem nthOfKind_nil_add (kind : ContainerId) (i j : Nat) (l : ContainerPtr)
    (h : nthOfKind kind i l = []) : nthOfKind kind (i + j) l = [] := by
  induction l generalizing i with
  | nil => exact nthOfKind_nil kind _
  | cons node rest ih =>
    by_cases hk : node.containerId = kind
    · cases i with
      | zero =>
        rw [(nthOfKind_cons_pos kind node rest hk).1] at h
        cases h
      | succ k =>
        rw [(nthOfKind_cons_pos kind node rest hk).2] at h
        have h2 : k + 1 + j = (k + j) + 1 := by omega
        rw [h2, (nthOfKind_cons_pos kind node rest hk).2]
        exact ih k h
    · rw [nthOfKind_cons_neg kind _ node rest hk] at h ⊢
      exact ih i h

theorem nthOfKind_position (kind : ContainerId) (n : Nat) (l : ContainerPtr)
    (node : ContainerNode) (rest : ContainerPtr) (h : nthOfKind kind n l = node :: rest) :
    ∃ pre, l = pre ++ node :: rest ∧ node.containerId = kind ∧ countOfKind kind pre = n := by
  induction l generalizing n with
  | nil =>
    rw [nthOfKind_nil] at h
    cases h
  | cons a as ih =>
    by_cases hk : a.containerId = kind
    · cases n with
      | zero =>
        rw [(nthOfKind_cons_pos kind a as hk).1] at h
        cases h
        exact ⟨[], rfl, hk, rfl⟩
      | succ k =>
        rw [(nthOfKind_cons_pos kind a as hk).2] at h
        obtain ⟨pre, h1, h2, h3⟩ := ih k h
        refine ⟨a :: pre, by rw [h1]; rfl, h2, ?_⟩
        simp only [countOfKind, List.filter_cons, hk, decide_True, if_true, List.length_cons]
        simp only [countOfKind] at h3
        omega
    · rw [nthOfKind_cons_neg kind _ a as hk] at h
      obtain ⟨pre, h1, h2, h3⟩ := ih n h
      refine ⟨a :: pre, by rw [h1]; rfl, h2, ?_⟩
      simp only [countOfKind, List.filter_cons, hk, decide_False]
      simp only [countOfKind] at h3
      simpa using h3

theorem nthOfKind_ne_nil_iff (kind : ContainerId) (n : Nat) (l : ContainerPtr) :
    nthOfKind kind n l ≠ [] ↔ n < countOfKind kind l := by
  induction l generalizing n with
  | nil => simp [nthOfKind_nil, countOfKind]
  | cons a as ih =>
    by_cases hk : a.containerId = kind
    · cases n with
      | zero =>
        rw [(nthOfKind_cons_pos kind a as hk).1]
        simp [countOfKind, List.filter_cons, hk]
      | succ k =>
        rw [(nthOfKind_cons_pos kind a as hk).2, ih]
        simp [countOfKind, List.filter_cons, hk]
    · rw [nthOfKind_cons_neg kind _ a as hk, ih]
      simp [countOfKind, List.filter_cons, hk]

theorem ContainerNode.containerId_eq_EVENT (node : ContainerNode) :
    node.containerId = EVENT ↔ node.ValueStr = "Event" := by
  unfold ContainerNode.containerId
  by_cases h1 : "Event" = node.ValueStr
  · simp [h1.symm]
  · have h2 : ¬ node.ValueStr = "Event" := fun h => h1 h.symm
    rw [if_neg h1]
    constructor
    · intro h
      split at h <;> cases h
    · intro h
      exact absurd h h2

theorem ContainerNode.containerId_eq_GEOMETRY (node : ContainerNode) :
    node.containerId = GEOMETRY ↔ node.ValueStr = "Geometry" := by
  unfold ContainerNode.containerId
  by_cases h1 : "Event" = node.ValueStr
  · rw [if_pos h1, ← h1]
    constructor
    · intro h
      cases h
    · intro h
      exact absurd h (by decide)
  · rw [if_neg h1]
    by_cases h2 : "Geometry" = node.ValueStr
    · simp [h2.symm]
    · have h3 : ¬ node.ValueStr = "Geometry" := fun h => h2 h.symm
      rw [if_neg h2]
      constructor
      · intro h
        cases h
      · intro h
        exact absurd h h3

namespace XmlFileReader

theorem positioned_positioned (r : XmlFileReader) (p q : ContainerPtr) :
    (r.positioned p).positioned q = r.positioned q := rfl

theorem rewound_positioned (r : XmlFileReader) (q : ContainerPtr) :
    r.rewound.positioned q = r.positioned q := rfl

theorem GoToNextContainer_positioned (r : XmlFileReader) (p : ContainerPtr) :
    GoToNextContainer (r.positioned p) =
      if p = [] then (.thrown STATUS_CODE_NOT_FOUND, r.positioned [])
      else (.returned STATUS_CODE_SUCCESS, r.positioned p.tail) := by
  cases p with
  | nil => simp [GoToNextContainer, positioned]
  | cons node rest => simp [GoToNextContainer, positioned, ContainerPtr.NextSibling]

theorem GoToNextContainer_rewound (r : XmlFileReader) :
    GoToNextContainer r.rewound =
      (.returned STATUS_CODE_SUCCESS, r.positioned (containers r.m_pXmlDocument)) := by
  simp [GoToNextContainer, positioned, rewound, containers]

theorem GetNextContainerId_positioned (r : XmlFileReader) (p : ContainerPtr) :
    (r.positioned p).GetNextContainerId =
      match p with
      | [] => UNKNOWN_CONTAINER
      | node :: _ => node.containerId := by
  cases p with
  | nil => exact GetNextContainerId_nil _ rfl
  | cons node rest => exact GetNextContainerId_cons _ node rest rfl

theorem goToNextOfKind_positioned (kind : ContainerId) (hk : kind ≠ UNKNOWN_CONTAINER)
    (r : XmlFileReader) (p : ContainerPtr) (fuel : Nat) (hfuel : p.length < fuel) :
    goToNextOfKind kind fuel (r.positioned p) =
      some (if nthOfKind kind 0 p.tail = [] then
          (.thrown STATUS_CODE_NOT_FOUND, r.positioned [])
        else (.returned STATUS_CODE_SUCCESS, r.positioned (nthOfKind kind 0 p.tail))) := by
  induction p generalizing fuel with
  | nil =>
    cases fuel with
    | zero => omega
    | succ f =>
      simp [goToNextOfKind, GoToNextContainer_positioned, nthOfKind_nil]
  | cons node rest ih =>
    cases fuel with
    | zero => omega
    | succ f =>
      have hf : rest.length < f := by
        simp only [List.length_cons] at hfuel
        omega
      have hgo : GoToNextContainer (r.positioned (node :: rest)) =
          (.returned STATUS_CODE_SUCCESS, r.positioned rest) := by
        rw [GoToNextContainer_positioned, if_neg (List.cons_ne_nil _ _)]
        rfl
      have hstep : goToNextOfKind kind (f + 1) (r.positioned (node :: rest)) =
          if kind ≠ (r.positioned rest).GetNextContainerId then
            goToNextOfKind kind f (r.positioned rest)
          else some (.returned STATUS_CODE_SUCCESS, r.positioned rest) := by
        simp only [goToNextOfKind, hgo, ne_eq, not_true_eq_false, if_false]
      rw [hstep, GetNextContainerId_positioned, List.tail_cons]
      cases rest with
      | nil =>
        simp only [nthOfKind_nil, if_true]
        rw [if_pos hk]
        have h0 := ih f hf
        simp only [List.tail_nil, nthOfKind_nil, if_true] at h0
        exact h0
      | cons n2 rest2 =>
        by_cases hn : n2.containerId = kind
        · rw [if_neg (fun h => h hn.symm), (nthOfKind_cons_pos kind n2 rest2 hn).1]
          simp
        · rw [if_pos (fun h => hn h.symm), nthOfKind_cons_neg kind 0 n2 rest2 hn]
          have h0 := ih f hf
          simp only [List.tail_cons] at h0
          exact h0

theorem loopBound_positioned (r : XmlFileReader) (p : ContainerPtr) :
    loopBound (r.positioned p) = r.m_pXmlDocument.length + p.length + 2 := rfl

theorem containers_length_le (document : List ContainerNode) :
    (containers document).length ≤ document.length := by
  unfold containers FirstChildElement
  exact (List.dropWhile_sublist _).length_le

theorem goToNextOfKind_rewound (kind : ContainerId) (hk : kind ≠ UNKNOWN_CONTAINER)
    (r : XmlFileReader) :
    goToNextOfKind kind (loopBound r.rewound) r.rewound =
      some (if nthOfKind kind 0 (containers r.m_pXmlDocument) = [] then
          (.thrown STATUS_CODE_NOT_FOUND, r.positioned [])
        else (.returned STATUS_CODE_SUCCESS,
          r.positioned (nthOfKind kind 0 (containers r.m_pXmlDocument)))) := by
  have hb : loopBound r.rewound = (r.m_pXmlDocument.length + 1) + 1 := rfl
  have hlen := containers_length_le r.m_pXmlDocument
  rw [hb]
  have hstep : goToNextOfKind kind (r.m_pXmlDocument.length + 1 + 1) r.rewound =
      if kind ≠ (r.positioned (containers r.m_pXmlDocument)).GetNextContainerId then
        goToNextOfKind kind (r.m_pXmlDocument.length + 1)
          (r.positioned (containers r.m_pXmlDocument))
      else some (.returned STATUS_CODE_SUCCESS, r.positioned (containers r.m_pXmlDocument)) := by
    simp only [goToNextOfKind, GoToNextContainer_rewound, ne_eq, not_true_eq_false, if_false]
  rw [hstep, GetNextContainerId_positioned]
  have hscan := goToNextOfKind_positioned kind hk r (containers r.m_pXmlDocument)
    (r.m_pXmlDocument.length + 1) (by omega)
  cases hc : containers r.m_pXmlDocument with
  | nil =>
    rw [hc] at hscan
    simp only [nthOfKind_nil, if_true, List.tail_nil] at hscan ⊢
    rw [if_pos hk]
    exact hscan
  | cons n2 rest2 =>
    rw [hc] at hscan
    by_cases hn : n2.containerId = kind
    · rw [if_neg (fun h => h hn.symm), (nthOfKind_cons_pos kind n2 rest2 hn).1]
      simp
    · rw [if_pos (fun h => hn h.symm), nthOfKind_cons_neg kind 0 n2 rest2 hn]
      simp only [List.tail_cons] at hscan
      exact hscan

theorem goToLoop_positioned (kind : ContainerId) (hk : kind ≠ UNKNOWN_CONTAINER)
    (g : XmlFileReader → Option (Outcome × XmlFileReader))
    (hg : ∀ r, g r = goToNextOfKind kind (loopBound r) r) (r : XmlFileReader)
    (l : ContainerPtr) (target : Int) (fuel i : Nat) (nRead : Int)
    (hfuel : target = nRead + fuel) (hpos : nthOfKind kind i l ≠ []) :
    goToLoop g target fuel nRead (r.positioned (nthOfKind kind i l)) =
      some (if nthOfKind kind (i + fuel) l = [] then
          (.thrown STATUS_CODE_NOT_FOUND, r.positioned [])
        else (.returned STATUS_CODE_SUCCESS, r.positioned (nthOfKind kind (i + fuel) l))) := by
  induction fuel generalizing i nRead with
  | zero =>
    have h1 : ¬ nRead < target := by
      rw [hfuel]
      simp
    simp only [goToLoop, h1, if_false, Nat.add_zero, hpos]
  | succ f ih =>
    have h1 : nRead < target := by
      rw [hfuel]
      push_cast
      omega
    have hnext : g (r.positioned (nthOfKind kind i l)) =
        some (if nthOfKind kind (i + 1) l = [] then
            (.thrown STATUS_CODE_NOT_FOUND, r.positioned [])
          else (.returned STATUS_CODE_SUCCESS, r.positioned (nthOfKind kind (i + 1) l))) := by
      rw [hg, goToNextOfKind_positioned kind hk r _ _
        (by rw [loopBound_positioned]; omega), nthOfKind_tail]
    simp only [goToLoop, h1, if_true, hnext]
    by_cases hn : nthOfKind kind (i + 1) l = []
    · have h2 : nthOfKind kind (i + (f + 1)) l = [] := by
        have h3 := nthOfKind_nil_add kind (i + 1) f l hn
        have h4 : i + 1 + f = i + (f + 1) := by omega
        rw [h4] at h3
        exact h3
      simp [hn, h2]
    · have h4 : i + 1 + f = i + (f + 1) := by omega
      have h5 := ih (i + 1) (nRead + 1) (by rw [hfuel]; push_cast; omega) hn
      rw [h4] at h5
      simp only [hn, if_false, ne_eq, not_true_eq_false]
      exact h5

theorem goToLoop_rewound (kind : ContainerId) (hk : kind ≠ UNKNOWN_CONTAINER)
    (g : XmlFileReader → Option (Outcome × XmlFileReader))
    (hg : ∀ r, g r = goToNextOfKind kind (loopBound r) r) (r : XmlFileReader) (target : Int) :
    goToLoop g target (target - (0 - 1)).toNat (0 - 1) r.rewound =
      some (if target < 0 then (.returned STATUS_CODE_SUCCESS, r.rewound)
        else if nthOfKind kind target.toNat (containers r.m_pXmlDocument) = [] then
          (.thrown STATUS_CODE_NOT_FOUND, r.positioned [])
        else (.returned STATUS_CODE_SUCCESS,
          r.positioned (nthOfKind kind target.toNat (containers r.m_pXmlDocument)))) := by
  by_cases ht : target < 0
  · have h0 : (target - (0 - 1)).toNat = 0 := by omega
    have h1 : ¬ (0 - 1 : Int) < target := by omega
    rw [h0]
    simp only [goToLoop, h1, ht, if_true, if_false]
  · have h0 : (target - (0 - 1)).toNat = target.toNat + 1 := by omega
    have h1 : (0 - 1 : Int) < target := by omega
    rw [h0]
    have hnext := goToNextOfKind_rewound kind hk r
    rw [← hg] at hnext
    simp only [goToLoop, h1, ht, if_true, if_false, hnext]
    by_cases hn : nthOfKind kind 0 (containers r.m_pXmlDocument) = []
    · have h2 := nthOfKind_nil_add kind 0 target.toNat _ hn
      rw [Nat.zero_add] at h2
      simp [hn, h2]
    · have h5 := goToLoop_positioned kind hk g hg r (containers r.m_pXmlDocument) target
        target.toNat 0 (0 - 1 + 1) (by omega) hn
      rw [Nat.zero_add] at h5
      simp only [hn, if_false, ne_eq, not_true_eq_false]
      exact h5

theorem GoToEvent_eq (n : Nat) (r : XmlFileReader) :
    GoToEvent n r =
      some (if toInt n < 0 then (.returned STATUS_CODE_SUCCESS, r.rewound)
        else if nthOfKind EVENT (toInt n).toNat (containers r.m_pXmlDocument) = [] then
          (.thrown STATUS_CODE_NOT_FOUND, r.positioned [])
        else (.returned STATUS_CODE_SUCCESS,
          r.positioned (nthOfKind EVENT (toInt n).toNat (containers r.m_pXmlDocument)))) := by
  have h := goToLoop_rewound EVENT (by decide) GoToNextEvent (fun _ => rfl) r (toInt n)
  have hid : r.rewound.GetNextContainerId = UNKNOWN_CONTAINER := GetNextContainerId_nil _ rfl
  have hne : EVENT ≠ UNKNOWN_CONTAINER := by decide
  rw [← h]
  show goToLoop GoToNextEvent (toInt n)
      (toInt n - (if EVENT ≠ r.rewound.GetNextContainerId then 0 - 1 else 0)).toNat
      (if EVENT ≠ r.rewound.GetNextContainerId then 0 - 1 else 0) r.rewound = _
  rw [hid, if_pos hne]

theorem GoToGeometry_eq (n : Nat) (r : XmlFileReader) :
    GoToGeometry n r =
      some (if toInt n < 0 then (.returned STATUS_CODE_SUCCESS, r.rewound)
        else if nthOfKind GEOMETRY (toInt n).toNat (containers r.m_pXmlDocument) = [] then
          (.thrown STATUS_CODE_NOT_FOUND, r.positioned [])
        else (.returned STATUS_CODE_SUCCESS,
          r.positioned (nthOfKind GEOMETRY (toInt n).toNat (containers r.m_pXmlDocument)))) := by
  have h := goToLoop_rewound GEOMETRY (by decide) GoToNextGeometry (fun _ => rfl) r (toInt n)
  have hid : r.rewound.GetNextContainerId = UNKNOWN_CONTAINER := GetNextContainerId_nil _ rfl
  have hne : GEOMETRY ≠ UNKNOWN_CONTAINER := by decide
  rw [← h]
  show goToLoop GoToNextGeometry (toInt n)
      (toInt n - (if GEOMETRY ≠ r.rewound.GetNextContainerId then 0 - 1 else 0)).toNat
      (if GEOMETRY ≠ r.rewound.GetNextContainerId then 0 - 1 else 0) r.rewound = _
  rw [hid, if_pos hne]

theorem toInt_of_lt (n : Nat) (h : n < 2 ^ 31) : toInt n = n := by
  have h1 : n % 2 ^ 32 = n := Nat.mod_eq_of_lt (by omega)
  simp only [toInt, h1, h, if_true]

theorem toInt_of_ge (n : Nat) (h1 : 2 ^ 31 ≤ n) (h2 : n < 2 ^ 32) : toInt n < 0 := by
  have h3 : n % 2 ^ 32 = n := Nat.mod_eq_of_lt h2
  have h4 : ¬ n < 2 ^ 31 := by omega
  simp only [toInt, h3, h4, if_false]
  omega

theorem containers_of_allElements (document : List ContainerNode)
    (h : allElements document) : containers document = document := by
  cases document with
  | nil => rfl
  | cons node rest =>
    have h1 : node.isElement = true := h node (List.mem_cons_self _ _)
    simp [containers, FirstChildElement, List.dropWhile, h1]

theorem goTo_lands (kind : ContainerId) (r : XmlFileReader) (n : Nat)
    (res : Option (Outcome × XmlFileReader))
    (hres : res =
      some (if toInt n < 0 then (.returned STATUS_CODE_SUCCESS, r.rewound)
        else if nthOfKind kind (toInt n).toNat (containers r.m_pXmlDocument) = [] then
          (.thrown STATUS_CODE_NOT_FOUND, r.positioned [])
        else (.returned STATUS_CODE_SUCCESS,
          r.positioned (nthOfKind kind (toInt n).toNat (containers r.m_pXmlDocument)))))
    (hall : allElements r.m_pXmlDocument) (hint : n < 2 ^ 31)
    (hn : n < countOfKind kind r.m_pXmlDocument) :
    ∃ pre node rest, r.m_pXmlDocument = pre ++ node :: rest ∧ node.containerId = kind ∧
      countOfKind kind pre = n ∧
      res = some (.returned STATUS_CODE_SUCCESS, r.positioned (node :: rest)) := by
  have hc := containers_of_allElements _ hall
  have ht := toInt_of_lt n hint
  have h0 : ¬ toInt n < 0 := by rw [ht]; omega
  have h1 : (toInt n).toNat = n := by rw [ht]; rfl
  rw [if_neg h0, h1, hc] at hres
  have h2 := (nthOfKind_ne_nil_iff kind n r.m_pXmlDocument).mpr hn
  rw [if_neg h2] at hres
  cases hp : nthOfKind kind n r.m_pXmlDocument with
  | nil => exact absurd hp h2
  | cons node rest =>
    obtain ⟨pre, h3, h4, h5⟩ := nthOfKind_position kind n _ node rest hp
    rw [hp] at hres
    exact ⟨pre, node, rest, h3, h4, h5, hres⟩

/-- C15, as the code has it. On a stream of containers only, for `n` below `2^31` and below
the number of Event containers, `GoToEvent(n)` returns success with the container cursor on
the Event container that has exactly `n` Event containers before it, the record cursor
unset; `GoToGeometry(n)` does the same for Geometry containers. For `n` from `2^31` on, the
cast to `int` is negative, the loop is never entered, and both return success with no
current container, whatever the stream holds. -/
theorem GoToEvent_index (r : XmlFileReader) (n : Nat) :
    (allElements r.m_pXmlDocument → n < 2 ^ 31 → n < countOfKind EVENT r.m_pXmlDocument →
      ∃ pre node rest, r.m_pXmlDocument = pre ++ node :: rest ∧ node.ValueStr = "Event" ∧
        countOfKind EVENT pre = n ∧
        GoToEvent n r = some (.returned STATUS_CODE_SUCCESS, r.positioned (node :: rest))) ∧
    (allElements r.m_pXmlDocument → n < 2 ^ 31 → n < countOfKind GEOMETRY r.m_pXmlDocument →
      ∃ pre node rest, r.m_pXmlDocument = pre ++ node :: rest ∧ node.ValueStr = "Geometry" ∧
        countOfKind GEOMETRY pre = n ∧
        GoToGeometry n r = some (.returned STATUS_CODE_SUCCESS, r.positioned (node :: rest))) ∧
    (2 ^ 31 ≤ n → n < 2 ^ 32 →
      GoToEvent n r = some (.returned STATUS_CODE_SUCCESS, r.rewound) ∧
      GoToGeometry n r = some (.returned STATUS_CODE_SUCCESS, r.rewound) ∧
      r.rewound.m_pContainerXmlNode = []) := by
  refine ⟨?_, ?_, ?_⟩
  · intro hall hint hn
    obtain ⟨pre, node, rest, h1, h2, h3, h4⟩ :=
      goTo_lands EVENT r n _ (GoToEvent_eq n r) hall hint hn
    exact ⟨pre, node, rest, h1, (ContainerNode.containerId_eq_EVENT node).mp h2, h3, h4⟩
  · intro hall hint hn
    obtain ⟨pre, node, rest, h1, h2, h3, h4⟩ :=
      goTo_lands GEOMETRY r n _ (GoToGeometry_eq n r) hall hint hn
    exact ⟨pre, node, rest, h1, (ContainerNode.containerId_eq_GEOMETRY node).mp h2, h3, h4⟩
  · intro h1 h2
    have ht := toInt_of_ge n h1 h2
    rw [GoToEvent_eq, GoToGeometry_eq, if_pos ht, if_pos ht]
    exact ⟨rfl, rfl, rfl⟩

/-- Witness of C15: on the sample stream, `GoToEvent(1)` ends on the second Event
container, and `GoToEvent(2^31)` ends with success and no current container. -/
theorem GoToEvent_index_witness :
    (∃ pre node rest, seekDocument = pre ++ node :: rest ∧ node.ValueStr = "Event" ∧
        countOfKind EVENT pre = 1 ∧
        GoToEvent 1 (construct seekDocument UNKNOWN_CONTAINER) =
          some (.returned STATUS_CODE_SUCCESS,
            (construct seekDocument UNKNOWN_CONTAINER).positioned (node :: rest))) ∧
    GoToEvent (2 ^ 31) (construct seekDocument UNKNOWN_CONTAINER) =
      some (.returned STATUS_CODE_SUCCESS, (construct seekDocument UNKNOWN_CONTAINER).rewound) :=
  ⟨(GoToEvent_index (construct seekDocument UNKNOWN_CONTAINER) 1).1 (by decide) (by decide)
      (by decide),
    ((GoToEvent_index (construct seekDocument UNKNOWN_CONTAINER) (2 ^ 31)).2.2 (by decide)
      (by decide)).1⟩

/-- The code at a failing input of C15: on a stream of `2^31 + 1` Event containers,
`GoToEvent(2^31)` returns success and leaves the reader without a current container. -/
theorem GoToEvent_long_stream :
    allElements longDocument ∧
    2 ^ 31 < countOfKind EVENT longDocument ∧
    GoToEvent (2 ^ 31) (construct longDocument UNKNOWN_CONTAINER) =
      some (.returned STATUS_CODE_SUCCESS, (construct longDocument UNKNOWN_CONTAINER).rewound) ∧
    (construct longDocument UNKNOWN_CONTAINER).rewound.m_pContainerXmlNode = [] := by
  refine ⟨?_, ?_, ?_, rfl⟩
  · intro node hnode
    rw [longDocument, List.mem_replicate] at hnode
    rw [hnode.2]
    rfl
  · have h1 : decide ((ContainerNode.element "Event" []).containerId = EVENT) = true := by
      decide
    have h2 : List.filter (fun node : ContainerNode => decide (node.containerId = EVENT))
        (List.replicate (2 ^ 31 + 1) (.element "Event" [])) =
        List.replicate (2 ^ 31 + 1) (.element "Event" []) :=
      List.filter_replicate_of_pos h1
    rw [countOfKind, longDocument, h2, List.length_replicate]
    omega
  · rw [GoToEvent_eq, if_pos (toInt_of_ge _ (by omega) (by omega))]

/-- The code at a second failing input of C15: on a stream of two Event containers with a
comment of the text `Event` between them, `GoToEvent(1)` returns success with the container
cursor on the comment, not on the second Event container. -/
theorem GoToEvent_lands_on_comment :
    GoToEvent 1 (construct commentedDocument UNKNOWN_CONTAINER) =
      some (.returned STATUS_CODE_SUCCESS,
        (construct commentedDocument UNKNOWN_CONTAINER).positioned
          [.other "Event", .element "Event" []]) := by
  decide

/-- C16, as the code has it. On a stream of containers only with at most `k` Event
containers, `GoToEvent(k)` ends with `STATUS_CODE_NOT_FOUND`, thrown by
`GoToNextContainer`, and without a current container, as long as `k` is below `2^31`. For
the unsigned 32-bit `k` from `2^31` on, the cast to `int` is negative and `GoToEvent(k)`
returns `STATUS_CODE_SUCCESS`, whatever the number of Event containers. -/
theorem GoToEvent_beyond (r : XmlFileReader) (k : Nat) :
    (allElements r.m_pXmlDocument → countOfKind EVENT r.m_pXmlDocument ≤ k → k < 2 ^ 31 →
      GoToEvent k r = some (.thrown STATUS_CODE_NOT_FOUND, r.positioned [])) ∧
    (2 ^ 31 ≤ k → k < 2 ^ 32 →
      ∃ res, GoToEvent k r = some res ∧ res.1.status = STATUS_CODE_SUCCESS ∧
        res.1.status ≠ STATUS_CODE_NOT_FOUND) := by
  refine ⟨?_, ?_⟩
  · intro hall hm hk
    have hc := containers_of_allElements _ hall
    have ht := toInt_of_lt k hk
    have h0 : ¬ toInt k < 0 := by rw [ht]; omega
    have h1 : (toInt k).toNat = k := by rw [ht]; rfl
    have h2 : nthOfKind EVENT k r.m_pXmlDocument = [] := by
      by_contra hne
      have := (nthOfKind_ne_nil_iff EVENT k r.m_pXmlDocument).mp hne
      omega
    rw [GoToEvent_eq, if_neg h0, h1, hc, if_pos h2]
  · intro h1 h2
    have ht := toInt_of_ge k h1 h2
    rw [GoToEvent_eq, if_pos ht]
    exact ⟨_, rfl, rfl, fun h => StatusCode.noConfusion h⟩

/-- Witness of C16: on the sample stream, which holds two Event containers, `GoToEvent(2)`
throws `STATUS_CODE_NOT_FOUND` and `GoToEvent(2^31)` ends with `STATUS_CODE_SUCCESS`. -/
theorem GoToEvent_beyond_witness :
    GoToEvent 2 (construct seekDocument UNKNOWN_CONTAINER) =
      some (.thrown STATUS_CODE_NOT_FOUND,
        (construct seekDocument UNKNOWN_CONTAINER).positioned []) ∧
    ∃ res, GoToEvent (2 ^ 31) (construct seekDocument UNKNOWN_CONTAINER) = some res ∧
      res.1.status = STATUS_CODE_SUCCESS ∧ res.1.status ≠ STATUS_CODE_NOT_FOUND :=
  ⟨(GoToEvent_beyond (construct seekDocument UNKNOWN_CONTAINER) 2).1 (by decide) (by decide)
      (by decide),
    (GoToEvent_beyond (construct seekDocument UNKNOWN_CONTAINER) (2 ^ 31)).2 (by decide)
      (by decide)⟩

/-- The code at a failing input of C16: the sample stream holds two Event containers, and
`GoToEvent(2147483648)` returns `STATUS_CODE_SUCCESS`, at the start of the stream and
without a current container. -/
theorem GoToEvent_beyond_int_range :
    countOfKind EVENT seekDocument = 2 ∧
    GoToEvent 2147483648 (construct seekDocument UNKNOWN_CONTAINER) =
      some (.returned STATUS_CODE_SUCCESS,
        { m_pXmlDocument := seekDocument, m_containerId := UNKNOWN_CONTAINER,
          m_pContainerXmlNode := [], m_pCurrentXmlElement := [], m_isAtFileStart := true }) := by
  decide

/-- The code at a second failing input of C16: a stream of one Event container followed by
a comment of the text `Event` holds one Event container, and `GoToEvent(1)` returns
`STATUS_CODE_SUCCESS` with the container cursor on the comment. -/
theorem GoToEvent_counts_comment :
    GoToEvent 1
        (construct [.element "Event" [sampleMCParticle], .other "Event"] UNKNOWN_CONTAINER) =
      some (.returned STATUS_CODE_SUCCESS,
        (construct [.element "Event" [sampleMCParticle], .other "Event"]
          UNKNOWN_CONTAINER).positioned [.other "Event"]) := by
  decide

/-- C17. `GoToEvent(n)` ends, and what it ends with depends only on the stream and `n`: from
two readers on the same stream, whatever their cursors and flags, it gives the same outcome,
the same container position, the same record cursor and the same at-start flag, and leaves
the stream as it was. A second `GoToEvent(0)` after a first gives the outcome and the whole
reader state of the first. -/
theorem GoToEvent_history_independent (r1 r2 : XmlFileReader) (n : Nat)
    (h : r1.m_pXmlDocument = r2.m_pXmlDocument) :
    (∃ res1 res2, GoToEvent n r1 = some res1 ∧ GoToEvent n r2 = some res2 ∧
      res1.1 = res2.1 ∧
      res1.2.m_pContainerXmlNode = res2.2.m_pContainerXmlNode ∧
      res1.2.m_pCurrentXmlElement = res2.2.m_pCurrentXmlElement ∧
      res1.2.m_isAtFileStart = res2.2.m_isAtFileStart ∧
      res1.2.m_pXmlDocument = r1.m_pXmlDocument) ∧
    (∃ first, GoToEvent 0 r1 = some first ∧ GoToEvent 0 first.2 = some first) := by
  refine ⟨?_, ?_⟩
  · rw [GoToEvent_eq, GoToEvent_eq, h]
    refine ⟨_, _, rfl, rfl, ?_⟩
    by_cases h0 : toInt n < 0
    · rw [if_pos h0, if_pos h0]
      exact ⟨rfl, rfl, rfl, rfl, h⟩
    · rw [if_neg h0, if_neg h0]
      by_cases h1 : nthOfKind EVENT (toInt n).toNat (containers r2.m_pXmlDocument) = []
      · rw [if_pos h1, if_pos h1]
        exact ⟨rfl, rfl, rfl, rfl, h⟩
      · rw [if_neg h1, if_neg h1]
        exact ⟨rfl, rfl, rfl, rfl, h⟩
  · have h0 : ¬ toInt 0 < 0 := by decide
    have h2 : ∀ p, (r1.positioned p).m_pXmlDocument = r1.m_pXmlDocument := fun _ => rfl
    by_cases h1 : nthOfKind EVENT (toInt 0).toNat (containers r1.m_pXmlDocument) = []
    · have e1 : GoToEvent 0 r1 = some (.thrown STATUS_CODE_NOT_FOUND, r1.positioned []) := by
        rw [GoToEvent_eq, if_neg h0, if_pos h1]
      refine ⟨_, e1, ?_⟩
      show GoToEvent 0 (r1.positioned []) = _
      rw [GoToEvent_eq, if_neg h0, h2, if_pos h1, positioned_positioned]
    · have e1 : GoToEvent 0 r1 = some (.returned STATUS_CODE_SUCCESS,
          r1.positioned (nthOfKind EVENT (toInt 0).toNat (containers r1.m_pXmlDocument))) := by
        rw [GoToEvent_eq, if_neg h0, if_neg h1]
      refine ⟨_, e1, ?_⟩
      show GoToEvent 0 (r1.positioned _) = _
      rw [GoToEvent_eq, if_neg h0, h2, if_neg h1, positioned_positioned]

/-- Witness of C17: a fresh reader on the sample stream and a reader in the middle of it. -/
theorem GoToEvent_history_independent_witness :
    (∃ res1 res2, GoToEvent 1 (construct seekDocument UNKNOWN_CONTAINER) = some res1 ∧
      GoToEvent 1 ((construct seekDocument GEOMETRY).positioned [.element "Geometry" []]) =
        some res2 ∧
      res1.1 = res2.1 ∧
      res1.2.m_pContainerXmlNode = res2.2.m_pContainerXmlNode ∧
      res1.2.m_pCurrentXmlElement = res2.2.m_pCurrentXmlElement ∧
      res1.2.m_isAtFileStart = res2.2.m_isAtFileStart ∧
      res1.2.m_pXmlDocument = (construct seekDocument UNKNOWN_CONTAINER).m_pXmlDocument) ∧
    (∃ first, GoToEvent 0 (construct seekDocument UNKNOWN_CONTAINER) = some first ∧
      GoToEvent 0 first.2 = some first) :=
  GoToEvent_history_independent (construct seekDocument UNKNOWN_CONTAINER)
    ((construct seekDocument GEOMETRY).positioned [.element "Geometry" []]) 1 rfl

end XmlFileReader

/-! ## The track address list -/

namespace PtrSet

theorem null_first (s : PtrSet) (h : NULL ∈ s) : ∃ rest, s.elems = NULL :: rest := by
  have hmem : NULL ∈ s.elems := h
  have hsorted := s.sorted
  cases hl : s.elems with
  | nil =>
    rw [hl] at hmem
    cases hmem
  | cons a rest =>
    rw [hl] at hmem hsorted
    rcases List.mem_cons.mp hmem with h0 | h0
    · exact ⟨rest, by rw [← h0]⟩
    · have := List.rel_of_sorted_cons hsorted NULL h0
      exact absurd this (Nat.not_lt_zero a)

end PtrSet

namespace ParticleFlowObject

theorem trackLoop_valid (objects : Objects) (tracks : List Address) :
    ∀ acc : List Address, (∀ pTrack ∈ tracks, objects.isTrack pTrack = true) →
      trackLoop objects tracks acc =
        .returned (acc ++ tracks.map objects.GetParentTrackAddress) := by
  induction tracks with
  | nil =>
    intro acc _
    simp [trackLoop]
  | cons a rest ih =>
    intro acc h
    have ha := h a (List.mem_cons_self _ _)
    have := ih (acc ++ [objects.GetParentTrackAddress a])
      (fun x hx => h x (List.mem_cons_of_mem _ hx))
    simp only [trackLoop, ha, Bool.not_true, Bool.false_eq_true, if_false, this, List.map_cons,
      List.append_assoc, List.singleton_append]

theorem trackLoop_invalid (objects : Objects) (tracks : List Address) :
    ∀ acc : List Address, (∃ pTrack ∈ tracks, objects.isTrack pTrack = false) →
      trackLoop objects tracks acc = .undefined := by
  induction tracks with
  | nil =>
    intro acc h
    obtain ⟨x, hx, _⟩ := h
    cases hx
  | cons a rest ih =>
    intro acc h
    by_cases ha : objects.isTrack a = true
    · obtain ⟨x, hx, hnot⟩ := h
      have hrest : ∃ pTrack ∈ rest, objects.isTrack pTrack = false := by
        rcases List.mem_cons.mp hx with h1 | h1
        · rw [h1, ha] at hnot
          cases hnot
        · exact ⟨x, h1, hnot⟩
      simp only [trackLoop, ha, Bool.not_true, Bool.false_eq_true, if_false]
      exact ih _ hrest
    · have ha2 : objects.isTrack a = false := by
        cases hb : objects.isTrack a
        · rfl
        · exact absurd hb ha
      simp only [trackLoop, ha2, Bool.not_false, if_true]

/-- C19, as the code has it. For a particle flow object whose track set holds addresses of
tracks only, `GetTrackAddressList` returns the parent track addresses of the tracks held, in
the iteration order of the track set: the length of the list is the number of tracks, and
its entry `i` is the parent track address of the track of index `i`. When the set holds an
address that is not that of a track, the null pointer for one, the call through that
pointer has no defined result. The function is a `const` member: the embedding has no
particle flow object after the call because none is written. -/
theorem GetTrackAddressList_entries (objects : Objects) (pfo : ParticleFlowObject) :
    ((∀ pTrack ∈ pfo.m_trackList, objects.isTrack pTrack = true) →
      pfo.GetTrackAddressList objects =
        .returned (pfo.m_trackList.elems.map objects.GetParentTrackAddress) ∧
      (pfo.m_trackList.elems.map objects.GetParentTrackAddress).length =
        pfo.m_trackList.size ∧
      ∀ (i : Nat) (pTrack : Address), pfo.m_trackList.elems[i]? = some pTrack →
        (pfo.m_trackList.elems.map objects.GetParentTrackAddress)[i]? =
          some (objects.GetParentTrackAddress pTrack)) ∧
    ((∃ pTrack ∈ pfo.m_trackList, objects.isTrack pTrack = false) →
      pfo.GetTrackAddressList objects = .undefined) ∧
    (NULL ∈ pfo.m_trackList → pfo.GetTrackAddressList objects = .undefined) := by
  have hinv : (∃ pTrack ∈ pfo.m_trackList, objects.isTrack pTrack = false) →
      pfo.GetTrackAddressList objects = .undefined :=
    fun h => trackLoop_invalid objects pfo.m_trackList.elems [] h
  refine ⟨?_, hinv, fun h => hinv ⟨NULL, h, objects.null_isTrack⟩⟩
  intro h
  refine ⟨?_, ?_, ?_⟩
  · have := trackLoop_valid objects pfo.m_trackList.elems [] h
    rw [List.nil_append] at this
    exact this
  · rw [List.length_map, PtrSet.size]
  · intro i pTrack hi
    rw [List.getElem?_map, hi]
    rfl

/-- Witness of C19 as amended: three tracks, added at addresses 48, 16 and 80, give the
addresses of their parents in the order of the set. -/
theorem GetTrackAddressList_entries_witness :
    threeTracks.m_trackList.elems = [16, 48, 80] ∧
    threeTracks.GetTrackAddressList sampleObjects = .returned [4112, 4144, 4176] ∧
    [4112, 4144, 4176][1]? = some (sampleObjects.GetParentTrackAddress 48) :=
  ⟨by decide,
    ((GetTrackAddressList_entries sampleObjects threeTracks).1 (by decide)).1.trans
      (by decide),
    by decide⟩

/-- Counterexample to C19 as stated: `AddToPfo` accepts the null pointer as a track and
returns success; the track set of the particle flow object then holds it, first in the
iteration order, and `GetTrackAddressList` calls `GetParentTrackAddress` through it: no list
is returned. -/
theorem GetTrackAddressList_null_track :
    (sample.AddToPfo_Track NULL).1 = STATUS_CODE_SUCCESS ∧
    (sample.AddToPfo_Track NULL).2.m_trackList.elems = [NULL, 16] ∧
    (sample.AddToPfo_Track NULL).2.GetTrackAddressList sampleObjects = .undefined ∧
    ¬ ∃ list : List Address,
      (sample.AddToPfo_Track NULL).2.GetTrackAddressList sampleObjects = .returned list := by
  refine ⟨by decide, by decide, by decide, ?_⟩
  rintro ⟨list, h⟩
  have h2 : (sample.AddToPfo_Track NULL).2.GetTrackAddressList sampleObjects =
      .undefined := by decide
  rw [h2] at h
  cases h

/-! ## The frame of the add and remove operations -/

theorem add_frame (pfo : ParticleFlowObject) (k : SetKind) (r : Address) :
    (∀ k2, k2 ≠ k → (pfo.add k r).2.getSet k2 = pfo.getSet k2) ∧
    (pfo.add k r).2.scalars = pfo.scalars := by
  refine ⟨?_, ?_⟩
  · intro k2 hk
    cases k <;> cases k2 <;>
      first
      | exact absurd rfl hk
      | (simp only [add, getSet, AddToPfo_Track_eq, AddToPfo_Cluster_eq,
          AddToPfo_Vertex_eq, AddParent_eq, AddDaughter_eq]
         repeat (first | rfl | split))
  · cases k <;>
      simp only [add, scalars, AddToPfo_Track_eq, AddToPfo_Cluster_eq,
        AddToPfo_Vertex_eq, AddParent_eq, AddDaughter_eq] <;>
      repeat (first | rfl | split)

theorem remove_frame (pfo : ParticleFlowObject) (k : SetKind) (r : Address) :
    (∀ k2, k2 ≠ k → (pfo.remove k r).2.getSet k2 = pfo.getSet k2) ∧
    (pfo.remove k r).2.scalars = pfo.scalars := by
  refine ⟨?_, ?_⟩
  · intro k2 hk
    cases k <;> cases k2 <;>
      first
      | exact absurd rfl hk
      | (simp only [remove, getSet, RemoveFromPfo_Track, RemoveFromPfo_Cluster,
          RemoveFromPfo_Vertex, RemoveParent, RemoveDaughter]
         repeat (first | rfl | split))
  · cases k <;>
      simp only [remove, scalars, RemoveFromPfo_Track, RemoveFromPfo_Cluster,
        RemoveFromPfo_Vertex, RemoveParent, RemoveDaughter] <;>
      repeat (first | rfl | split)

/-- C20. A call of an add or remove operation of a set, on the particle flow object at
`pThis` with the argument `pArg`, leaves the other four sets and the scalar attributes of
that object as they were, and leaves every other particle flow object as it was, the one at
`pArg` among them. After `AddParent` the daughters of the object at `pArg` are those before
the call, and after `AddDaughter` its parents are, even when `pArg` is `pThis`. -/
theorem add_remove_frame (heap : PfoHeap) (pThis pArg : Address) (kind : SetKind) :
    ((∀ kind2, kind2 ≠ kind →
        ((heap.add pThis kind pArg).2 pThis).getSet kind2 = (heap pThis).getSet kind2) ∧
      ((heap.add pThis kind pArg).2 pThis).scalars = (heap pThis).scalars ∧
      (∀ p, p ≠ pThis → (heap.add pThis kind pArg).2 p = heap p)) ∧
    ((∀ kind2, kind2 ≠ kind →
        ((heap.remove pThis kind pArg).2 pThis).getSet kind2 = (heap pThis).getSet kind2) ∧
      ((heap.remove pThis kind pArg).2 pThis).scalars = (heap pThis).scalars ∧
      (∀ p, p ≠ pThis → (heap.remove pThis kind pArg).2 p = heap p)) ∧
    ((heap.add pThis .parents pArg).2 pArg).m_daughterPfoList = (heap pArg).m_daughterPfoList ∧
    ((heap.add pThis .daughters pArg).2 pArg).m_parentPfoList = (heap pArg).m_parentPfoList := by
  have hadd : ∀ k, (heap.add pThis k pArg).2 pThis = ((heap pThis).add k pArg).2 := by
    intro k
    simp [PfoHeap.add]
  have hrem : ∀ k, (heap.remove pThis k pArg).2 pThis = ((heap pThis).remove k pArg).2 := by
    intro k
    simp [PfoHeap.remove]
  have hadd2 : ∀ k p, p ≠ pThis → (heap.add pThis k pArg).2 p = heap p := by
    intro k p hp
    simp [PfoHeap.add, Function.update_noteq hp]
  have hrem2 : ∀ k p, p ≠ pThis → (heap.remove pThis k pArg).2 p = heap p := by
    intro k p hp
    simp [PfoHeap.remove, Function.update_noteq hp]
  refine ⟨⟨?_, ?_, hadd2 kind⟩, ⟨?_, ?_, hrem2 kind⟩, ?_, ?_⟩
  · rw [hadd]
    exact (add_frame (heap pThis) kind pArg).1
  · rw [hadd]
    exact (add_frame (heap pThis) kind pArg).2
  · rw [hrem]
    exact (remove_frame (heap pThis) kind pArg).1
  · rw [hrem]
    exact (remove_frame (heap pThis) kind pArg).2
  · by_cases h : pArg = pThis
    · subst h
      rw [hadd]
      exact (add_frame (heap pArg) .parents pArg).1 .daughters (by decide)
    · rw [hadd2 _ _ h]
  · by_cases h : pArg = pThis
    · subst h
      rw [hadd]
      exact (add_frame (heap pArg) .daughters pArg).1 .parents (by decide)
    · rw [hadd2 _ _ h]

/-- Witness of C20: `AddParent(128)` on the object at address 64 succeeds and puts 128 among
the parents of that object; its daughters, its tracks and its scalars are as before, and
the object at 128 is as before, with no daughter. -/
theorem add_remove_frame_witness :
    (sampleHeap.add 64 .parents 128).1 = STATUS_CODE_SUCCESS ∧
    ((sampleHeap.add 64 .parents 128).2 64).m_parentPfoList.elems = [128] ∧
    ((sampleHeap.add 64 .parents 128).2 128).m_daughterPfoList.elems = [] ∧
    ((sampleHeap.add 64 .parents 128).2 128).m_daughterPfoList =
      (sampleHeap 128).m_daughterPfoList ∧
    ((sampleHeap.add 64 .parents 128).2 64).getSet .tracks = (sampleHeap 64).getSet .tracks ∧
    (sampleHeap.add 64 .parents 128).2 128 = sampleHeap 128 :=
  ⟨by decide, by decide, by decide,
    (add_remove_frame sampleHeap 64 128 .parents).2.2.1,
    (add_remove_frame sampleHeap 64 128 .parents).1.1 .tracks (by decide),
    (add_remove_frame sampleHeap 64 128 .parents).1.2.2 128 (by decide)⟩

end ParticleFlowObject

/-! ## The cluster address list -/

namespace OrderedCaloHitList

theorem put_eq (l : OrderedCaloHitList) (p : Address) (k : Nat) :
    l.put p k =
      if k ∉ l.layers then
        { layers := (l.layers.insert k).1
          hits := Function.update l.hits k (PtrSet.empty.insert p).1 }
      else { l with hits := Function.update l.hits k ((l.hits k).insert p).1 } := by
  unfold put
  rw [PtrSet.find_eq]
  by_cases hk : k ∈ l.layers
  · simp [hk]
  · simp [hk]

theorem mem_singleton_set (p q : Address) : q ∈ (PtrSet.empty.insert p).1 ↔ q = p := by
  rw [PtrSet.mem_insert]
  constructor
  · rintro (h | h)
    · exact h
    · cases h
  · exact Or.inl

theorem put_holds (l : OrderedCaloHitList) (p : Address) (k : Nat) (k2 : Nat)
    (p2 : Address) :
    (l.put p k).holds k2 p2 ↔ l.holds k2 p2 ∨ (k2 = k ∧ p2 = p) := by
  rw [put_eq]
  by_cases hk : k ∈ l.layers
  · simp only [hk, not_true_eq_false, if_false, holds]
    by_cases hk2 : k2 = k
    · subst hk2
      rw [Function.update_same, PtrSet.mem_insert]
      constructor
      · rintro ⟨h1, h2 | h2⟩
        · exact Or.inr ⟨rfl, h2⟩
        · exact Or.inl ⟨h1, h2⟩
      · rintro (⟨h1, h2⟩ | ⟨_, h2⟩)
        · exact ⟨h1, Or.inr h2⟩
        · exact ⟨hk, Or.inl h2⟩
    · rw [Function.update_noteq hk2]
      constructor
      · exact fun h1 => Or.inl h1
      · rintro (h1 | ⟨h1, _⟩)
        · exact h1
        · exact absurd h1 hk2
  · simp only [hk, not_false_eq_true, if_true, holds]
    by_cases hk2 : k2 = k
    · subst hk2
      rw [Function.update_same, PtrSet.mem_insert, mem_singleton_set]
      constructor
      · rintro ⟨_, h2⟩
        exact Or.inr ⟨rfl, h2⟩
      · rintro (⟨h1, _⟩ | ⟨_, h2⟩)
        · exact absurd h1 hk
        · exact ⟨Or.inl rfl, h2⟩
    · rw [Function.update_noteq hk2, PtrSet.mem_insert]
      constructor
      · rintro ⟨h1 | h1, h2⟩
        · exact absurd h1 hk2
        · exact Or.inl ⟨h1, h2⟩
      · rintro (⟨h1, h2⟩ | ⟨h1, _⟩)
        · exact ⟨Or.inr h1, h2⟩
        · exact absurd h1 hk2

theorem flatMap_update_perm (f : Nat → List Address) (k : Nat) (v : List Address) (p : Address)
    (hv : v.Perm (p :: f k)) (layers : List Nat) (hnd : layers.Nodup) (hk : k ∈ layers) :
    (layers.flatMap fun layer => Function.update f k v layer).Perm
      (p :: layers.flatMap f) := by
  induction layers with
  | nil => cases hk
  | cons a rest ih =>
    rw [List.flatMap_cons, List.flatMap_cons]
    have hnd2 := List.nodup_cons.mp hnd
    by_cases ha : a = k
    · subst ha
      rw [Function.update_same]
      have hrest : (rest.flatMap fun layer => Function.update f a v layer) = rest.flatMap f := by
        apply List.flatMap_congr
        intro x hx
        have hxa : x ≠ a := fun hxa => hnd2.1 (hxa ▸ hx)
        exact Function.update_noteq hxa _ _
      rw [hrest]
      exact List.Perm.append_right _ hv
    · rw [Function.update_noteq ha]
      have hk2 : k ∈ rest := by
        rcases List.mem_cons.mp hk with h | h
        · exact absurd h.symm ha
        · exact h
      exact (List.Perm.append_left _ (ih hnd2.2 hk2)).trans List.perm_middle

theorem put_caloHits (l : OrderedCaloHitList) (p : Address) (k : Nat)
    (h : ¬ l.holds k p) :
    (l.put p k).caloHits.Perm (p :: l.caloHits) := by
  rw [put_eq]
  by_cases hk : k ∈ l.layers
  · have hp : p ∉ l.hits k := fun hp => h ⟨hk, hp⟩
    simp only [hk, not_true_eq_false, if_false, caloHits]
    have hv : ((l.hits k).insert p).1.elems.Perm (p :: (l.hits k).elems) := by
      rw [PtrSet.insert_elems_of_not_mem _ _ hp]
      exact List.perm_orderedInsert _ _ _
    have hfun : (fun layer => (Function.update l.hits k ((l.hits k).insert p).1 layer).elems) =
        fun layer => Function.update (fun layer => (l.hits layer).elems) k
          ((l.hits k).insert p).1.elems layer := by
      funext layer
      by_cases hl : layer = k
      · subst hl
        rw [Function.update_same, Function.update_same]
      · rw [Function.update_noteq hl, Function.update_noteq hl]
    rw [hfun]
    exact flatMap_update_perm _ k _ p hv l.layers.elems l.layers.sorted.nodup hk
  · simp only [hk, not_false_eq_true, if_true, caloHits]
    have hlayers : (l.layers.insert k).1.elems.Perm (k :: l.layers.elems) := by
      rw [PtrSet.insert_elems_of_not_mem _ _ hk]
      exact List.perm_orderedInsert _ _ _
    refine (List.Perm.flatMap_right _ hlayers).trans ?_
    rw [List.flatMap_cons, Function.update_same]
    have hone : (PtrSet.empty.insert p).1.elems = [p] := rfl
    have hrest : (l.layers.elems.flatMap fun layer =>
        (Function.update l.hits k (PtrSet.empty.insert p).1 layer).elems) =
        l.layers.elems.flatMap fun layer => (l.hits layer).elems := by
      apply List.flatMap_congr
      intro x hx
      have hxk : x ≠ k := fun hxk => hk (hxk ▸ hx)
      rw [Function.update_noteq hxk]
    rw [hone, hrest]
    exact List.Perm.refl _

theorem merge_holds (g : Address → Nat) (ps : List Address) :
    ∀ (l : OrderedCaloHitList) (k2 : Nat) (p2 : Address),
      (merge g ps l).holds k2 p2 ↔ l.holds k2 p2 ∨ (p2 ∈ ps ∧ g p2 = k2) := by
  induction ps with
  | nil =>
    intro l k2 p2
    simp [merge]
  | cons p rest ih =>
    intro l k2 p2
    show (merge g rest (l.put p (g p))).holds k2 p2 ↔ _
    rw [ih, put_holds, List.mem_cons]
    constructor
    · rintro ((h1 | ⟨h1, h2⟩) | ⟨h1, h2⟩)
      · exact Or.inl h1
      · exact Or.inr ⟨Or.inl h2, h2 ▸ h1.symm⟩
      · exact Or.inr ⟨Or.inr h1, h2⟩
    · rintro (h1 | ⟨h1 | h1, h2⟩)
      · exact Or.inl (Or.inl h1)
      · exact Or.inl (Or.inr ⟨h1 ▸ h2.symm, h1⟩)
      · exact Or.inr ⟨h1, h2⟩

theorem merge_caloHits (g : Address → Nat) (ps : List Address) :
    ∀ l : OrderedCaloHitList, ps.Nodup → (∀ p ∈ ps, ¬ l.holds (g p) p) →
      (merge g ps l).caloHits.Perm (l.caloHits ++ ps) := by
  induction ps with
  | nil =>
    intro l _ _
    simp [merge]
  | cons p rest ih =>
    intro l hnd hnew
    have hnd2 := List.nodup_cons.mp hnd
    have hp := hnew p (List.mem_cons_self _ _)
    have hrest : ∀ q ∈ rest, ¬ (l.put p (g p)).holds (g q) q := by
      intro q hq hc
      rcases (put_holds l p (g p) (g q) q).mp hc with h1 | ⟨_, h2⟩
      · exact hnew q (List.mem_cons_of_mem _ hq) h1
      · exact hnd2.1 (h2 ▸ hq)
    show (merge g rest (l.put p (g p))).caloHits.Perm _
    refine (ih _ hnd2.2 hrest).trans ?_
    exact (List.Perm.append_right _ (put_caloHits l p (g p) hp)).trans
      List.perm_middle.symm

end OrderedCaloHitList

namespace ParticleFlowObject

theorem hitLoop_valid (objects : Objects) (hits : List Address) :
    ∀ acc : List Address, (∀ p ∈ hits, objects.isCaloHit p = true) →
      hitLoop objects hits acc =
        .returned (acc ++ hits.map objects.GetParentCaloHitAddress) := by
  induction hits with
  | nil =>
    intro acc _
    simp [hitLoop]
  | cons a rest ih =>
    intro acc h
    have ha := h a (List.mem_cons_self _ _)
    have := ih (acc ++ [objects.GetParentCaloHitAddress a])
      (fun x hx => h x (List.mem_cons_of_mem _ hx))
    simp only [hitLoop, ha, Bool.not_true, Bool.false_eq_true, if_false, this, List.map_cons,
      List.append_assoc, List.singleton_append]

theorem layerLoop_valid (objects : Objects) (l : OrderedCaloHitList) (layers : List Nat) :
    ∀ acc : List Address,
      (∀ layer ∈ layers, ∀ p ∈ (l.hits layer).elems, objects.isCaloHit p = true) →
      layerLoop objects l layers acc =
        .returned (acc ++ (layers.map fun layer =>
          (l.hits layer).elems.map objects.GetParentCaloHitAddress).flatten) := by
  induction layers with
  | nil =>
    intro acc _
    simp [layerLoop]
  | cons a rest ih =>
    intro acc h
    have ha := hitLoop_valid objects (l.hits a).elems acc (h a (List.mem_cons_self _ _))
    have := ih (acc ++ (l.hits a).elems.map objects.GetParentCaloHitAddress)
      (fun x hx => h x (List.mem_cons_of_mem _ hx))
    simp only [layerLoop, ha, this, List.map_cons, List.flatten_cons, List.append_assoc]

theorem clusterLoop_not_cluster (objects : Objects) (iter : Address) (iterRest : List Address)
    (acc : List (List Address)) (h : objects.isCluster iter = false) :
    clusterLoop objects (iter :: iterRest) acc = .undefined := by
  simp only [clusterLoop, h, Bool.not_false, if_true]

theorem clusterLoop_thrown (objects : Objects) (iter : Address) (iterRest : List Address)
    (acc : List (List Address)) (h : objects.isCluster iter = true)
    (hs : objects.mergeStatus iter ≠ STATUS_CODE_SUCCESS) :
    clusterLoop objects (iter :: iterRest) acc = .thrown (objects.mergeStatus iter) := by
  have hs2 : STATUS_CODE_SUCCESS ≠ objects.addStatus (objects.GetOrderedCaloHitList iter)
      (objects.GetIsolatedCaloHitList iter) := fun hc => hs hc.symm
  simp only [clusterLoop, h, Bool.not_true, Bool.false_eq_true, if_false,
    OrderedCaloHitList.Add, if_pos hs2]
  rfl

theorem clusterLoop_step (objects : Objects) (iter : Address) (iterRest : List Address)
    (acc : List (List Address)) (h : objects.sound iter)
    (hs : objects.mergeStatus iter = STATUS_CODE_SUCCESS) :
    clusterLoop objects (iter :: iterRest) acc =
      clusterLoop objects iterRest
        (acc ++ [(objects.layerGroups (objects.merged iter)).flatten]) := by
  have hs2 : ¬ STATUS_CODE_SUCCESS ≠ objects.addStatus (objects.GetOrderedCaloHitList iter)
      (objects.GetIsolatedCaloHitList iter) := not_not.mpr hs.symm
  have hl := layerLoop_valid objects (objects.merged iter) (objects.merged iter).layers.elems
    [] h.2
  rw [List.nil_append] at hl
  unfold Objects.merged at hl
  simp only [clusterLoop, h.1, Bool.not_true, Bool.false_eq_true, if_false,
    OrderedCaloHitList.Add, if_neg hs2, hl]
  rfl

theorem clusterLoop_prefix (objects : Objects) (pre : List Address) :
    ∀ (rest : List Address) (acc : List (List Address)),
      (∀ x ∈ pre, objects.sound x ∧ objects.mergeStatus x = STATUS_CODE_SUCCESS) →
      clusterLoop objects (pre ++ rest) acc =
        clusterLoop objects rest
          (acc ++ pre.map fun pCluster =>
            (objects.layerGroups (objects.merged pCluster)).flatten) := by
  induction pre with
  | nil =>
    intro rest acc _
    simp
  | cons a as ih =>
    intro rest acc h
    have ha := h a (List.mem_cons_self _ _)
    rw [List.cons_append, clusterLoop_step objects a _ acc ha.1 ha.2,
      ih rest _ (fun x hx => h x (List.mem_cons_of_mem _ hx)), List.map_cons,
      List.append_assoc]
    rfl

end ParticleFlowObject

/-! ## The order of the steps of a handler -/

theorem fieldCalls_keys (env : Env) (p : RecordPtr) (kind : ObjectKind) :
    (fieldCalls env p kind).map Call.xmlKey =
      (fieldTable (env.readUInt p "NLayers" 0).2 kind).map some := by
  cases kind
  case SubDetector =>
    by_cases hn : (env.readUInt p "NLayers" 0).2 > 0 <;>
      simp [fieldCalls, fieldTable, subDetectorScalarCalls, subDetectorSequenceCalls,
        decodeCall, Call.xmlKey, hn]
  all_goals simp [fieldCalls, fieldTable, decodeCall, Call.xmlKey]

/-- C21. For each of the six kinds of object record the handler first checks the recorded
container kind and, if it is not the kind's, returns failure without a call. Otherwise its
steps are the call of the extension factory of the kind on the default-constructed bundle
and then the decodes of the built-in fields, whose keys are those of the field table of the
kind in the order of the table. Either every step returns success and the handler goes on to
finish, or the handler makes the steps up to the first that returns another status,
returns that status, and makes no further call. -/
theorem handler_step_order (env : Env) (r : XmlFileReader) (kind : ObjectKind) :
    (kind.containerId ≠ r.m_containerId →
      XmlFileReader.handler kind env r = (STATUS_CODE_FAILURE, [])) ∧
    (kind.containerId = r.m_containerId →
      decodeSteps env r.m_pCurrentXmlElement kind =
        hookCall env r.m_pCurrentXmlElement kind :: fieldCalls env r.m_pCurrentXmlElement kind ∧
      (hookCall env r.m_pCurrentXmlElement kind).isFactoryRead = true ∧
      (fieldCalls env r.m_pCurrentXmlElement kind).map Call.xmlKey =
        (fieldTable (env.readUInt r.m_pCurrentXmlElement "NLayers" 0).2 kind).map some ∧
      (((∀ c ∈ decodeSteps env r.m_pCurrentXmlElement kind, c.status = STATUS_CODE_SUCCESS) ∧
          XmlFileReader.handler kind env r =
            ((finish env r.m_pCurrentXmlElement kind).1,
              decodeSteps env r.m_pCurrentXmlElement kind ++
                (finish env r.m_pCurrentXmlElement kind).2)) ∨
        ∃ pre c post, decodeSteps env r.m_pCurrentXmlElement kind = pre ++ c :: post ∧
          (∀ x ∈ pre, x.status = STATUS_CODE_SUCCESS) ∧ c.status ≠ STATUS_CODE_SUCCESS ∧
          XmlFileReader.handler kind env r = (c.status, pre ++ [c]))) := by
  refine ⟨?_, ?_⟩
  · intro h
    rw [XmlFileReader.objectHandler_eq, if_pos h]
  · intro h
    refine ⟨rfl, by cases kind <;> rfl, fieldCalls_keys env _ kind, ?_⟩
    rw [XmlFileReader.objectHandler_eq, if_neg (not_not.mpr h)]
    exact runSteps_cases _ _

/-- Witness of C21: on an MCParticle record without `Energy` the handler calls the factory,
then tries `Energy`, the first field of the table, and returns the status of that decode. -/
theorem handler_step_order_witness :
    (fieldCalls (sampleEnv STATUS_CODE_NOT_FOUND) [energylessMCParticle] .MCParticle).map
        Call.xmlKey =
      (["Energy", "Momentum", "Vertex", "Endpoint", "ParticleId", "MCParticleType",
        "Uid"].map some) ∧
    XmlFileReader.handler .MCParticle (sampleEnv STATUS_CODE_NOT_FOUND)
        (readerOn "Event" EVENT energylessMCParticle) =
      (STATUS_CODE_NOT_FOUND,
        [Call.factoryRead .MCParticle STATUS_CODE_SUCCESS,
          Call.readVariable "Energy" STATUS_CODE_NOT_FOUND]) ∧
    XmlFileReader.handler .MCParticle (sampleEnv STATUS_CODE_NOT_FOUND)
        (readerOn "Event" GEOMETRY energylessMCParticle) = (STATUS_CODE_FAILURE, []) :=
  ⟨((handler_step_order (sampleEnv STATUS_CODE_NOT_FOUND)
      (readerOn "Event" EVENT energylessMCParticle) .MCParticle).2 rfl).2.2.1,
    by decide,
    (handler_step_order (sampleEnv STATUS_CODE_NOT_FOUND)
      (readerOn "Event" GEOMETRY energylessMCParticle) .MCParticle).1 (by decide)⟩

/-! ## The construction call -/

theorem handler_of_success (env : Env) (r : XmlFileReader) (kind : ObjectKind)
    (hkind : kind.containerId = r.m_containerId)
    (hsteps : ∀ c ∈ decodeSteps env r.m_pCurrentXmlElement kind,
      c.status = STATUS_CODE_SUCCESS)
    (hlen : ¬ lengthCheckFails env r.m_pCurrentXmlElement kind) :
    XmlFileReader.handler kind env r =
      (env.create (bundle env r.m_pCurrentXmlElement kind),
        decodeSteps env r.m_pCurrentXmlElement kind ++
          [Call.create (bundle env r.m_pCurrentXmlElement kind)
            (env.create (bundle env r.m_pCurrentXmlElement kind))]) := by
  rw [XmlFileReader.objectHandler_eq, if_neg (not_not.mpr hkind),
    runSteps_of_success _ _ hsteps, finish_eq, if_neg hlen]
  rfl

/-- C22. For each of the six kinds of object record: when the recorded container kind is
the kind's, the extension factory and every field decode return success, and the length
check of a SubDetector with layers passes, the handler makes the construction call of the
kind once, after the decodes and with the bundle assembled from them, and returns the
status of that call, whatever it is. -/
theorem create_once_status_forwarded (env : Env) (r : XmlFileReader) (kind : ObjectKind)
    (hkind : kind.containerId = r.m_containerId)
    (hsteps : ∀ c ∈ decodeSteps env r.m_pCurrentXmlElement kind,
      c.status = STATUS_CODE_SUCCESS)
    (hlen : ¬ lengthCheckFails env r.m_pCurrentXmlElement kind) :
    XmlFileReader.handler kind env r =
      (env.create (bundle env r.m_pCurrentXmlElement kind),
        decodeSteps env r.m_pCurrentXmlElement kind ++
          [Call.create (bundle env r.m_pCurrentXmlElement kind)
            (env.create (bundle env r.m_pCurrentXmlElement kind))]) ∧
    (XmlFileReader.handler kind env r).2.filter Call.isCreate =
      [Call.create (bundle env r.m_pCurrentXmlElement kind)
        (env.create (bundle env r.m_pCurrentXmlElement kind))] ∧
    (bundle env r.m_pCurrentXmlElement kind).kind = kind := by
  have h := handler_of_success env r kind hkind hsteps hlen
  refine ⟨h, ?_, ?_⟩
  · rw [h, List.filter_append]
    have hnone : (decodeSteps env r.m_pCurrentXmlElement kind).filter Call.isCreate = [] := by
      rw [List.filter_eq_nil_iff]
      intro c hc
      rw [(decodeSteps_are_decodes env _ kind c hc).1]
      decide
    rw [hnone]
    rfl
  · cases kind
    case SubDetector =>
      show (if (env.readUInt r.m_pCurrentXmlElement "NLayers" 0).2 > 0 then
          Bundle.subDetector (subDetectorWithLayers env r.m_pCurrentXmlElement)
        else Bundle.subDetector (subDetectorScalars env r.m_pCurrentXmlElement)).kind =
        ObjectKind.SubDetector
      by_cases hn : (env.readUInt r.m_pCurrentXmlElement "NLayers" 0).2 > 0
      · rw [if_pos hn]
        rfl
      · rw [if_neg hn]
        rfl
    all_goals rfl

/-- Witness of C22: an MCParticle record that has all its fields, with a construction call
that reports "already present": the handler returns that status after one construction
call. -/
theorem create_once_status_forwarded_witness :
    (XmlFileReader.handler .MCParticle refusingEnv
      (readerOn "Event" EVENT sampleMCParticle)).1 = STATUS_CODE_ALREADY_PRESENT ∧
    ((XmlFileReader.handler .MCParticle refusingEnv
      (readerOn "Event" EVENT sampleMCParticle)).2.filter Call.isCreate).length = 1 :=
  ⟨congrArg Prod.fst (create_once_status_forwarded refusingEnv
      (readerOn "Event" EVENT sampleMCParticle) .MCParticle rfl (by decide) (by decide)).1,
    congrArg List.length (create_once_status_forwarded refusingEnv
      (readerOn "Event" EVENT sampleMCParticle) .MCParticle rfl (by decide) (by decide)).2.1⟩

/-! ## The layer list of a SubDetector -/

theorem layerParametersList_length (cs rs ls : List FloatBits) (n : Nat) :
    (XmlFileReader.layerParametersList cs rs ls n).length = n := by
  simp [XmlFileReader.layerParametersList]

theorem layerParametersList_entry (cs rs ls : List FloatBits) (n i : Nat) (a b c : FloatBits)
    (hi : i < n) (ha : cs[i]? = some a) (hb : rs[i]? = some b) (hc : ls[i]? = some c) :
    (XmlFileReader.layerParametersList cs rs ls n)[i]? = some ⟨a, b, c⟩ := by
  simp [XmlFileReader.layerParametersList, List.getD, ha, hb, hc, hi]

theorem subDetector_steps_success (env : Env) (p : RecordPtr)
    (hhook : (env.subDetectorFactoryRead p default).1 = STATUS_CODE_SUCCESS)
    (hscalars : ∀ c ∈ subDetectorScalarCalls env p, c.status = STATUS_CODE_SUCCESS)
    (hseq : (env.readUInt p "NLayers" 0).2 > 0 →
      ∀ c ∈ subDetectorSequenceCalls env p, c.status = STATUS_CODE_SUCCESS) :
    ∀ c ∈ decodeSteps env p .SubDetector, c.status = STATUS_CODE_SUCCESS := by
  intro c hc
  rcases List.mem_cons.mp hc with h | h
  · rw [h]
    exact hhook
  · rcases List.mem_append.mp h with h | h
    · exact hscalars c h
    · by_cases hn : (env.readUInt p "NLayers" 0).2 > 0
      · rw [if_pos hn] at h
        exact hseq hn c h
      · rw [if_neg hn] at h
        cases h

/-- C23, as the code has it. For a SubDetector record handled with `GEOMETRY` recorded, whose
factory call and twelve scalar decodes return success. If the decoded `NLayers` is zero,
the calls made are the factory call, the twelve scalar decodes and the construction call,
so none of the three layer sequences is decoded, and the layer list of the bundle
constructed is the one the factory left in the bundle. If the decoded `NLayers` is `n > 0`
and the three sequences decode with success and have `n` entries each, the layer list of
the bundle constructed is the one the factory left followed by `n` entries, of which entry
`i` holds entry `i` of each of the three sequences. -/
theorem subDetector_layers (env : Env) (r : XmlFileReader)
    (hkind : r.m_containerId = GEOMETRY)
    (hhook : (env.subDetectorFactoryRead r.m_pCurrentXmlElement default).1 =
      STATUS_CODE_SUCCESS)
    (hscalars : ∀ c ∈ subDetectorScalarCalls env r.m_pCurrentXmlElement,
      c.status = STATUS_CODE_SUCCESS) :
    ((env.readUInt r.m_pCurrentXmlElement "NLayers" 0).2 = 0 →
      XmlFileReader.ReadSubDetector env r =
        (env.create (.subDetector (subDetectorScalars env r.m_pCurrentXmlElement)),
          hookCall env r.m_pCurrentXmlElement .SubDetector ::
            subDetectorScalarCalls env r.m_pCurrentXmlElement ++
            [Call.create (.subDetector (subDetectorScalars env r.m_pCurrentXmlElement))
              (env.create (.subDetector (subDetectorScalars env r.m_pCurrentXmlElement)))]) ∧
      (∀ c ∈ (XmlFileReader.ReadSubDetector env r).2,
        c.xmlKey ≠ some "ClosestDistanceToIp" ∧ c.xmlKey ≠ some "NRadiationLengths" ∧
          c.xmlKey ≠ some "NInteractionLengths") ∧
      (subDetectorScalars env r.m_pCurrentXmlElement).m_layerParametersList =
        (env.subDetectorFactoryRead r.m_pCurrentXmlElement default).2.m_layerParametersList) ∧
    (∀ n, (env.readUInt r.m_pCurrentXmlElement "NLayers" 0).2 = n → n > 0 →
      (∀ c ∈ subDetectorSequenceCalls env r.m_pCurrentXmlElement,
        c.status = STATUS_CODE_SUCCESS) →
      (env.readFloatVector r.m_pCurrentXmlElement "ClosestDistanceToIp" []).2.length = n →
      (env.readFloatVector r.m_pCurrentXmlElement "NRadiationLengths" []).2.length = n →
      (env.readFloatVector r.m_pCurrentXmlElement "NInteractionLengths" []).2.length = n →
      (XmlFileReader.ReadSubDetector env r).1 =
        env.create (.subDetector (subDetectorWithLayers env r.m_pCurrentXmlElement)) ∧
      (XmlFileReader.ReadSubDetector env r).2.filter Call.isCreate =
        [Call.create (.subDetector (subDetectorWithLayers env r.m_pCurrentXmlElement))
          (env.create (.subDetector (subDetectorWithLayers env r.m_pCurrentXmlElement)))] ∧
      ∃ layers, (subDetectorWithLayers env r.m_pCurrentXmlElement).m_layerParametersList =
          (env.subDetectorFactoryRead r.m_pCurrentXmlElement default).2.m_layerParametersList ++
            layers ∧
        layers.length = n ∧
        ∀ (i : Nat) (a b c : FloatBits),
          (env.readFloatVector r.m_pCurrentXmlElement "ClosestDistanceToIp" []).2[i]? = some a →
          (env.readFloatVector r.m_pCurrentXmlElement "NRadiationLengths" []).2[i]? = some b →
          (env.readFloatVector r.m_pCurrentXmlElement "NInteractionLengths" []).2[i]? = some c →
          layers[i]? = some (LayerParameters.mk a b c)) := by
  have hk : ObjectKind.SubDetector.containerId = r.m_containerId := hkind.symm
  refine ⟨?_, ?_⟩
  · intro h0
    have hn : ¬ (env.readUInt r.m_pCurrentXmlElement "NLayers" 0).2 > 0 := by omega
    have hsteps := subDetector_steps_success env r.m_pCurrentXmlElement hhook hscalars
      (fun h => absurd h hn)
    have hlen : ¬ lengthCheckFails env r.m_pCurrentXmlElement .SubDetector :=
      fun h => hn h.1
    have h := handler_of_success env r .SubDetector hk hsteps hlen
    have hb : bundle env r.m_pCurrentXmlElement .SubDetector =
        .subDetector (subDetectorScalars env r.m_pCurrentXmlElement) := by
      show (if (env.readUInt r.m_pCurrentXmlElement "NLayers" 0).2 > 0 then _ else _) = _
      rw [if_neg hn]
    have hd : decodeSteps env r.m_pCurrentXmlElement .SubDetector =
        hookCall env r.m_pCurrentXmlElement .SubDetector ::
          subDetectorScalarCalls env r.m_pCurrentXmlElement := by
      show _ :: (_ ++ if (env.readUInt r.m_pCurrentXmlElement "NLayers" 0).2 > 0 then _
        else _) = _
      rw [if_neg hn, List.append_nil]
    rw [hb, hd] at h
    have h2 : XmlFileReader.ReadSubDetector env r = _ := h
    refine ⟨h2, ?_, rfl⟩
    rw [h2]
    intro c hc
    simp only [hookCall, subDetectorScalarCalls, decodeCall, List.cons_append,
      List.nil_append, List.mem_cons, List.mem_singleton, List.not_mem_nil, or_false] at hc
    rcases hc with h | h | h | h | h | h | h | h | h | h | h | h | h | h <;>
      (rw [h]; simp [Call.xmlKey])
  · intro n hn hpos hseq h1 h2 h3
    have hgt : (env.readUInt r.m_pCurrentXmlElement "NLayers" 0).2 > 0 := by omega
    have hsteps := subDetector_steps_success env r.m_pCurrentXmlElement hhook hscalars
      (fun _ => hseq)
    have hlen : ¬ lengthCheckFails env r.m_pCurrentXmlElement .SubDetector := by
      rintro ⟨_, h | h | h⟩
      · exact h (h1.trans hn.symm)
      · exact h (h2.trans hn.symm)
      · exact h (h3.trans hn.symm)
    have h := handler_of_success env r .SubDetector hk hsteps hlen
    have hb : bundle env r.m_pCurrentXmlElement .SubDetector =
        .subDetector (subDetectorWithLayers env r.m_pCurrentXmlElement) := by
      show (if (env.readUInt r.m_pCurrentXmlElement "NLayers" 0).2 > 0 then _ else _) = _
      rw [if_pos hgt]
    rw [hb] at h
    have h4 : XmlFileReader.ReadSubDetector env r = _ := h
    refine ⟨by rw [h4], ?_, ?_⟩
    · rw [h4, List.filter_append]
      have hnone : (decodeSteps env r.m_pCurrentXmlElement .SubDetector).filter
          Call.isCreate = [] := by
        rw [List.filter_eq_nil_iff]
        intro c hc
        rw [(decodeSteps_are_decodes env _ .SubDetector c hc).1]
        decide
      rw [hnone]
      rfl
    · refine ⟨XmlFileReader.layerParametersList
        (env.readFloatVector r.m_pCurrentXmlElement "ClosestDistanceToIp" []).2
        (env.readFloatVector r.m_pCurrentXmlElement "NRadiationLengths" []).2
        (env.readFloatVector r.m_pCurrentXmlElement "NInteractionLengths" []).2 n, ?_, ?_, ?_⟩
      · rw [← hn]
        rfl
      · exact layerParametersList_length _ _ _ n
      · intro i a b c ha hb2 hc
        have hi : i < n := by
          rw [← h1]
          exact (List.getElem?_eq_some_iff.mp ha).1
        exact layerParametersList_entry _ _ _ n i a b c hi ha hb2 hc

/-- Witness of C23 as amended: a record that declares two layers, with the sample
collaborators: the bundle constructed has the two layers of the sequences. -/
theorem subDetector_layers_witness :
    (XmlFileReader.ReadSubDetector (sampleEnv STATUS_CODE_NOT_FOUND)
      (readerOn "Geometry" GEOMETRY layeredSubDetector)).1 = STATUS_CODE_SUCCESS ∧
    (subDetectorWithLayers (sampleEnv STATUS_CODE_NOT_FOUND)
      [layeredSubDetector]).m_layerParametersList = [⟨1, 3, 5⟩, ⟨2, 4, 6⟩] ∧
    (XmlFileReader.ReadSubDetector (sampleEnv STATUS_CODE_NOT_FOUND)
      (readerOn "Geometry" GEOMETRY sampleSubDetector)) =
      (STATUS_CODE_SUCCESS,
        hookCall (sampleEnv STATUS_CODE_NOT_FOUND) [sampleSubDetector] .SubDetector ::
          subDetectorScalarCalls (sampleEnv STATUS_CODE_NOT_FOUND) [sampleSubDetector] ++
          [Call.create (.subDetector (subDetectorScalars (sampleEnv STATUS_CODE_NOT_FOUND)
            [sampleSubDetector])) STATUS_CODE_SUCCESS]) :=
  ⟨((subDetector_layers (sampleEnv STATUS_CODE_NOT_FOUND)
      (readerOn "Geometry" GEOMETRY layeredSubDetector) rfl (by decide) (by decide)).2 2
      (by decide) (by decide) (by decide) (by decide) (by decide) (by decide)).1,
    by decide,
    ((subDetector_layers (sampleEnv STATUS_CODE_NOT_FOUND)
      (readerOn "Geometry" GEOMETRY sampleSubDetector) rfl (by decide) (by decide)).1
      (by decide)).1⟩

/-- Counterexample to C23 as stated: a SubDetector record whose twelve scalar fields decode
with success and whose `NLayers` is zero, handled with an extension factory that has put
one layer in the bundle. The bundle handed to the construction call has that layer in its
layer list. -/
theorem subDetector_hook_layer_kept :
    (∀ c ∈ subDetectorScalarCalls layeringEnv [sampleSubDetector],
      c.status = STATUS_CODE_SUCCESS) ∧
    (layeringEnv.readUInt [sampleSubDetector] "NLayers" 0).2 = 0 ∧
    (XmlFileReader.ReadSubDetector layeringEnv
      (readerOn "Geometry" GEOMETRY sampleSubDetector)).2.getLast? =
      some (Call.create (.subDetector (subDetectorScalars layeringEnv [sampleSubDetector]))
        STATUS_CODE_SUCCESS) ∧
    (subDetectorScalars layeringEnv [sampleSubDetector]).m_layerParametersList =
      [⟨7, 8, 9⟩] := by
  decide

/-! ## Reading a container to its end -/

namespace XmlFileReader

theorem readNextOf_eq (containerId : ContainerId) (env : Env) (r : XmlFileReader) :
    readNextOf containerId env r =
      if (advanceRecord r).m_pCurrentXmlElement = [] then containerExhausted (advanceRecord r)
      else dispatchOf containerId env (advanceRecord r) := by
  unfold readNextOf dispatchOf
  by_cases h : containerId = GEOMETRY
  · rw [if_pos h, if_pos h]
    rfl
  · rw [if_neg h, if_neg h]
    rfl

theorem dispatchOf_reader (containerId : ContainerId) (env : Env) (r : XmlFileReader) :
    (dispatchOf containerId env r).reader = r := by
  unfold dispatchOf
  by_cases h : containerId = GEOMETRY
  · rw [if_pos h]
    unfold dispatchGeometryComponent
    dsimp only
    repeat (first | rfl | split)
  · rw [if_neg h]
    unfold dispatchEventComponent
    dsimp only
    repeat (first | rfl | split)

theorem dispatchOf_kind (kind : RecordKind) (env : Env) (r : XmlFileReader)
    (hname : r.m_pCurrentXmlElement.ValueStr = kind.componentName) :
    dispatchOf kind.containerId env r = returnHandler r (kind.handler env r) := by
  cases kind with
  | object k =>
    cases k <;>
      simp [dispatchOf, RecordKind.containerId, ObjectKind.containerId,
        RecordKind.componentName, ObjectKind.componentName, dispatchGeometryComponent,
        dispatchEventComponent, RecordKind.handler, XmlFileReader.handler, hname] at hname ⊢
  | relationship =>
    simp [dispatchOf, RecordKind.containerId, RecordKind.componentName,
      dispatchEventComponent, RecordKind.handler, hname] at hname ⊢

theorem dispatchOf_wellFormed (containerId : ContainerId) (env : Env) (r : XmlFileReader)
    (hrec : r.m_containerId = containerId)
    (hwf : wellFormed env containerId r.m_pCurrentXmlElement) :
    (dispatchOf containerId env r).outcome = .returned STATUS_CODE_SUCCESS ∧
    ∃ kind : RecordKind, r.m_pCurrentXmlElement.ValueStr = kind.componentName ∧
      (dispatchOf containerId env r).calls =
        kind.steps env r.m_pCurrentXmlElement ++ (kind.finish env r.m_pCurrentXmlElement).2 := by
  obtain ⟨kind, hk, hname, hsteps, hfin⟩ := hwf
  have hd := dispatchOf_kind kind env r hname
  rw [hk] at hd
  have hh : kind.handler env r =
      ((kind.finish env r.m_pCurrentXmlElement).1,
        kind.steps env r.m_pCurrentXmlElement ++ (kind.finish env r.m_pCurrentXmlElement).2) := by
    rw [RecordKind.handler_eq, if_neg (not_not.mpr (hk.trans hrec.symm)),
      runSteps_of_success _ _ hsteps]
  rw [hd, hh, hfin]
  exact ⟨rfl, kind, hname, rfl⟩

theorem advanceRecord_on (r : XmlFileReader) (c : RecordNode) (cs : RecordPtr)
    (h : r.m_pCurrentXmlElement = c :: cs) :
    advanceRecord r =
      { r with m_pCurrentXmlElement := cs.dropWhile fun n => !n.isElement } := by
  unfold advanceRecord
  rw [if_neg (by rw [h]; exact List.cons_ne_nil _ _), h]
  rfl

theorem containerExhausted_moves (r : XmlFileReader) (node : ContainerNode)
    (rest : ContainerPtr) (hflag : r.m_isAtFileStart = false)
    (hptr : r.m_pContainerXmlNode = node :: rest) :
    containerExhausted r =
      ⟨.returned STATUS_CODE_NOT_FOUND,
        { r with m_pContainerXmlNode := rest, m_pCurrentXmlElement := [] }, []⟩ := by
  have h : GoToNextContainer r =
      (.returned STATUS_CODE_SUCCESS,
        { r with m_pContainerXmlNode := rest, m_pCurrentXmlElement := [] }) := by
    simp [GoToNextContainer, hflag, hptr, ContainerPtr.NextSibling]
  unfold containerExhausted
  rw [h]

end XmlFileReader

theorem recordPositions_ne_nil (cs : RecordPtr) : ∀ p ∈ recordPositions cs, p ≠ [] := by
  induction cs with
  | nil =>
    intro p hp
    cases hp
  | cons c rest ih =>
    intro p hp
    unfold recordPositions at hp
    split at hp
    · rcases List.mem_cons.mp hp with h | h
      · rw [h]
        exact List.cons_ne_nil _ _
      · exact ih p h
    · exact ih p hp

theorem recordPositions_heads (cs : RecordPtr) :
    (recordPositions cs).map List.head? = (cs.filter fun n => n.isElement).map some := by
  induction cs with
  | nil => rfl
  | cons c rest ih =>
    unfold recordPositions
    by_cases h : c.isElement = true
    · rw [if_pos h, List.filter_cons_of_pos h, List.map_cons, List.map_cons, ih]
      rfl
    · rw [if_neg h, List.filter_cons_of_neg h, ih]

namespace XmlFileReader

theorem readMany_walk (containerId : ContainerId) (env : Env) (node : ContainerNode)
    (rest : ContainerPtr) (cs : RecordPtr) :
    ∀ (r : XmlFileReader) (c : RecordNode), r.m_pCurrentXmlElement = c :: cs →
      r.m_isAtFileStart = false → r.m_pContainerXmlNode = node :: rest →
      readMany (readNextOf containerId env) ((recordPositions cs).length + 1) r =
        (recordPositions cs).map (fun p =>
          dispatchOf containerId env { r with m_pCurrentXmlElement := p }) ++
        [⟨.returned STATUS_CODE_NOT_FOUND,
          { r with m_pContainerXmlNode := rest, m_pCurrentXmlElement := [] }, []⟩] := by
  induction cs with
  | nil =>
    intro r c hcur hflag hptr
    have hadv := advanceRecord_on r c [] hcur
    have hnil : (advanceRecord r).m_pCurrentXmlElement = [] := by rw [hadv]; rfl
    have hread : readNextOf containerId env r = containerExhausted (advanceRecord r) := by
      rw [readNextOf_eq, if_pos hnil]
    have hex := containerExhausted_moves (advanceRecord r) node rest
      (by rw [hadv]; exact hflag) (by rw [hadv]; exact hptr)
    simp only [recordPositions, List.length_nil, List.map_nil, List.nil_append, readMany]
    rw [hread, hex, hadv]
  | cons d ds ih =>
    intro r c hcur hflag hptr
    have hadv := advanceRecord_on r c (d :: ds) hcur
    by_cases hd : d.isElement = true
    · have hdrop : (d :: ds).dropWhile (fun n => !n.isElement) = d :: ds := by
        simp [List.dropWhile, hd]
      rw [hdrop] at hadv
      have hne : (advanceRecord r).m_pCurrentXmlElement ≠ [] := by
        rw [hadv]
        exact List.cons_ne_nil _ _
      have hread : readNextOf containerId env r =
          dispatchOf containerId env { r with m_pCurrentXmlElement := d :: ds } := by
        rw [readNextOf_eq, if_neg hne, hadv]
      have hreader : (readNextOf containerId env r).reader =
          { r with m_pCurrentXmlElement := d :: ds } := by
        rw [hread, dispatchOf_reader]
      have hpos : recordPositions (d :: ds) = (d :: ds) :: recordPositions ds := by
        rw [recordPositions, if_pos hd]
      rw [hpos, List.length_cons, readMany, hreader,
        ih { r with m_pCurrentXmlElement := d :: ds } d rfl hflag hptr, hread]
      rfl
    · have hpos : recordPositions (d :: ds) = recordPositions ds := by
        rw [recordPositions, if_neg hd]
      have hsame : advanceRecord r =
          advanceRecord { r with m_pCurrentXmlElement := d :: ds } := by
        rw [hadv, advanceRecord_on { r with m_pCurrentXmlElement := d :: ds } d ds rfl]
        simp [List.dropWhile, hd]
      have hread : readNextOf containerId env r =
          readNextOf containerId env { r with m_pCurrentXmlElement := d :: ds } := by
        rw [readNextOf_eq, readNextOf_eq, hsame]
      have hmany : readMany (readNextOf containerId env) ((recordPositions ds).length + 1) r =
          readMany (readNextOf containerId env) ((recordPositions ds).length + 1)
            { r with m_pCurrentXmlElement := d :: ds } := by
        show readNextOf containerId env r :: _ = readNextOf containerId env _ :: _
        rw [hread]
      rw [hpos, hmany, ih { r with m_pCurrentXmlElement := d :: ds } d rfl hflag hptr]

theorem advanceRecord_enter (r : XmlFileReader) (node : ContainerNode) (rest : ContainerPtr)
    (hptr : r.m_pContainerXmlNode = node :: rest) (hcur : r.m_pCurrentXmlElement = []) :
    advanceRecord r =
      { r with m_pCurrentXmlElement :=
        match node.children with
        | [] => []
        | child :: children => if child.isElement then child :: children else [] } := by
  unfold advanceRecord
  rw [if_pos hcur, hptr]
  rfl

/-- C24, as the code has it. The reader is on a container, not at the stream start, with
the record cursor unset and the kind of the container recorded, and the first child node of
the container, if it has one, is an element. Then as many successive calls of the matching
read-next operation as the container has child elements dispatch on these elements, one
after the other in document order, each once, and the call after them makes no call to a
collaborator, returns "not found", moves the container cursor to the next sibling and
leaves the record cursor unset. If every child element is well formed and of a kind valid
for the container, each of the calls that dispatch returns success with the calls of the
handler of the record's kind. -/
theorem read_all_records (env : Env) (containerId : ContainerId) (r : XmlFileReader)
    (node : ContainerNode) (rest : ContainerPtr)
    (hflag : r.m_isAtFileStart = false) (hptr : r.m_pContainerXmlNode = node :: rest)
    (hcur : r.m_pCurrentXmlElement = []) (hrec : r.m_containerId = containerId)
    (hfirst : ∀ child children, node.children = child :: children → child.isElement = true)
    (hwf : ∀ p ∈ recordPositions node.children, wellFormed env containerId p) :
    readMany (readNextOf containerId env) ((recordPositions node.children).length + 1) r =
      (recordPositions node.children).map (fun p =>
        dispatchOf containerId env { r with m_pCurrentXmlElement := p }) ++
      [⟨.returned STATUS_CODE_NOT_FOUND,
        { r with m_pContainerXmlNode := rest, m_pCurrentXmlElement := [] }, []⟩] ∧
    (recordPositions node.children).map List.head? =
      (node.children.filter fun n => n.isElement).map some ∧
    (recordPositions node.children).length =
      (node.children.filter fun n => n.isElement).length ∧
    ∀ p ∈ recordPositions node.children,
      (dispatchOf containerId env { r with m_pCurrentXmlElement := p }).outcome =
        .returned STATUS_CODE_SUCCESS ∧
      (dispatchOf containerId env { r with m_pCurrentXmlElement := p }).reader =
        { r with m_pCurrentXmlElement := p } ∧
      ∃ kind : RecordKind, p.ValueStr = kind.componentName ∧
        (dispatchOf containerId env { r with m_pCurrentXmlElement := p }).calls =
          kind.steps env p ++ (kind.finish env p).2 := by
  have hheads := recordPositions_heads node.children
  refine ⟨?_, hheads, ?_, ?_⟩
  · have hadv := advanceRecord_enter r node rest hptr hcur
    cases hch : node.children with
    | nil =>
      rw [hch] at hadv
      have hnil : (advanceRecord r).m_pCurrentXmlElement = [] := by rw [hadv]
      have hread : readNextOf containerId env r = containerExhausted (advanceRecord r) := by
        rw [readNextOf_eq, if_pos hnil]
      have hex := containerExhausted_moves (advanceRecord r) node rest
        (by rw [hadv]; exact hflag) (by rw [hadv]; exact hptr)
      simp only [recordPositions, List.length_nil, List.map_nil, List.nil_append, readMany]
      rw [hread, hex, hadv]
    | cons c cs =>
      have hc := hfirst c cs hch
      rw [hch] at hadv
      simp only [hc, if_true] at hadv
      have hne : (advanceRecord r).m_pCurrentXmlElement ≠ [] := by
        rw [hadv]
        exact List.cons_ne_nil _ _
      have hread : readNextOf containerId env r =
          dispatchOf containerId env { r with m_pCurrentXmlElement := c :: cs } := by
        rw [readNextOf_eq, if_neg hne, hadv]
      have hreader : (readNextOf containerId env r).reader =
          { r with m_pCurrentXmlElement := c :: cs } := by
        rw [hread, dispatchOf_reader]
      have hpos : recordPositions (c :: cs) = (c :: cs) :: recordPositions cs := by
        rw [recordPositions, if_pos hc]
      rw [hpos, List.length_cons, readMany, hreader,
        readMany_walk containerId env node rest cs
          { r with m_pCurrentXmlElement := c :: cs } c rfl hflag hptr, hread]
      rfl
  · have h := congrArg List.length hheads
    rw [List.length_map, List.length_map] at h
    exact h
  · intro p hp
    have hd := dispatchOf_wellFormed containerId env { r with m_pCurrentXmlElement := p }
      hrec (hwf p hp)
    exact ⟨hd.1, dispatchOf_reader _ _ _, hd.2⟩

/-- Witness of C24: an Event container with an MCParticle record, a comment and a
Relationship record, followed by a Geometry container. Two calls return success, the third
returns "not found" and leaves the reader on the Geometry container. -/
theorem read_all_records_witness :
    (readMany (readNextOf EVENT (sampleEnv STATUS_CODE_NOT_FOUND)) 3
      (readerAfterHeader twoRecordDocument)).map (fun res => res.outcome) =
      [.returned STATUS_CODE_SUCCESS, .returned STATUS_CODE_SUCCESS,
        .returned STATUS_CODE_NOT_FOUND] ∧
    readMany (readNextOf EVENT (sampleEnv STATUS_CODE_NOT_FOUND)) 3
        (readerAfterHeader twoRecordDocument) =
      [[sampleMCParticle, .other "a note", sampleRelationship "1"],
          [sampleRelationship "1"]].map (fun p =>
        dispatchOf EVENT (sampleEnv STATUS_CODE_NOT_FOUND)
          { readerAfterHeader twoRecordDocument with m_pCurrentXmlElement := p }) ++
      [⟨.returned STATUS_CODE_NOT_FOUND,
        { readerAfterHeader twoRecordDocument with
          m_pContainerXmlNode := [.element "Geometry" []], m_pCurrentXmlElement := [] },
        []⟩] := by
  refine ⟨by decide, ?_⟩
  have hwf : ∀ p ∈ recordPositions
      (ContainerNode.element "Event"
        [sampleMCParticle, .other "a note", sampleRelationship "1"]).children,
      wellFormed (sampleEnv STATUS_CODE_NOT_FOUND) EVENT p := by
    intro p hp
    have hp2 : p = [sampleMCParticle, .other "a note", sampleRelationship "1"] ∨
        p = [sampleRelationship "1"] := by
      simpa [recordPositions, ContainerNode.children, sampleMCParticle, sampleRelationship,
        RecordNode.isElement] using hp
    rcases hp2 with h | h
    · rw [h]
      exact ⟨.object .MCParticle, rfl, rfl, by decide, by decide⟩
    · rw [h]
      exact ⟨.relationship, rfl, rfl, by decide, by decide⟩
  exact (read_all_records (sampleEnv STATUS_CODE_NOT_FOUND) EVENT
    (readerAfterHeader twoRecordDocument)
    (.element "Event" [sampleMCParticle, .other "a note", sampleRelationship "1"])
    [.element "Geometry" []] rfl rfl rfl rfl
    (fun child children h => by cases h; rfl) hwf).1

/-- The code at a failing input of C24: an Event container whose first child node is a
comment, followed by an MCParticle record that its handler reads with success. After the
header of the container is read with success, the first `ReadNextEventComponent` makes no
call, returns "not found" and leaves the reader on the next container: the record is never
handled. -/
theorem leading_comment_skips_container :
    (ReadHeader (GoToNextContainer
      (construct noteFirstDocument UNKNOWN_CONTAINER)).2).1 = STATUS_CODE_SUCCESS ∧
    (ReadMCParticle (sampleEnv STATUS_CODE_NOT_FOUND)
      (readerOn "Event" EVENT sampleMCParticle)).1 = STATUS_CODE_SUCCESS ∧
    ReadNextEventComponent (sampleEnv STATUS_CODE_NOT_FOUND)
        (readerAfterHeader noteFirstDocument) =
      ⟨.returned STATUS_CODE_NOT_FOUND,
        { m_pXmlDocument := noteFirstDocument, m_containerId := EVENT,
          m_pContainerXmlNode := [.element "Geometry" []], m_pCurrentXmlElement := [],
          m_isAtFileStart := false }, []⟩ := by
  decide

end XmlFileReader

/-! ## The number of advances of a seek -/

namespace XmlFileReader

theorem goToLoopCounted_erase (g : XmlFileReader → Option (Outcome × XmlFileReader))
    (target : Int) (fuel : Nat) :
    ∀ (nRead : Int) (nCalls : Nat) (r : XmlFileReader),
      (goToLoopCounted g target fuel nRead nCalls r).map (fun x => (x.1, x.2.1)) =
        goToLoop g target fuel nRead r := by
  induction fuel with
  | zero =>
    intro nRead nCalls r
    unfold goToLoopCounted goToLoop
    split <;> rfl
  | succ fuel ih =>
    intro nRead nCalls r
    unfold goToLoopCounted goToLoop
    by_cases h : nRead < target
    · rw [if_pos h, if_pos h]
      cases hg : g r with
      | none => rfl
      | some res =>
        simp only
        by_cases hs : res.1 ≠ .returned STATUS_CODE_SUCCESS
        · rw [if_pos hs, if_pos hs]
          rfl
        · rw [if_neg hs, if_neg hs]
          exact ih _ _ _
    · rw [if_neg h, if_neg h]
      rfl

theorem goToLoopCounted_count (g : XmlFileReader → Option (Outcome × XmlFileReader))
    (target : Int) (fuel : Nat) :
    ∀ (nRead : Int) (nCalls : Nat) (r r2 : XmlFileReader) (k : Nat),
      goToLoopCounted g target fuel nRead nCalls r =
        some (.returned STATUS_CODE_SUCCESS, r2, k) →
      (k : Int) = nCalls + (target - nRead).toNat := by
  induction fuel with
  | zero =>
    intro nRead nCalls r r2 k h
    unfold goToLoopCounted at h
    split at h
    · cases h
    · rename_i hlt
      cases h
      have : (target - nRead).toNat = 0 := by omega
      omega
  | succ fuel ih =>
    intro nRead nCalls r r2 k h
    unfold goToLoopCounted at h
    by_cases hlt : nRead < target
    · rw [if_pos hlt] at h
      cases hg : g r with
      | none =>
        rw [hg] at h
        cases h
      | some res =>
        rw [hg] at h
        simp only at h
        by_cases hs : res.1 ≠ .returned STATUS_CODE_SUCCESS
        · rw [if_pos hs] at h
          have h1 := congrArg (fun x => x.1) (Option.some.inj h)
          exact absurd h1 hs
        · rw [if_neg hs] at h
          have := ih _ _ _ _ _ h
          omega
    · rw [if_neg hlt] at h
      cases h
      have : (target - nRead).toNat = 0 := by omega
      omega

theorem GoToEventCounted_erase (n : Nat) (r : XmlFileReader) :
    (GoToEventCounted n r).map (fun x => (x.1, x.2.1)) = GoToEvent n r :=
  goToLoopCounted_erase _ _ _ _ _ _

theorem GoToGeometryCounted_erase (n : Nat) (r : XmlFileReader) :
    (GoToGeometryCounted n r).map (fun x => (x.1, x.2.1)) = GoToGeometry n r :=
  goToLoopCounted_erase _ _ _ _ _ _

/-- C25, as the code has it. `GoToEvent` and `GoToGeometry` unset the container cursor
before they look at the kind of the next container, so that kind is unknown in every case
and the counter starts at minus one. When the call returns success for `n` below `2^31`,
the advance to the next container of the kind has been called `n + 1` times, whether or
not the first container of the stream is of the kind. The count is that of the calls made by
`GoToEvent` and `GoToGeometry` themselves. -/
theorem seek_advance_count (r r2 : XmlFileReader) (n k : Nat) (hn : n < 2 ^ 31) :
    (GoToEventCounted n r = some (.returned STATUS_CODE_SUCCESS, r2, k) → k = n + 1) ∧
    (GoToGeometryCounted n r = some (.returned STATUS_CODE_SUCCESS, r2, k) → k = n + 1) ∧
    (GoToEventCounted n r).map (fun x => (x.1, x.2.1)) = GoToEvent n r ∧
    (GoToGeometryCounted n r).map (fun x => (x.1, x.2.1)) = GoToGeometry n r ∧
    r.rewound.GetNextContainerId = UNKNOWN_CONTAINER := by
  have hu : r.rewound.GetNextContainerId = UNKNOWN_CONTAINER :=
    GetNextContainerId_nil _ rfl
  have ht := toInt_of_lt n hn
  refine ⟨?_, ?_, GoToEventCounted_erase n r, GoToGeometryCounted_erase n r, hu⟩
  · intro h
    have hstart : (if EVENT ≠ r.rewound.GetNextContainerId then (0 : Int) - 1 else 0) = -1 := by
      rw [hu]
      decide
    have h2 : goToLoopCounted GoToNextEvent (toInt n) (toInt n - (-1)).toNat (-1) 0 r.rewound =
        some (.returned STATUS_CODE_SUCCESS, r2, k) := by
      rw [← hstart]
      exact h
    have h3 := goToLoopCounted_count _ _ _ _ _ _ _ _ h2
    rw [ht] at h3
    omega
  · intro h
    have hstart : (if GEOMETRY ≠ r.rewound.GetNextContainerId then (0 : Int) - 1 else 0) =
        -1 := by
      rw [hu]
      decide
    have h2 : goToLoopCounted GoToNextGeometry (toInt n) (toInt n - (-1)).toNat (-1) 0
        r.rewound = some (.returned STATUS_CODE_SUCCESS, r2, k) := by
      rw [← hstart]
      exact h
    have h3 := goToLoopCounted_count _ _ _ _ _ _ _ _ h2
    rw [ht] at h3
    omega

/-- Witness of C25 as amended: on the sample stream, whose first container is a Geometry
container, `GoToEvent(1)` and `GoToGeometry(1)` both return success after two advances. -/
theorem seek_advance_count_witness :
    (∃ r2, GoToEventCounted 1 (construct seekDocument UNKNOWN_CONTAINER) =
      some (.returned STATUS_CODE_SUCCESS, r2, 1 + 1)) ∧
    (∃ r2, GoToGeometryCounted 1 (construct seekDocument UNKNOWN_CONTAINER) =
      some (.returned STATUS_CODE_SUCCESS, r2, 1 + 1)) := by
  have he : GoToEventCounted 1 (construct seekDocument UNKNOWN_CONTAINER) =
      some (.returned STATUS_CODE_SUCCESS,
        (construct seekDocument UNKNOWN_CONTAINER).positioned
          [.element "Event" [], .element "Geometry" []], 2) := by decide
  have hg : GoToGeometryCounted 1 (construct seekDocument UNKNOWN_CONTAINER) =
      some (.returned STATUS_CODE_SUCCESS,
        (construct seekDocument UNKNOWN_CONTAINER).positioned [.element "Geometry" []], 2) := by
    decide
  have h1 := (seek_advance_count (construct seekDocument UNKNOWN_CONTAINER) _ 1 2
    (by decide)).1 he
  have h2 := (seek_advance_count (construct seekDocument UNKNOWN_CONTAINER) _ 1 2
    (by decide)).2.1 hg
  exact ⟨⟨_, h1 ▸ he⟩, ⟨_, h2 ▸ hg⟩⟩

/-- Counterexample to C25 as stated: on a stream whose first container is an Event
container, `GoToEvent(0)` returns success after one call of the advance to the next event,
not after none; the call moves the reader from the stream start onto that container. -/
theorem first_event_needs_an_advance :
    (containers emptyEventDocument).head?.map ContainerNode.containerId = some EVENT ∧
    GoToEventCounted 0 (construct emptyEventDocument UNKNOWN_CONTAINER) =
      some (.returned STATUS_CODE_SUCCESS,
        (construct emptyEventDocument UNKNOWN_CONTAINER).positioned [.element "Event" []],
        1) := by
  decide

end XmlFileReader

/-! ## The recorded container kind -/

namespace XmlFileReader

theorem GoToNextContainer_containerId (r : XmlFileReader) :
    (GoToNextContainer r).2.m_containerId = r.m_containerId := by
  simp only [GoToNextContainer]
  split
  · split <;> rfl
  · split <;> rfl

theorem containerExhausted_containerId (r : XmlFileReader) :
    (containerExhausted r).reader.m_containerId = r.m_containerId := by
  have h := GoToNextContainer_containerId r
  unfold containerExhausted
  split
  · rename_i h1
    rw [h1] at h
    exact h
  · rename_i h1
    rw [h1] at h
    exact h

theorem ReadNext_containerId (env : Env) (r : XmlFileReader) :
    (ReadNextGeometryComponent env r).reader.m_containerId = r.m_containerId ∧
    (ReadNextEventComponent env r).reader.m_containerId = r.m_containerId := by
  obtain ⟨hg, he⟩ := ReadNext_reader_cases env r
  constructor
  · rcases hg with h | h
    · rw [h, advanceRecord_containerId]
    · rw [h, containerExhausted_containerId, advanceRecord_containerId]
  · rcases he with h | h
    · rw [h, advanceRecord_containerId]
    · rw [h, containerExhausted_containerId, advanceRecord_containerId]

/-- C26. `ReadHeader` records the kind of the current container. `GoToNextContainer` leaves
the recorded kind as it was, and so do `ReadNextGeometryComponent` and
`ReadNextEventComponent` on every path, the one of an exhausted container among them, and
`GoToEvent` and `GoToGeometry`; `GetNextContainerId` only reads the name of the current
node, the embedding gives it no reader to return. So when a container is exhausted and
another node follows it, the reader is on that node afterwards, the kind that
`GetNextContainerId` reads is the kind of that node, and the recorded kind is still what it
was. -/
theorem containerId_written_by_ReadHeader (env : Env) (r : XmlFileReader) :
    (ReadHeader r).2.m_containerId = r.GetNextContainerId ∧
    (GoToNextContainer r).2.m_containerId = r.m_containerId ∧
    (ReadNextGeometryComponent env r).reader.m_containerId = r.m_containerId ∧
    (ReadNextEventComponent env r).reader.m_containerId = r.m_containerId ∧
    (∀ n res, GoToEvent n r = some res → res.2.m_containerId = r.m_containerId) ∧
    (∀ n res, GoToGeometry n r = some res → res.2.m_containerId = r.m_containerId) ∧
    (∀ node next rest, r.m_isAtFileStart = false →
      r.m_pContainerXmlNode = node :: next :: rest →
      (advanceRecord r).m_pCurrentXmlElement = [] →
      (ReadNextGeometryComponent env r).outcome = .returned STATUS_CODE_NOT_FOUND ∧
      (ReadNextEventComponent env r).outcome = .returned STATUS_CODE_NOT_FOUND ∧
      (ReadNextGeometryComponent env r).reader = (ReadNextEventComponent env r).reader ∧
      (ReadNextEventComponent env r).reader.m_pContainerXmlNode = next :: rest ∧
      (ReadNextEventComponent env r).reader.GetNextContainerId = next.containerId ∧
      (ReadNextEventComponent env r).reader.m_containerId = r.m_containerId) := by
  refine ⟨?_, GoToNextContainer_containerId r, (ReadNext_containerId env r).1,
    (ReadNext_containerId env r).2, ?_, ?_, ?_⟩
  · rw [ReadHeader_eq]
  · intro n res h
    rw [GoToEvent_eq] at h
    have h2 := (Option.some.inj h).symm
    rw [h2]
    repeat (first | rfl | split)
  · intro n res h
    rw [GoToGeometry_eq] at h
    have h2 := (Option.some.inj h).symm
    rw [h2]
    repeat (first | rfl | split)
  · intro node next rest hflag hptr hnil
    have hex := containerExhausted_moves (advanceRecord r) node (next :: rest)
      (by rw [(advanceRecord_flag r).1]; exact hflag)
      (by rw [(advanceRecord_flag r).2.1]; exact hptr)
    have hg : ReadNextGeometryComponent env r = containerExhausted (advanceRecord r) := by
      simp only [ReadNextGeometryComponent, hnil, if_true]
    have he : ReadNextEventComponent env r = containerExhausted (advanceRecord r) := by
      simp only [ReadNextEventComponent, hnil, if_true]
    rw [hg, he, hex]
    refine ⟨rfl, rfl, rfl, rfl, ?_, advanceRecord_containerId r⟩
    rw [GetNextContainerId_cons _ next rest rfl]
    rfl

/-- Witness of C26: on a stream of an empty Geometry container followed by an Event
container, after the Geometry container is exhausted the reader is on the Event container
and the recorded kind is still `GEOMETRY`. -/
theorem containerId_written_by_ReadHeader_witness :
    (ReadNextGeometryComponent (sampleEnv STATUS_CODE_NOT_FOUND)
      (readerAfterHeader strayDocument)).reader.GetNextContainerId = EVENT ∧
    (ReadNextGeometryComponent (sampleEnv STATUS_CODE_NOT_FOUND)
      (readerAfterHeader strayDocument)).reader.m_containerId = GEOMETRY ∧
    (ReadHeader (ReadNextGeometryComponent (sampleEnv STATUS_CODE_NOT_FOUND)
      (readerAfterHeader strayDocument)).reader).2.m_containerId = EVENT ∧
    (ReadNextEventComponent (sampleEnv STATUS_CODE_NOT_FOUND)
      (readerAfterHeader strayDocument)).reader.m_containerId =
      (readerAfterHeader strayDocument).m_containerId :=
  ⟨by decide, by decide, by decide,
    ((containerId_written_by_ReadHeader (sampleEnv STATUS_CODE_NOT_FOUND)
      (readerAfterHeader strayDocument)).2.2.2.2.2.2 (.element "Geometry" [])
      (.element "Event" [sampleSubDetector]) [] (by decide) (by decide)
      (by decide)).2.2.2.2.2⟩

end XmlFileReader

/-! ## The null reference is never a parent or a daughter -/

namespace ParticleFlowObject

theorem perform_keeps_null_out (pfo : ParticleFlowObject) (op : Operation) (k0 : SetKind)
    (hk0 : k0.rejectsNull = true) (h : NULL ∉ pfo.getSet k0) :
    NULL ∉ (pfo.perform op).getSet k0 := by
  cases op with
  | add k p =>
    show NULL ∉ (pfo.add k p).2.getSet k0
    by_cases hk : k0 = k
    · subst hk
      rw [add_getSet]
      by_cases hp : p = NULL
      · rw [if_pos ⟨hk0, hp⟩]
        exact h
      · rw [if_neg (fun hc => hp hc.2), PtrSet.mem_insert]
        rintro (h1 | h1)
        · exact hp h1.symm
        · exact h h1
    · rw [(add_frame pfo k p).1 k0 hk]
      exact h
  | remove k p =>
    show NULL ∉ (pfo.remove k p).2.getSet k0
    by_cases hk : k0 = k
    · subst hk
      by_cases hm : p ∈ pfo.getSet k0
      · rw [(remove_of_mem pfo k0 p hm).2, PtrSet.mem_erase]
        exact fun hc => h hc.2
      · rw [remove_of_not_mem pfo k0 p hm]
        exact h
    · rw [(remove_frame pfo k p).1 k0 hk]
      exact h

theorem performAll_keeps_null_out (operations : List Operation) (k0 : SetKind)
    (hk0 : k0.rejectsNull = true) :
    ∀ pfo : ParticleFlowObject, NULL ∉ pfo.getSet k0 →
      NULL ∉ (pfo.performAll operations).getSet k0 := by
  induction operations with
  | nil =>
    intro pfo h
    exact h
  | cons op rest ih =>
    intro pfo h
    exact ih (pfo.perform op) (perform_keeps_null_out pfo op k0 hk0 h)

/-- C27. From a newly constructed particle flow object, after any sequence of calls of the
add and remove operations of the five sets, with any arguments, the null reference is
neither among the parents nor among the daughters; `RemoveParent` and `RemoveDaughter` of
the null reference then return "not found" and leave the object as it is. -/
theorem null_never_parent_or_daughter (parameters : Parameters)
    (operations : List Operation) :
    NULL ∉ ((construct parameters).performAll operations).m_parentPfoList ∧
    NULL ∉ ((construct parameters).performAll operations).m_daughterPfoList ∧
    ((construct parameters).performAll operations).RemoveParent NULL =
      (STATUS_CODE_NOT_FOUND, (construct parameters).performAll operations) ∧
    ((construct parameters).performAll operations).RemoveDaughter NULL =
      (STATUS_CODE_NOT_FOUND, (construct parameters).performAll operations) := by
  have hp : NULL ∉ ((construct parameters).performAll operations).getSet .parents :=
    performAll_keeps_null_out operations .parents rfl (construct parameters)
      (fun h => by cases h)
  have hd : NULL ∉ ((construct parameters).performAll operations).getSet .daughters :=
    performAll_keeps_null_out operations .daughters rfl (construct parameters)
      (fun h => by cases h)
  exact ⟨hp, hd, remove_of_not_mem _ .parents NULL hp, remove_of_not_mem _ .daughters NULL hd⟩

/-- An instance of C27: the sample object after `AddParent` of the null reference, of the
reference 64 and of the reference 64 again, `AddToPfo` of a null track, and `RemoveDaughter`
of an absent reference, has the parent 64 only. -/
theorem null_never_parent_or_daughter_sample :
    (sample.performAll
      [.add .parents NULL, .add .parents 64, .add .parents 64, .add .tracks NULL,
        .remove .daughters 8]).m_parentPfoList.elems = [64] ∧
    (sample.performAll
      [.add .parents NULL, .add .parents 64, .add .parents 64, .add .tracks NULL,
        .remove .daughters 8]).m_trackList.elems = [0, 16] ∧
    (sample.performAll
      [.add .parents NULL, .add .parents 64, .add .parents 64, .add .tracks NULL,
        .remove .daughters 8]).RemoveParent NULL =
      (STATUS_CODE_NOT_FOUND, sample.performAll
        [.add .parents NULL, .add .parents 64, .add .parents 64, .add .tracks NULL,
          .remove .daughters 8]) :=
  ⟨by decide, by decide,
    (null_never_parent_or_daughter _
      [.add .parents NULL, .add .parents 64, .add .parents 64, .add .tracks NULL,
        .remove .daughters 8]).2.2.1⟩

end ParticleFlowObject

end pandora
